import Mathlib

/-!
Compact Time.

A shallow embedding of `src/library.c` (the compact date, time and timestamp
codec) together with theorems about it.

Conventions of the embedding.

* A byte is a natural number below 256; a buffer is a list of bytes.
* A C `unsigned` / `uint32_t` is a natural number reduced modulo `2 ^ 32`,
  a `uint16_t` modulo `2 ^ 16`, a `uint64_t` modulo `2 ^ 64`.
* A C `int` that may be negative is an `Int`; the bitwise operations the
  source performs on signed values are carried out on the 32-bit two's
  complement pattern (`toU32`, `toI32`, `neg32`, `sar32`).
* An encoder returns its C return value together with the bytes it stored
  in `dst`, which are always stored contiguously from index 0.
* A decoder receives the source buffer as a list; `src_length` is its length.
-/

namespace CompactTime

/-! ## Machine integers -/

/-- The 32-bit two's complement pattern of an integer (conversion to `uint32_t`). -/
def toU32 (x : Int) : Nat := (x % 4294967296).toNat

/-- The signed value of a 32-bit pattern (conversion of `uint32_t` to `int`). -/
def toI32 (u : Nat) : Int :=
  if u % 4294967296 < 2147483648 then ((u % 4294967296 : Nat) : Int)
  else ((u % 4294967296 : Nat) : Int) - 4294967296

/-- Two's complement negation of a 32-bit pattern. -/
def neg32 (u : Nat) : Nat := (4294967296 - u % 4294967296) % 4294967296

/-- Arithmetic right shift of a 32-bit pattern by `n` (at most 32) positions:
the sign bit is replicated into the vacated positions. -/
def sar32 (u n : Nat) : Nat :=
  if u % 4294967296 < 2147483648 then (u % 4294967296) >>> n
  else ((u % 4294967296) >>> n) ||| (4294967296 - 2 ^ (32 - n))

/-! ## Constants (library.c lines 42-80, compact_time.h line 54) -/

def ERROR_OUT_OF_RANGE : Int := -0x7fffffff

def YEAR_BIAS : Int := 2000
def BITS_PER_YEAR_GROUP : Nat := 7

/-- The macro `FAILURE_AT_POS(A)`, which is `-(A)`. -/
def FAILURE_AT_POS (a : Int) : Int := -a

def SIZE_UTC : Nat := 1
def SIZE_MAGNITUDE : Nat := 2
def SIZE_SUBSECOND : Nat := 10
def SIZE_SECOND : Nat := 6
def SIZE_MINUTE : Nat := 6
def SIZE_HOUR : Nat := 5
def SIZE_DAY : Nat := 5
def SIZE_MONTH : Nat := 4
def SIZE_LATITUDE : Nat := 14
def SIZE_LONGITUDE : Nat := 15
def SIZE_DATE_YEAR_UPPER_BITS : Nat := 7

def BASE_SIZE_TIME : Nat := SIZE_UTC + SIZE_MAGNITUDE + SIZE_SECOND + SIZE_MINUTE + SIZE_HOUR
def BASE_SIZE_TIMESTAMP : Nat :=
  SIZE_MAGNITUDE + SIZE_SECOND + SIZE_MINUTE + SIZE_HOUR + SIZE_DAY + SIZE_MONTH

def BYTE_COUNT_DATE : Nat := 2

def MASK_MAGNITUDE : Nat := (1 <<< SIZE_MAGNITUDE) - 1
def MASK_SECOND : Nat := (1 <<< SIZE_SECOND) - 1
def MASK_MINUTE : Nat := (1 <<< SIZE_MINUTE) - 1
def MASK_HOUR : Nat := (1 <<< SIZE_HOUR) - 1
def MASK_DAY : Nat := (1 <<< SIZE_DAY) - 1
def MASK_MONTH : Nat := (1 <<< SIZE_MONTH) - 1
def MASK_LATITUDE : Nat := (1 <<< SIZE_LATITUDE) - 1
def MASK_LONGITUDE : Nat := (1 <<< SIZE_LONGITUDE) - 1
def MASK_DATE_YEAR_UPPER_BITS : Nat := (1 <<< SIZE_DATE_YEAR_UPPER_BITS) - 1

/-- The table `g_timestamp_year_upper_bits[] = { 4, 2, 0, 6 }`. -/
def g_timestamp_year_upper_bits (magnitude : Nat) : Nat := [4, 2, 0, 6].getD magnitude 0

/-- The table `g_subsec_multipliers[] = { 1, 1000000, 1000, 1 }`. -/
def g_subsec_multipliers (magnitude : Nat) : Nat := [1, 1000000, 1000, 1].getD magnitude 0

/-! ## Data model (compact_time.h) -/

/-- The struct `ct_date`: `int32_t year`, `uint8_t month`, `uint8_t day`. -/
structure ct_date where
  year : Int
  month : Nat
  day : Nat
  deriving DecidableEq

/-- The tagged timezone: `CT_TZ_ZERO`, `CT_TZ_STRING` with its label bytes
(the bytes of `as_string` before the terminating NUL), `CT_TZ_LATLONG` with
latitude and longitude. -/
inductive ct_timezone where
  | zero : ct_timezone
  | string (as_string : List Nat) : ct_timezone
  | latlong (latitude longitude : Int) : ct_timezone
  deriving DecidableEq

/-- The struct `ct_time`. -/
structure ct_time where
  hour : Nat
  minute : Nat
  second : Nat
  nanosecond : Nat
  timezone : ct_timezone
  deriving DecidableEq

/-- The struct `ct_timestamp`. -/
structure ct_timestamp where
  date : ct_date
  time : ct_time
  deriving DecidableEq

/-! ## Helpers of the external byte-order and VLQ libraries -/

/-- Modelled from the spec: `copy_le` of `<endianness/endianness.h>` is not part of the
sources; the spec has the low `byte_count` bytes of the accumulator emitted in
little-endian order. -/
def copy_le (accumulator byte_count : Nat) : List Nat :=
  (List.range byte_count).map (fun i => (accumulator >>> (8 * i)) &&& 0xff)

/-- Modelled from the spec: `write_uint16_le`, two bytes, little-endian. -/
def write_uint16_le (value : Nat) : List Nat := copy_le value 2

/-- Modelled from the spec: `write_uint32_le`, four bytes, little-endian. -/
def write_uint32_le (value : Nat) : List Nat := copy_le value 4

/-- Modelled from the spec: the inverse of `copy_le`, reading `byte_count` bytes,
little-endian, into a zero-initialised accumulator (bytes beyond the end of the
list read as zero; every caller checks the length first). -/
def read_le : List Nat → Nat → Nat
  | _, 0 => 0
  | [], _ + 1 => 0
  | b :: bs, n + 1 => (b % 256) ||| (read_le bs n <<< 8)

/-- Modelled from the spec: `read_uint16_le`. -/
def read_uint16_le (src : List Nat) : Nat := read_le src 2

/-- Modelled from the spec: `read_uint32_le`. -/
def read_uint32_le (src : List Nat) : Nat := read_le src 4

/-- Modelled from the spec: part of `rvlq_encode_32` of `<vlq/vlq.h>`, which is not part of the
sources. The number of 7-bit groups of the reverse VLQ of a 32-bit value: the least count
that holds the value, one for zero. -/
def rvlq_group_count (value : Nat) : Nat :=
  if value < 128 then 1
  else if value < 16384 then 2
  else if value < 2097152 then 3
  else if value < 268435456 then 4
  else 5

/-- Modelled from the spec: part of `rvlq_encode_32` of `<vlq/vlq.h>`, which is not part of the
sources. The bytes of the reverse VLQ of a 32-bit value: most significant 7-bit group first,
the high bit set on every group but the last; a single zero byte for zero. -/
def rvlq_bytes (value : Nat) : List Nat :=
  ((List.range (rvlq_group_count value)).reverse).map
    (fun i => ((value >>> (7 * i)) &&& 0x7f) ||| (if i = 0 then 0 else 0x80))

/-- Modelled from the spec: `rvlq_encode_32` of `<vlq/vlq.h>` is not part of the
sources. The spec describes a variable-length integer with the most significant
7-bit group first and the continuation bit set on every group but the last; a
buffer that is too short yields the negated count of bytes stored before the
shortfall. The result is the return value and the bytes stored. -/
def rvlq_encode_32 (value : Nat) (dst_length : Int) : Int × List Nat :=
  let bytes := rvlq_bytes (value % 4294967296)
  if (bytes.length : Int) > dst_length then
    (FAILURE_AT_POS (dst_length.toNat : Int), bytes.take dst_length.toNat)
  else ((bytes.length : Int), bytes)

/-- Modelled from the spec: the loop of `rvlq_decode_32` of `<vlq/vlq.h>`, which is not part of
the sources; `count` bytes consumed so far, `acc` the accumulator. A group that would push
the accumulator beyond 32 bits is a range error, the end of the buffer a buffer-short
error. -/
def rvlq_decode_loop (acc count : Nat) : List Nat → Int × Nat
  | [] => (FAILURE_AT_POS (count : Int), acc)
  | b :: rest =>
    if 33554432 ≤ acc then (ERROR_OUT_OF_RANGE, acc)
    else if b &&& 0x80 = 0 then (((count + 1 : Nat) : Int), (acc <<< 7) ||| (b &&& 0x7f))
    else rvlq_decode_loop ((acc <<< 7) ||| (b &&& 0x7f)) (count + 1) rest

/-- Modelled from the spec: `rvlq_decode_32` of `<vlq/vlq.h>` is not part of the
sources. Per the spec the accumulator is seeded with `value` and the groups are
read into its low bits until a byte without continuation bit; an unterminated
stream is a buffer-short error, an overflow of 32 bits the range sentinel. The
result is the return value and the new contents of `*value` (unchanged on failure). -/
def rvlq_decode_32 (value : Nat) (src : List Nat) : Int × Nat :=
  let r := rvlq_decode_loop (value % 4294967296) 0 src
  if r.1 > 0 then r else (r.1, value)

/-! ## library.c: static helpers -/

def get_subsecond_magnitude (nanoseconds : Nat) : Nat :=
  if nanoseconds = 0 then 0
  else if nanoseconds % 1000 ≠ 0 then 3
  else if nanoseconds % 1000000 ≠ 0 then 2
  else 1

/-- The function `zigzag_encode`: `(value >> 31) ^ (value << 1)` on the 32-bit pattern of
`value`, the right shift being arithmetic. -/
def zigzag_encode (value : Int) : Nat :=
  sar32 (toU32 value) 31 ^^^ ((toU32 value <<< 1) % 4294967296)

/-- The function `zigzag_decode`: `(value >> 1) ^ -(value & 1)` on `uint32_t`, returned as `int`. -/
def zigzag_decode (value : Nat) : Int :=
  toI32 (((value % 4294967296) >>> 1) ^^^ neg32 (value &&& 1))

/-- The function `encode_year`; the `int` subtraction wraps on 32 bits. -/
def encode_year (year : Int) : Nat :=
  zigzag_encode (toI32 (toU32 (year - YEAR_BIAS)))

def encode_year_and_utc_flag (year : Int) (is_utc_timezone : Nat) : Nat :=
  ((encode_year year <<< 1) % 4294967296) ||| is_utc_timezone

def decode_year (encoded_year : Nat) : Int :=
  toI32 (toU32 (zigzag_decode encoded_year + YEAR_BIAS))

/-- The function `get_base_byte_count`. The remainder is an `int8_t`, promoted to `int` for
`((remainder | (-remainder)) >> 7) & 1`, evaluated here on 32-bit patterns. -/
def get_base_byte_count (base_size magnitude : Nat) : Nat :=
  let size := base_size + SIZE_SUBSECOND * magnitude
  let remainder := size &&& 7
  let extra_byte := (sar32 (remainder ||| neg32 remainder) 7) &&& 1
  size / 8 + extra_byte

/-- The `while(year != 0)` loop of `get_year_group_count`. -/
def get_year_group_count_loop (year size : Nat) : Nat :=
  if year = 0 then size
  else get_year_group_count_loop (year >>> BITS_PER_YEAR_GROUP) (size + 1)
termination_by year
decreasing_by
  simp_wf
  rw [Nat.shiftRight_eq_div_pow]
  exact Nat.div_lt_self (Nat.pos_of_ne_zero (by assumption)) (by norm_num [BITS_PER_YEAR_GROUP])

def get_year_group_count (encoded_year uncounted_bits : Nat) : Nat :=
  let year := (encoded_year % 4294967296) >>> uncounted_bits
  if year = 0 then 1 else get_year_group_count_loop year 0

/-- The length of a C string: the number of bytes before the first NUL. -/
def strlen (s : List Nat) : Nat := (s.takeWhile (fun b => b != 0)).length

/-- The function `timezone_encode`; `none` is the `NULL` pointer. -/
def timezone_encode (dst_length : Int) (timezone : Option (List Nat)) : Int × List Nat :=
  match timezone with
  | none => (0, [])
  | some tz =>
    let string_length : Int := (strlen tz : Int)
    if string_length + 1 > dst_length then (FAILURE_AT_POS (string_length + 1), [])
    else (string_length + 1, ((strlen tz <<< 1) % 256) :: tz.take (strlen tz))

def timezone_encode_latlong (dst_length : Int) (latitude longitude : Int) : Int × List Nat :=
  let value := toU32 longitude &&& MASK_LONGITUDE
  let value := (value <<< SIZE_LATITUDE) % 4294967296
  let value := value ||| (toU32 latitude &&& MASK_LATITUDE)
  let value := (value <<< 1) % 4294967296
  let value := value ||| 1
  let length : Int := 4
  if length > dst_length then (FAILURE_AT_POS length, [])
  else (length, write_uint32_le value)

/-- The function `timezone_decode`. The result is the return value and, on success, the
decoded timezone (type, label or coordinates); `none` when nothing was stored. -/
def timezone_decode (src : List Nat) : Int × Option ct_timezone :=
  let src_length : Int := (src.length : Int)
  if src_length < 1 then (FAILURE_AT_POS 1, none)
  else
    let is_latlong := src.headD 0 &&& 1
    if is_latlong ≠ 0 then
      let size : Int := 4
      if size > src_length then (FAILURE_AT_POS size, none)
      else
        let latlong := read_uint32_le src >>> 1
        let latitude := latlong &&& MASK_LATITUDE
        let latlong := latlong >>> SIZE_LATITUDE
        let longitude := latlong &&& MASK_LONGITUDE
        (size, some (ct_timezone.latlong (latitude : Int) (longitude : Int)))
    else
      let offset : Nat := 0
      let length := src.headD 0 >>> 1
      let offset := offset + 1
      if ((offset + length : Nat) : Int) > src_length then
        (FAILURE_AT_POS ((offset + length : Nat) : Int), none)
      else
        (((offset + length : Nat) : Int), some (ct_timezone.string ((src.drop offset).take length)))

/-- The function `timezone_decode_old`, which stores into `*timezone`. -/
def timezone_decode_old (timezone : ct_timezone) (src : List Nat) (timezone_is_utc : Bool) :
    Int × ct_timezone :=
  if timezone_is_utc then (0, ct_timezone.zero)
  else
    let src_length : Int := (src.length : Int)
    if src_length < 1 then (FAILURE_AT_POS 1, timezone)
    else
      let is_latlong := src.headD 0 &&& 1
      if is_latlong ≠ 0 then
        let size : Int := 4
        if size > src_length then (FAILURE_AT_POS size, timezone)
        else
          let latlong := read_uint32_le src >>> 1
          let latitude := latlong &&& MASK_LATITUDE
          let latlong := latlong >>> SIZE_LATITUDE
          let longitude := latlong &&& MASK_LONGITUDE
          (size, ct_timezone.latlong (latitude : Int) (longitude : Int))
      else
        let offset : Nat := 0
        let length := src.headD 0 >>> 1
        let offset := offset + 1
        if ((offset + length : Nat) : Int) > src_length then
          (FAILURE_AT_POS ((offset + length : Nat) : Int), timezone)
        else
          (((offset + length : Nat) : Int), ct_timezone.string ((src.drop offset).take length))

def get_time_nanosecond_size (nanosecond : Nat) : Nat :=
  let magnitude := get_subsecond_magnitude nanosecond
  let base_byte_count := get_base_byte_count BASE_SIZE_TIME magnitude
  base_byte_count

def get_timezone_size (timezone : Option (List Nat)) : Nat :=
  match timezone with
  | none => 0
  | some tz => strlen tz + 1

def get_timezone_latlong_size : Nat := 4

def get_timestamp_base_size (year : Int) (nanosecond : Nat) : Nat :=
  let magnitude := get_subsecond_magnitude nanosecond
  let base_byte_count := get_base_byte_count BASE_SIZE_TIMESTAMP magnitude
  let encoded_year := encode_year year
  let year_group_count :=
    get_year_group_count ((encoded_year <<< 1) % 4294967296) (g_timestamp_year_upper_bits magnitude)
  base_byte_count + year_group_count

def encode_time_base (dst_length : Int) (hour minute second nanosecond : Nat)
    (is_utc_timezone : Bool) : Int × List Nat :=
  let magnitude := get_subsecond_magnitude nanosecond
  let subsecond := nanosecond / g_subsec_multipliers magnitude
  let accumulator := subsecond
  let accumulator := ((accumulator <<< SIZE_SECOND) + second) % 18446744073709551616
  let accumulator := ((accumulator <<< SIZE_MINUTE) + minute) % 18446744073709551616
  let accumulator := ((accumulator <<< SIZE_HOUR) + hour) % 18446744073709551616
  let accumulator := ((accumulator <<< SIZE_MAGNITUDE) + magnitude) % 18446744073709551616
  let accumulator := ((accumulator <<< 1) + is_utc_timezone.toNat) % 18446744073709551616
  let accumulator_size := get_base_byte_count BASE_SIZE_TIME magnitude
  if (accumulator_size : Int) > dst_length then (FAILURE_AT_POS (accumulator_size : Int), [])
  else ((accumulator_size : Int), copy_le accumulator accumulator_size)

/-- The function `encode_timestamp_base`. The shifts by `year_group_bit_count` are taken
mathematically; C leaves them undefined from 32 bits on, which only a year stream of five
groups reaches. -/
def encode_timestamp_base (dst_length : Int) (year : Int) (month day hour minute second
    nanosecond : Nat) (is_utc_timezone : Bool) : Int × List Nat :=
  let magnitude := get_subsecond_magnitude nanosecond
  let subsecond := nanosecond / g_subsec_multipliers magnitude
  let encoded_year := encode_year_and_utc_flag year is_utc_timezone.toNat
  let year_group_count := get_year_group_count encoded_year (g_timestamp_year_upper_bits magnitude)
  let year_group_bit_count := year_group_count * BITS_PER_YEAR_GROUP
  let year_grouped_mask := (1 <<< year_group_bit_count) - 1
  let accumulator := encoded_year >>> year_group_bit_count
  let accumulator := ((accumulator <<< (SIZE_SUBSECOND * magnitude)) + subsecond) % 18446744073709551616
  let accumulator := ((accumulator <<< SIZE_MONTH) + month) % 18446744073709551616
  let accumulator := ((accumulator <<< SIZE_DAY) + day) % 18446744073709551616
  let accumulator := ((accumulator <<< SIZE_HOUR) + hour) % 18446744073709551616
  let accumulator := ((accumulator <<< SIZE_MINUTE) + minute) % 18446744073709551616
  let accumulator := ((accumulator <<< SIZE_SECOND) + second) % 18446744073709551616
  let accumulator := ((accumulator <<< SIZE_MAGNITUDE) + magnitude) % 18446744073709551616
  let accumulator_size := get_base_byte_count BASE_SIZE_TIMESTAMP magnitude
  if (accumulator_size : Int) > dst_length then (FAILURE_AT_POS (accumulator_size : Int), [])
  else
    let base := copy_le accumulator accumulator_size
    let offset : Int := (accumulator_size : Int)
    let rvlq := rvlq_encode_32 (encoded_year &&& year_grouped_mask) (dst_length - offset)
    if rvlq.1 ≤ 0 then (FAILURE_AT_POS offset + rvlq.1, base ++ rvlq.2)
    else (offset + rvlq.1, base ++ rvlq.2)

/-! ## library.c: public API -/

def ct_date_encoded_size_x (year : Int) : Nat :=
  let encoded_year := encode_year year
  BYTE_COUNT_DATE + get_year_group_count encoded_year SIZE_DATE_YEAR_UPPER_BITS

def ct_date_encoded_size (date : ct_date) : Nat :=
  ct_date_encoded_size_x date.year

def ct_time_encoded_size_latlong (nanosecond : Nat) : Nat :=
  get_time_nanosecond_size nanosecond + get_timezone_latlong_size

def ct_time_encoded_size_x (nanosecond : Nat) (timezone : Option (List Nat)) : Nat :=
  get_time_nanosecond_size nanosecond + get_timezone_size timezone

def ct_time_encoded_size (time : ct_time) : Nat :=
  match time.timezone with
  | ct_timezone.zero => ct_time_encoded_size_x time.nanosecond none
  | ct_timezone.string as_string => ct_time_encoded_size_x time.nanosecond (some as_string)
  | ct_timezone.latlong _ _ => ct_time_encoded_size_latlong time.nanosecond

def ct_timestamp_encoded_size_latlong (year : Int) (nanosecond : Nat) : Nat :=
  get_timestamp_base_size year nanosecond + get_timezone_latlong_size

def ct_timestamp_encoded_size_x (year : Int) (nanosecond : Nat) (timezone : Option (List Nat)) :
    Nat :=
  get_timestamp_base_size year nanosecond + get_timezone_size timezone

def ct_timestamp_encoded_size (timestamp : ct_timestamp) : Nat :=
  match timestamp.time.timezone with
  | ct_timezone.zero =>
    ct_timestamp_encoded_size_x timestamp.date.year timestamp.time.nanosecond none
  | ct_timezone.string as_string =>
    ct_timestamp_encoded_size_x timestamp.date.year timestamp.time.nanosecond (some as_string)
  | ct_timezone.latlong _ _ =>
    ct_timestamp_encoded_size_latlong timestamp.date.year timestamp.time.nanosecond

/-- The function `ct_date_encode`, with the reverse VLQ encoder it calls as a parameter; the
accumulator is a `uint16_t`. -/
def ct_date_encode_with (rvlq_encode : Nat → Int → Int × List Nat) (date : ct_date)
    (dst_length : Int) : Int × List Nat :=
  let encoded_year := encode_year date.year
  let year_group_count := get_year_group_count encoded_year SIZE_DATE_YEAR_UPPER_BITS
  let year_group_bit_count := year_group_count * BITS_PER_YEAR_GROUP
  let year_grouped_mask := (1 <<< year_group_bit_count) - 1
  let accumulator := (encoded_year >>> year_group_bit_count) % 65536
  let accumulator := ((accumulator <<< SIZE_MONTH) ||| date.month) % 65536
  let accumulator := ((accumulator <<< SIZE_DAY) ||| date.day) % 65536
  let accumulator_size : Int := (BYTE_COUNT_DATE : Int)
  if accumulator_size > dst_length then (FAILURE_AT_POS accumulator_size, [])
  else
    let base := write_uint16_le accumulator
    let offset : Int := accumulator_size
    let rvlq := rvlq_encode (encoded_year &&& year_grouped_mask) (dst_length - offset)
    if rvlq.1 ≤ 0 then (FAILURE_AT_POS offset + rvlq.1, base ++ rvlq.2)
    else (offset + rvlq.1, base ++ rvlq.2)

/-- The function `ct_date_encode`, calling `rvlq_encode_32`. -/
def ct_date_encode (date : ct_date) (dst_length : Int) : Int × List Nat :=
  ct_date_encode_with rvlq_encode_32 date dst_length

def ct_time_encode_x (dst_length : Int) (hour minute second nanosecond : Nat)
    (timezone : Option (List Nat)) : Int × List Nat :=
  let base := encode_time_base dst_length hour minute second nanosecond timezone.isNone
  let offset := base.1
  if offset ≤ 0 then (offset, base.2)
  else
    let tz := timezone_encode (dst_length - offset) timezone
    if tz.1 < 0 then (FAILURE_AT_POS offset + tz.1, base.2 ++ tz.2)
    else (offset + tz.1, base.2 ++ tz.2)

def ct_time_encode_latlong (dst_length : Int) (hour minute second nanosecond : Nat)
    (latitude longitude : Int) : Int × List Nat :=
  let base := encode_time_base dst_length hour minute second nanosecond false
  let offset := base.1
  if offset ≤ 0 then (offset, base.2)
  else
    let tz := timezone_encode_latlong (dst_length - offset) latitude longitude
    if tz.1 < 0 then (FAILURE_AT_POS offset + tz.1, base.2 ++ tz.2)
    else (offset + tz.1, base.2 ++ tz.2)

def ct_time_encode (time : ct_time) (dst_length : Int) : Int × List Nat :=
  match time.timezone with
  | ct_timezone.zero =>
    ct_time_encode_x dst_length time.hour time.minute time.second time.nanosecond none
  | ct_timezone.string as_string =>
    ct_time_encode_x dst_length time.hour time.minute time.second time.nanosecond (some as_string)
  | ct_timezone.latlong latitude longitude =>
    ct_time_encode_latlong dst_length time.hour time.minute time.second time.nanosecond
      latitude longitude

def ct_timestamp_encode_x (dst_length : Int) (year : Int) (month day hour minute second
    nanosecond : Nat) (timezone : Option (List Nat)) : Int × List Nat :=
  let base := encode_timestamp_base dst_length year month day hour minute second nanosecond
    timezone.isNone
  let offset := base.1
  if offset ≤ 0 then (offset, base.2)
  else
    let tz := timezone_encode (dst_length - offset) timezone
    if tz.1 < 0 then (FAILURE_AT_POS offset + tz.1, base.2 ++ tz.2)
    else (offset + tz.1, base.2 ++ tz.2)

def ct_timestamp_encode_latlong (dst_length : Int) (year : Int) (month day hour minute second
    nanosecond : Nat) (latitude longitude : Int) : Int × List Nat :=
  let base := encode_timestamp_base dst_length year month day hour minute second nanosecond false
  let offset := base.1
  if offset ≤ 0 then (offset, base.2)
  else
    let tz := timezone_encode_latlong (dst_length - offset) latitude longitude
    if tz.1 < 0 then (FAILURE_AT_POS offset + tz.1, base.2 ++ tz.2)
    else (offset + tz.1, base.2 ++ tz.2)

def ct_timestamp_encode (timestamp : ct_timestamp) (dst_length : Int) : Int × List Nat :=
  match timestamp.time.timezone with
  | ct_timezone.zero =>
    ct_timestamp_encode_x dst_length timestamp.date.year timestamp.date.month timestamp.date.day
      timestamp.time.hour timestamp.time.minute timestamp.time.second timestamp.time.nanosecond
      none
  | ct_timezone.string as_string =>
    ct_timestamp_encode_x dst_length timestamp.date.year timestamp.date.month timestamp.date.day
      timestamp.time.hour timestamp.time.minute timestamp.time.second timestamp.time.nanosecond
      (some as_string)
  | ct_timezone.latlong latitude longitude =>
    ct_timestamp_encode_latlong dst_length timestamp.date.year timestamp.date.month
      timestamp.date.day timestamp.time.hour timestamp.time.minute timestamp.time.second
      timestamp.time.nanosecond latitude longitude

/-- The function `ct_date_decode_x`. The arguments `year`, `month`, `day` are the contents of
the three output locations before the call; the result is the return value and their contents
after it. -/
def ct_date_decode_x (src : List Nat) (year : Int) (month day : Nat) : Int × Int × Nat × Nat :=
  let src_length : Int := (src.length : Int)
  if (BYTE_COUNT_DATE : Int) ≥ src_length then (FAILURE_AT_POS (BYTE_COUNT_DATE : Int), year, month, day)
  else
    let accumulator := read_uint16_le src
    let offset : Nat := BYTE_COUNT_DATE
    let day := accumulator &&& MASK_DAY
    let accumulator := accumulator >>> SIZE_DAY
    let month := accumulator &&& MASK_MONTH
    let accumulator := accumulator >>> SIZE_MONTH
    let year_encoded := accumulator &&& MASK_DATE_YEAR_UPPER_BITS
    let rvlq := rvlq_decode_32 year_encoded (src.drop offset)
    let decoded_group_count := rvlq.1
    if decoded_group_count < 1 then
      (FAILURE_AT_POS (offset : Int) + decoded_group_count, year, month, day)
    else
      ((offset : Int) + decoded_group_count, decode_year rvlq.2, month, day)

/-- The function `ct_date_decode`, which stores into `*date` only on success. -/
def ct_date_decode (src : List Nat) (date : ct_date) : Int × ct_date :=
  let r := ct_date_decode_x src 0 0 0
  let decode_count := r.1
  if decode_count > 0 then (decode_count, { year := r.2.1, month := r.2.2.1 % 256, day := r.2.2.2 % 256 })
  else (decode_count, date)

/-- The output locations of `ct_time_decode_x`; `timezone` is `none` as long as neither the
type nor a label or coordinates have been stored. -/
structure ct_time_decode_x_out where
  hour : Nat
  minute : Nat
  second : Nat
  nanosecond : Nat
  timezone : Option ct_timezone
  deriving DecidableEq

/-- The function `ct_time_decode_x`; `out` holds the output locations before the call. -/
def ct_time_decode_x (src : List Nat) (out : ct_time_decode_x_out) : Int × ct_time_decode_x_out :=
  let src_length : Int := (src.length : Int)
  if src_length < 1 then (FAILURE_AT_POS 1, out)
  else
    let timezone_is_utc := src.headD 0 &&& 1
    let magnitude := (src.headD 0 >>> 1) &&& MASK_MAGNITUDE
    let subsecond_multiplier := g_subsec_multipliers magnitude
    let size_subsecond := SIZE_SUBSECOND * magnitude
    let mask_subsecond := (1 <<< size_subsecond) - 1
    let offset := get_base_byte_count BASE_SIZE_TIME magnitude
    if (offset : Int) > src_length then (FAILURE_AT_POS (offset : Int), out)
    else
      let accumulator := read_le src offset
      let accumulator := accumulator >>> 1
      let accumulator := accumulator >>> SIZE_MAGNITUDE
      let hour := accumulator &&& MASK_HOUR
      let accumulator := accumulator >>> SIZE_HOUR
      let minute := accumulator &&& MASK_MINUTE
      let accumulator := accumulator >>> SIZE_MINUTE
      let second := accumulator &&& MASK_SECOND
      let accumulator := accumulator >>> SIZE_SECOND
      let nanosecond := ((accumulator &&& mask_subsecond) * subsecond_multiplier) % 4294967296
      if timezone_is_utc ≠ 0 then
        ((offset : Int), { hour := hour, minute := minute, second := second,
                           nanosecond := nanosecond, timezone := some ct_timezone.zero })
      else
        let tz := timezone_decode (src.drop offset)
        let timezone_byte_count := tz.1
        let stored := match tz.2 with
          | some z => some z
          | none => out.timezone
        if timezone_byte_count < 0 then
          (FAILURE_AT_POS (offset : Int) + timezone_byte_count,
            { hour := hour, minute := minute, second := second, nanosecond := nanosecond,
              timezone := stored })
        else
          ((offset : Int) + timezone_byte_count,
            { hour := hour, minute := minute, second := second, nanosecond := nanosecond,
              timezone := stored })

/-- The function `ct_time_decode`. Where `ct_time_decode_x` left the local `type` unset (a
failure before the timezone), C stores an indeterminate type; here the timezone is left as it
was. -/
def ct_time_decode (src : List Nat) (time : ct_time) : Int × ct_time :=
  let r := ct_time_decode_x src
    { hour := time.hour, minute := time.minute, second := time.second,
      nanosecond := time.nanosecond, timezone := none }
  (r.1, { hour := r.2.hour % 256, minute := r.2.minute % 256, second := r.2.second % 256,
          nanosecond := r.2.nanosecond,
          timezone := match r.2.timezone with
            | some z => z
            | none => time.timezone })

/-- The function `ct_timestamp_decode`, which stores into `*timestamp` as it goes. -/
def ct_timestamp_decode (src : List Nat) (timestamp : ct_timestamp) : Int × ct_timestamp :=
  let src_length : Int := (src.length : Int)
  if src_length < 1 then (FAILURE_AT_POS 1, timestamp)
  else
    let magnitude := src.headD 0 &&& MASK_MAGNITUDE
    let subsecond_multiplier := g_subsec_multipliers magnitude
    let size_subsecond := SIZE_SUBSECOND * magnitude
    let mask_subsecond := (1 <<< size_subsecond) - 1
    let offset := get_base_byte_count BASE_SIZE_TIMESTAMP magnitude
    if (offset : Int) ≥ src_length then (FAILURE_AT_POS (offset : Int), timestamp)
    else
      let accumulator := read_le src offset
      let accumulator := accumulator >>> SIZE_MAGNITUDE
      let second := accumulator &&& MASK_SECOND
      let accumulator := accumulator >>> SIZE_SECOND
      let minute := accumulator &&& MASK_MINUTE
      let accumulator := accumulator >>> SIZE_MINUTE
      let hour := accumulator &&& MASK_HOUR
      let accumulator := accumulator >>> SIZE_HOUR
      let day := accumulator &&& MASK_DAY
      let accumulator := accumulator >>> SIZE_DAY
      let month := accumulator &&& MASK_MONTH
      let accumulator := accumulator >>> SIZE_MONTH
      let nanosecond := ((accumulator &&& mask_subsecond) * subsecond_multiplier) % 4294967296
      let accumulator := accumulator >>> size_subsecond
      let year_encoded := accumulator % 4294967296
      let rvlq := rvlq_decode_32 year_encoded (src.drop offset)
      let decoded_group_count := rvlq.1
      if decoded_group_count < 1 then
        (FAILURE_AT_POS (offset : Int) + decoded_group_count,
          { date := { year := timestamp.date.year, month := month, day := day },
            time := { hour := hour, minute := minute, second := second, nanosecond := nanosecond,
                      timezone := timestamp.time.timezone } })
      else
        let offset : Int := (offset : Int) + decoded_group_count
        let year_encoded := rvlq.2
        let timezone_is_utc := year_encoded &&& 1
        let year_encoded := year_encoded >>> 1
        let year := decode_year year_encoded
        let tz := timezone_decode_old timestamp.time.timezone (src.drop offset.toNat)
          (timezone_is_utc != 0)
        let timezone_byte_count := tz.1
        if timezone_byte_count < 0 then
          (FAILURE_AT_POS offset + timezone_byte_count,
            { date := { year := year, month := month, day := day },
              time := { hour := hour, minute := minute, second := second,
                        nanosecond := nanosecond, timezone := tz.2 } })
        else
          (offset + timezone_byte_count,
            { date := { year := year, month := month, day := day },
              time := { hour := hour, minute := minute, second := second,
                        nanosecond := nanosecond, timezone := tz.2 } })

/-! ## Arithmetic forms used in the proofs -/

/-- The value packed by `encode_time_base`, written with multiplications: from the low end,
1 bit UTC flag, 2 bits magnitude, 5 bits hour, 6 bits minute, 6 bits second, then the
subsecond. -/
def time_accumulator (hour minute second nanosecond : Nat) (is_utc_timezone : Bool) : Nat :=
  (((((nanosecond / g_subsec_multipliers (get_subsecond_magnitude nanosecond)) * 64
    + second) * 64 + minute) * 32 + hour) * 4 + get_subsecond_magnitude nanosecond) * 2
    + is_utc_timezone.toNat

/-- The bytes that follow the base bytes for each timezone variant. -/
def timezone_bytes : ct_timezone → List Nat
  | ct_timezone.zero => []
  | ct_timezone.string s => ((s.length <<< 1) % 256) :: s
  | ct_timezone.latlong latitude longitude =>
    write_uint32_le (((toU32 longitude % 32768) * 16384 + toU32 latitude % 16384) * 2 + 1)

/-- Whether the timezone is the Zero variant (the UTC flag of the encoders). -/
def timezone_is_zero : ct_timezone → Bool
  | ct_timezone.zero => true
  | _ => false

/-- The coordinates of a LatLong timezone lie in the unsigned range of their fields:
latitude in 14 bits, longitude in 15 bits. -/
def latlong_in_field_range : ct_timezone → Prop
  | ct_timezone.latlong latitude longitude =>
    0 ≤ latitude ∧ latitude < 16384 ∧ 0 ≤ longitude ∧ longitude < 32768
  | _ => True

/-- The value packed by `encode_timestamp_base`, written with multiplications: from the low
end, 2 bits magnitude, 6 bits second, 6 bits minute, 5 bits hour, 5 bits day, 4 bits month,
the subsecond on 10 bits per magnitude step, then the inline upper bits of the year. -/
def timestamp_accumulator (upper month day hour minute second nanosecond : Nat) : Nat :=
  (((((((upper * 2 ^ (10 * get_subsecond_magnitude nanosecond)
    + nanosecond / g_subsec_multipliers (get_subsecond_magnitude nanosecond)) * 16 + month) * 32
    + day) * 32 + hour) * 64 + minute) * 64 + second) * 4) + get_subsecond_magnitude nanosecond

/-- The year stream splits without loss: the shifts by seven bits per counted group stay
below the 32 bits of the operand, and the reverse VLQ of the low bits has exactly the counted
number of groups (its most significant counted group is not zero, or one group was
counted). -/
def year_split_exact (encoded_year uncounted_bits : Nat) : Prop :=
  get_year_group_count encoded_year uncounted_bits * BITS_PER_YEAR_GROUP < 32 ∧
  rvlq_group_count
      (encoded_year &&&
        ((1 <<< (get_year_group_count encoded_year uncounted_bits * BITS_PER_YEAR_GROUP)) - 1))
    = get_year_group_count encoded_year uncounted_bits

/-- The accumulator of `encode_timestamp_base` as the function computes it, shift by shift,
on 64 bits. -/
def timestamp_base_word (year : Int) (month day hour minute second nanosecond : Nat)
    (is_utc_timezone : Bool) : Nat :=
  let magnitude := get_subsecond_magnitude nanosecond
  let subsecond := nanosecond / g_subsec_multipliers magnitude
  let encoded_year := encode_year_and_utc_flag year is_utc_timezone.toNat
  let year_group_count := get_year_group_count encoded_year (g_timestamp_year_upper_bits magnitude)
  let year_group_bit_count := year_group_count * BITS_PER_YEAR_GROUP
  let accumulator := encoded_year >>> year_group_bit_count
  let accumulator := ((accumulator <<< (SIZE_SUBSECOND * magnitude)) + subsecond) % 18446744073709551616
  let accumulator := ((accumulator <<< SIZE_MONTH) + month) % 18446744073709551616
  let accumulator := ((accumulator <<< SIZE_DAY) + day) % 18446744073709551616
  let accumulator := ((accumulator <<< SIZE_HOUR) + hour) % 18446744073709551616
  let accumulator := ((accumulator <<< SIZE_MINUTE) + minute) % 18446744073709551616
  let accumulator := ((accumulator <<< SIZE_SECOND) + second) % 18446744073709551616
  ((accumulator <<< SIZE_MAGNITUDE) + magnitude) % 18446744073709551616

/-- The low bits of the timestamp year stream that `encode_timestamp_base` hands to the
reverse VLQ encoder: `encoded_year & year_grouped_mask`. -/
def timestamp_year_low (year : Int) (nanosecond : Nat) (is_utc_timezone : Bool) : Nat :=
  let magnitude := get_subsecond_magnitude nanosecond
  let encoded_year := encode_year_and_utc_flag year is_utc_timezone.toNat
  let year_group_count := get_year_group_count encoded_year (g_timestamp_year_upper_bits magnitude)
  let year_group_bit_count := year_group_count * BITS_PER_YEAR_GROUP
  encoded_year &&& ((1 <<< year_group_bit_count) - 1)

/-- The accumulator of `ct_date_encode` as the function computes it, on 16 bits. -/
def date_base_word (date : ct_date) : Nat :=
  let encoded_year := encode_year date.year
  let year_group_count := get_year_group_count encoded_year SIZE_DATE_YEAR_UPPER_BITS
  let year_group_bit_count := year_group_count * BITS_PER_YEAR_GROUP
  let accumulator := (encoded_year >>> year_group_bit_count) % 65536
  let accumulator := ((accumulator <<< SIZE_MONTH) ||| date.month) % 65536
  ((accumulator <<< SIZE_DAY) ||| date.day) % 65536

/-- The low bits of the zig-zag year that `ct_date_encode` hands to the reverse VLQ
encoder: `encoded_year & year_grouped_mask`. -/
def date_year_low (date : ct_date) : Nat :=
  let encoded_year := encode_year date.year
  let year_group_count := get_year_group_count encoded_year SIZE_DATE_YEAR_UPPER_BITS
  let year_group_bit_count := year_group_count * BITS_PER_YEAR_GROUP
  encoded_year &&& ((1 <<< year_group_bit_count) - 1)

/-- The number of bytes the timezone encoders store for a timezone: `get_timezone_size` of
the `NULL` pointer or of the label, or `get_timezone_latlong_size`. -/
def timezone_encoded_size : ct_timezone → Nat
  | ct_timezone.zero => get_timezone_size none
  | ct_timezone.string as_string => get_timezone_size (some as_string)
  | ct_timezone.latlong _ _ => get_timezone_latlong_size

/-- The timezone encoder a public encode function reaches for each timezone variant:
`timezone_encode` with the `NULL` pointer or the label, or `timezone_encode_latlong`. -/
def timezone_encode_of (dst_length : Int) : ct_timezone → Int × List Nat
  | ct_timezone.zero => timezone_encode dst_length none
  | ct_timezone.string as_string => timezone_encode dst_length (some as_string)
  | ct_timezone.latlong latitude longitude =>
    timezone_encode_latlong dst_length latitude longitude

/-! ## Legal inputs -/

/-- A label is well formed when it is a C string body: bytes from 1 to 255. -/
def label_ok (s : List Nat) : Prop := ∀ b ∈ s, 0 < b ∧ b < 256

/-- A legal date: a non-zero 32-bit year, month 1 to 12, day 1 to 31. -/
def legal_date (d : ct_date) : Prop :=
  d.year ≠ 0 ∧ -2147483648 ≤ d.year ∧ d.year ≤ 2147483647 ∧
  1 ≤ d.month ∧ d.month ≤ 12 ∧ 1 ≤ d.day ∧ d.day ≤ 31

/-- A legal timezone: Zero, a String label of at most 40 bytes, or any LatLong. -/
def legal_timezone : ct_timezone → Prop
  | ct_timezone.zero => True
  | ct_timezone.string s => s.length ≤ 40 ∧ label_ok s
  | ct_timezone.latlong _ _ => True

/-- A legal time: hour 0 to 23, minute 0 to 59, second 0 to 60, nanosecond below 10^9. -/
def legal_time (t : ct_time) : Prop :=
  t.hour ≤ 23 ∧ t.minute ≤ 59 ∧ t.second ≤ 60 ∧ t.nanosecond ≤ 999999999 ∧
  legal_timezone t.timezone

/-- A legal timestamp: a legal date and a legal time. -/
def legal_timestamp (ts : ct_timestamp) : Prop :=
  legal_date ts.date ∧ legal_time ts.time

instance (s : List Nat) : Decidable (label_ok s) := by
  unfold label_ok
  infer_instance

instance (d : ct_date) : Decidable (legal_date d) := by
  unfold legal_date
  infer_instance

instance (z : ct_timezone) : Decidable (legal_timezone z) := by
  cases z <;> unfold legal_timezone <;> infer_instance

instance (t : ct_time) : Decidable (legal_time t) := by
  unfold legal_time
  infer_instance

instance (z : ct_timezone) : Decidable (latlong_in_field_range z) := by
  cases z <;> unfold latlong_in_field_range <;> infer_instance

instance (e u : Nat) : Decidable (year_split_exact e u) := by
  unfold year_split_exact
  infer_instance

instance (ts : ct_timestamp) : Decidable (legal_timestamp ts) := by
  unfold legal_timestamp
  infer_instance

/-! ## Auxiliary lemmas -/

theorem and_mask (x k : Nat) : x &&& ((1 <<< k) - 1) = x % 2 ^ k := by
  rw [Nat.one_shiftLeft]
  exact Nat.and_pow_two_sub_one_eq_mod x k

theorem shl_or (a b k : Nat) (hb : b < 2 ^ k) : (a <<< k) ||| b = a * 2 ^ k + b := by
  rw [Nat.shiftLeft_eq, Nat.mul_comm, ← Nat.mul_add_lt_is_or hb]

theorem and_bit (x k : Nat) : x &&& 2 ^ k = (x / 2 ^ k % 2) * 2 ^ k := by
  rw [Nat.and_two_pow, Nat.toNat_testBit]

theorem get_year_group_count_loop_zero (size : Nat) : get_year_group_count_loop 0 size = size := by
  rw [get_year_group_count_loop]
  simp

theorem get_year_group_count_loop_step (year size : Nat) (h : year ≠ 0) :
    get_year_group_count_loop year size = get_year_group_count_loop (year / 128) (size + 1) := by
  rw [get_year_group_count_loop, if_neg h]
  simp [BITS_PER_YEAR_GROUP, Nat.shiftRight_eq_div_pow]

/-- The loop of get_year_group_count terminates on every input and, for a value below 2^35,
counts the 7-bit groups of the value. -/
theorem get_year_group_count_loop_eq (year size : Nat) (h : year ≠ 0) (hlt : year < 4294967296) :
    get_year_group_count_loop year size = size + rvlq_group_count year := by
  unfold rvlq_group_count
  have s1 := get_year_group_count_loop_step year size h
  by_cases h1 : year < 128
  · rw [s1, show year / 128 = 0 by omega, get_year_group_count_loop_zero, if_pos h1]
  have s2 := get_year_group_count_loop_step (year / 128) (size + 1) (by omega)
  by_cases h2 : year < 16384
  · rw [s1, s2, show year / 128 / 128 = 0 by omega, get_year_group_count_loop_zero, if_neg h1,
      if_pos h2]
  have s3 := get_year_group_count_loop_step (year / 128 / 128) (size + 1 + 1) (by omega)
  by_cases h3 : year < 2097152
  · rw [s1, s2, s3, show year / 128 / 128 / 128 = 0 by omega, get_year_group_count_loop_zero,
      if_neg h1, if_neg h2, if_pos h3]
  have s4 := get_year_group_count_loop_step (year / 128 / 128 / 128) (size + 1 + 1 + 1) (by omega)
  by_cases h4 : year < 268435456
  · rw [s1, s2, s3, s4, show year / 128 / 128 / 128 / 128 = 0 by omega,
      get_year_group_count_loop_zero, if_neg h1, if_neg h2, if_neg h3, if_pos h4]
  have s5 := get_year_group_count_loop_step (year / 128 / 128 / 128 / 128) (size + 1 + 1 + 1 + 1)
    (by omega)
  rw [s1, s2, s3, s4, s5, show year / 128 / 128 / 128 / 128 / 128 = 0 by omega,
    get_year_group_count_loop_zero, if_neg h1, if_neg h2, if_neg h3, if_neg h4]

/-- The year group count in closed form: the number of 7-bit groups of the bits above the
uncounted ones. -/
theorem get_year_group_count_eq (encoded_year uncounted_bits : Nat) :
    get_year_group_count encoded_year uncounted_bits =
      rvlq_group_count ((encoded_year % 4294967296) >>> uncounted_bits) := by
  unfold get_year_group_count
  by_cases h : (encoded_year % 4294967296) >>> uncounted_bits = 0
  · simp [h, rvlq_group_count]
  · have hlt : (encoded_year % 4294967296) >>> uncounted_bits < 4294967296 := by
      rw [Nat.shiftRight_eq_div_pow]
      exact lt_of_le_of_lt (Nat.div_le_self _ _) (Nat.mod_lt _ (by norm_num))
    simp only [h, if_false]
    rw [get_year_group_count_loop_eq _ _ h hlt]
    omega

theorem get_base_byte_count_time (m : Nat) (h : m ≤ 3) :
    get_base_byte_count BASE_SIZE_TIME m = [3, 4, 5, 7].getD m 0 := by
  interval_cases m <;> decide

theorem get_base_byte_count_timestamp (m : Nat) (h : m ≤ 3) :
    get_base_byte_count BASE_SIZE_TIMESTAMP m = [4, 5, 6, 8].getD m 0 := by
  interval_cases m <;> decide


theorem copy_le_succ (acc n : Nat) :
    copy_le acc (n + 1) = (acc % 256) :: copy_le (acc / 256) n := by
  unfold copy_le
  rw [List.range_succ_eq_map, List.map_cons, List.map_map]
  congr 1
  · have h := Nat.and_pow_two_sub_one_eq_mod acc 8
    simpa using h
  · apply List.map_congr_left
    intro i _
    simp only [Function.comp, Nat.succ_eq_add_one]
    rw [show 8 * (i + 1) = 8 + 8 * i by ring, Nat.shiftRight_add]
    simp [Nat.shiftRight_eq_div_pow]

theorem copy_le_length (acc n : Nat) : (copy_le acc n).length = n := by
  simp [copy_le]

theorem read_le_copy_le (n : Nat) : ∀ (acc : Nat) (rest : List Nat),
    read_le (copy_le acc n ++ rest) n = acc % 2 ^ (8 * n) := by
  induction n with
  | zero =>
    intro acc rest
    simp [read_le, Nat.mod_one]
  | succ n ih =>
    intro acc rest
    rw [copy_le_succ, List.cons_append, read_le, ih, Nat.or_comm, shl_or _ _ 8 (by omega)]
    rw [show 8 * (n + 1) = 8 + 8 * n by ring, pow_add, Nat.mod_mul]
    simp only [Nat.mod_mod]
    norm_num
    ring

theorem copy_le_headD (acc n : Nat) (rest : List Nat) :
    (copy_le acc (n + 1) ++ rest).headD 0 = acc % 256 := by
  rw [copy_le_succ]
  rfl

theorem copy_le_drop (acc n : Nat) (rest : List Nat) :
    (copy_le acc n ++ rest).drop n = rest := by
  have h := copy_le_length acc n
  rw [List.drop_append_eq_append_drop, h]
  simp [List.drop_eq_nil_of_le, h]

theorem rvlq_decode_loop_cont (acc count g : Nat) (rest : List Nat) (hacc : acc < 33554432) :
    rvlq_decode_loop acc count (((g &&& 0x7f) ||| 0x80) :: rest) =
      rvlq_decode_loop (acc * 128 + g % 128) (count + 1) rest := by
  have hg : g &&& 0x7f = g % 128 := Nat.and_pow_two_sub_one_eq_mod g 7
  have hlt : g % 128 < 128 := Nat.mod_lt _ (by norm_num)
  have hor : (g % 128) ||| 0x80 = 128 + g % 128 := by
    have := Nat.mul_add_lt_is_or (i := 7) (b := g % 128) hlt 1
    rw [Nat.or_comm]
    simpa using this.symm
  have h80 : (128 + g % 128) &&& 0x80 ≠ 0 := by
    have := and_bit (128 + g % 128) 7
    norm_num at this
    rw [this]
    omega
  have h7f : (128 + g % 128) &&& 0x7f = g % 128 := by
    have := Nat.and_pow_two_sub_one_eq_mod (128 + g % 128) 7
    norm_num at this
    rw [this]
  rw [rvlq_decode_loop, if_neg (by omega), hg, hor, if_neg h80, h7f,
    shl_or _ _ 7 (by norm_num; exact hlt)]
  norm_num

theorem rvlq_decode_loop_last (acc count g : Nat) (rest : List Nat) (hacc : acc < 33554432) :
    rvlq_decode_loop acc count (((g &&& 0x7f) ||| 0) :: rest) =
      (((count + 1 : Nat) : Int), acc * 128 + g % 128) := by
  have hg : g &&& 0x7f = g % 128 := Nat.and_pow_two_sub_one_eq_mod g 7
  have hlt : g % 128 < 128 := Nat.mod_lt _ (by norm_num)
  have h80 : (g % 128) &&& 0x80 = 0 := by
    have := and_bit (g % 128) 7
    norm_num at this
    rw [this]
  have h7f : (g % 128) &&& 0x7f = g % 128 := by
    have := Nat.and_pow_two_sub_one_eq_mod (g % 128) 7
    norm_num at this
    rw [this]
  rw [rvlq_decode_loop, if_neg (by omega), hg, Nat.or_zero, if_pos h80, h7f,
    shl_or _ _ 7 (by norm_num; exact hlt)]
  norm_num

theorem rvlq_decode_loop_end (acc count g : Nat) (rest : List Nat) (hacc : acc < 33554432) :
    rvlq_decode_loop acc count ((g &&& 0x7f) :: rest) =
      (((count + 1 : Nat) : Int), acc * 128 + g % 128) := by
  have h := rvlq_decode_loop_last acc count g rest hacc
  rwa [Nat.or_zero] at h

/-- Decoding the reverse VLQ of `v` on top of the seed `seed` consumes exactly the groups
written and appends them to the seed, provided the result fits 32 bits. -/
theorem rvlq_decode_loop_bytes (seed v : Nat) (rest : List Nat)
    (hfit : seed * 2 ^ (7 * rvlq_group_count v) + v < 4294967296) :
    rvlq_decode_loop seed 0 (rvlq_bytes v ++ rest) =
      (((rvlq_group_count v : Nat) : Int), seed * 2 ^ (7 * rvlq_group_count v) + v) := by
  by_cases h1 : v < 128
  · have hk : rvlq_group_count v = 1 := by simp [rvlq_group_count, h1]
    have hb : rvlq_bytes v = [((v >>> (7 * 0)) &&& 0x7f) ||| 0] := by
      unfold rvlq_bytes
      rw [hk]
      rfl
    rw [hk] at hfit ⊢
    rw [hb]
    simp only [List.cons_append, List.nil_append, Nat.shiftRight_eq_div_pow] at hfit ⊢
    norm_num at hfit ⊢
    rw [rvlq_decode_loop_end _ _ _ _ (by omega)]
    refine Prod.ext rfl ?_
    simp only
    omega
  by_cases h2 : v < 16384
  · have hk : rvlq_group_count v = 2 := by simp [rvlq_group_count, h1, h2]
    have hb : rvlq_bytes v = [((v >>> (7 * 1)) &&& 0x7f) ||| 0x80,
        ((v >>> (7 * 0)) &&& 0x7f) ||| 0] := by
      unfold rvlq_bytes
      rw [hk]
      rfl
    rw [hk] at hfit ⊢
    rw [hb]
    simp only [List.cons_append, List.nil_append, Nat.shiftRight_eq_div_pow] at hfit ⊢
    norm_num at hfit ⊢
    rw [rvlq_decode_loop_cont _ _ _ _ (by omega), rvlq_decode_loop_end _ _ _ _ (by omega)]
    refine Prod.ext rfl ?_
    simp only
    omega
  by_cases h3 : v < 2097152
  · have hk : rvlq_group_count v = 3 := by simp [rvlq_group_count, h1, h2, h3]
    have hb : rvlq_bytes v = [((v >>> (7 * 2)) &&& 0x7f) ||| 0x80,
        ((v >>> (7 * 1)) &&& 0x7f) ||| 0x80, ((v >>> (7 * 0)) &&& 0x7f) ||| 0] := by
      unfold rvlq_bytes
      rw [hk]
      rfl
    rw [hk] at hfit ⊢
    rw [hb]
    simp only [List.cons_append, List.nil_append, Nat.shiftRight_eq_div_pow] at hfit ⊢
    norm_num at hfit ⊢
    rw [rvlq_decode_loop_cont _ _ _ _ (by omega), rvlq_decode_loop_cont _ _ _ _ (by omega),
      rvlq_decode_loop_end _ _ _ _ (by omega)]
    refine Prod.ext rfl ?_
    simp only
    omega
  by_cases h4 : v < 268435456
  · have hk : rvlq_group_count v = 4 := by simp [rvlq_group_count, h1, h2, h3, h4]
    have hb : rvlq_bytes v = [((v >>> (7 * 3)) &&& 0x7f) ||| 0x80,
        ((v >>> (7 * 2)) &&& 0x7f) ||| 0x80,
        ((v >>> (7 * 1)) &&& 0x7f) ||| 0x80, ((v >>> (7 * 0)) &&& 0x7f) ||| 0] := by
      unfold rvlq_bytes
      rw [hk]
      rfl
    rw [hk] at hfit ⊢
    rw [hb]
    simp only [List.cons_append, List.nil_append, Nat.shiftRight_eq_div_pow] at hfit ⊢
    norm_num at hfit ⊢
    rw [rvlq_decode_loop_cont _ _ _ _ (by omega), rvlq_decode_loop_cont _ _ _ _ (by omega),
      rvlq_decode_loop_cont _ _ _ _ (by omega), rvlq_decode_loop_end _ _ _ _ (by omega)]
    refine Prod.ext rfl ?_
    simp only
    omega
  · have hk : rvlq_group_count v = 5 := by simp [rvlq_group_count, h1, h2, h3, h4]
    have hb : rvlq_bytes v = [((v >>> (7 * 4)) &&& 0x7f) ||| 0x80,
        ((v >>> (7 * 3)) &&& 0x7f) ||| 0x80,
        ((v >>> (7 * 2)) &&& 0x7f) ||| 0x80,
        ((v >>> (7 * 1)) &&& 0x7f) ||| 0x80, ((v >>> (7 * 0)) &&& 0x7f) ||| 0] := by
      unfold rvlq_bytes
      rw [hk]
      rfl
    rw [hk] at hfit ⊢
    rw [hb]
    simp only [List.cons_append, List.nil_append, Nat.shiftRight_eq_div_pow] at hfit ⊢
    norm_num at hfit ⊢
    rw [rvlq_decode_loop_cont _ _ _ _ (by omega), rvlq_decode_loop_cont _ _ _ _ (by omega),
      rvlq_decode_loop_cont _ _ _ _ (by omega), rvlq_decode_loop_cont _ _ _ _ (by omega),
      rvlq_decode_loop_end _ _ _ _ (by omega)]
    refine Prod.ext rfl ?_
    simp only
    omega

theorem rvlq_bytes_length (v : Nat) : (rvlq_bytes v).length = rvlq_group_count v := by
  simp [rvlq_bytes]

theorem rvlq_group_count_pos (v : Nat) : 1 ≤ rvlq_group_count v ∧ rvlq_group_count v ≤ 5 := by
  unfold rvlq_group_count
  split_ifs <;> omega

theorem xor_all_ones (w : Nat) (hw : w < 4294967296) :
    4294967295 ^^^ w = 4294967295 - w := by
  apply Nat.eq_of_testBit_eq
  intro i
  have h1 : (4294967295 : Nat) = 2 ^ 32 - 1 := by norm_num
  have h2 : 4294967295 - w = 2 ^ 32 - (w + 1) := by omega
  rw [Nat.testBit_xor, h2, Nat.testBit_two_pow_sub_succ (by simpa using hw), h1,
    Nat.testBit_two_pow_sub_one]
  by_cases hi : i < 32
  · simp [hi]
  · have hlt : w < 2 ^ i := by
      have : (2 : Nat) ^ 32 ≤ 2 ^ i := Nat.pow_le_pow_right (by norm_num) (by omega)
      omega
    simp [hi, Nat.testBit_lt_two_pow hlt]

theorem toU32_eq (x : Int) (hlo : -2147483648 ≤ x) (hhi : x ≤ 2147483647) :
    (toU32 x : Int) = if 0 ≤ x then x else x + 4294967296 := by
  unfold toU32
  split_ifs <;> omega

theorem toI32_toU32 (x : Int) (hlo : -2147483648 ≤ x) (hhi : x ≤ 2147483647) :
    toI32 (toU32 x) = x := by
  unfold toI32 toU32
  split_ifs <;> omega

/-- The zig-zag code of a 32-bit integer: twice the value when it is non-negative, the odd
number -2x - 1 when it is negative. -/
theorem zigzag_encode_eq (x : Int) (hlo : -2147483648 ≤ x) (hhi : x ≤ 2147483647) :
    (zigzag_encode x : Int) = if 0 ≤ x then 2 * x else -2 * x - 1 := by
  have hu := toU32_eq x hlo hhi
  unfold zigzag_encode sar32
  generalize toU32 x = u at hu ⊢
  by_cases h0 : 0 ≤ x
  · rw [if_pos h0] at hu ⊢
    have hlt : u % 4294967296 < 2147483648 := by omega
    rw [if_pos hlt, Nat.shiftRight_eq_div_pow, Nat.shiftLeft_eq]
    have hz : u % 4294967296 / 2 ^ 31 = 0 := by omega
    rw [hz, Nat.zero_xor]
    omega
  · rw [if_neg h0] at hu ⊢
    have hlt : ¬ u % 4294967296 < 2147483648 := by omega
    rw [if_neg hlt, Nat.shiftRight_eq_div_pow, Nat.shiftLeft_eq]
    have hz : u % 4294967296 / 2 ^ 31 = 1 := by omega
    rw [hz]
    have hc : (1 ||| (4294967296 - 2 ^ (32 - 31)) : Nat) = 4294967295 := by decide
    rw [hc, xor_all_ones _ (Nat.mod_lt _ (by norm_num))]
    omega

theorem zigzag_encode_lt (x : Int) (hlo : -2147483648 ≤ x) (hhi : x ≤ 2147483647) :
    zigzag_encode x < 4294967296 := by
  have h := zigzag_encode_eq x hlo hhi
  split_ifs at h <;> omega

/-- The inverse zig-zag map on 32-bit patterns. -/
theorem zigzag_decode_eq (v : Nat) (hv : v < 4294967296) :
    zigzag_decode v = if v % 2 = 0 then ((v / 2 : Nat) : Int) else -((v / 2 : Nat) : Int) - 1 := by
  unfold zigzag_decode
  rw [Nat.and_one_is_mod, Nat.mod_eq_of_lt hv, Nat.shiftRight_eq_div_pow]
  by_cases h0 : v % 2 = 0
  · rw [if_pos h0, h0]
    have hn : neg32 0 = 0 := by decide
    rw [hn, Nat.xor_zero]
    unfold toI32
    split_ifs <;> omega
  · rw [if_neg h0]
    have h1 : v % 2 = 1 := by omega
    have hn : neg32 1 = 4294967295 := by decide
    rw [h1, hn, Nat.xor_comm, xor_all_ones _ (by omega)]
    unfold toI32
    split_ifs <;> omega

theorem zigzag_decode_encode (x : Int) (hlo : -2147483648 ≤ x) (hhi : x ≤ 2147483647) :
    zigzag_decode (zigzag_encode x) = x := by
  have he := zigzag_encode_eq x hlo hhi
  have hl := zigzag_encode_lt x hlo hhi
  rw [zigzag_decode_eq _ hl]
  split_ifs at he ⊢ <;> omega

theorem wrap_sub_bias (year : Int) (hlo : -2147483648 ≤ year) (hhi : year ≤ 2147483647) :
    -2147483648 ≤ toI32 (toU32 (year - YEAR_BIAS)) ∧
    toI32 (toU32 (year - YEAR_BIAS)) ≤ 2147483647 ∧
    toI32 (toU32 (toI32 (toU32 (year - YEAR_BIAS)) + YEAR_BIAS)) = year := by
  unfold toI32 toU32 YEAR_BIAS
  split_ifs <;> omega

/-- The year codec is the identity on every 32-bit year (the subtraction and the addition of
the bias wrap on 32 bits). -/
theorem decode_year_encode_year (year : Int) (hlo : -2147483648 ≤ year)
    (hhi : year ≤ 2147483647) : decode_year (encode_year year) = year := by
  obtain ⟨h1, h2, h3⟩ := wrap_sub_bias year hlo hhi
  unfold decode_year encode_year
  rw [zigzag_decode_encode _ h1 h2, h3]

theorem strlen_of_label_ok (s : List Nat) (h : label_ok s) :
    strlen s = s.length ∧ s.take (strlen s) = s := by
  have hs : s.takeWhile (fun b => b != 0) = s := by
    rw [List.takeWhile_eq_self_iff]
    intro b hb
    have := (h b hb).1
    simp
    omega
  unfold strlen
  rw [hs]
  simp

theorem timezone_encode_string (s : List Nat) (dst_length : Int) (h : label_ok s)
    (hroom : (s.length : Int) + 1 ≤ dst_length) :
    timezone_encode dst_length (some s) =
      ((s.length : Int) + 1, ((s.length <<< 1) % 256) :: s) := by
  obtain ⟨h1, h2⟩ := strlen_of_label_ok s h
  unfold timezone_encode
  simp only [h1]
  rw [if_neg (by omega), List.take_length]

theorem timezone_decode_string (s : List Nat) (hlen : s.length ≤ 40) :
    timezone_decode (((s.length <<< 1) % 256) :: s) =
      ((s.length : Int) + 1, some (ct_timezone.string s)) := by
  have hb : (s.length <<< 1) % 256 = 2 * s.length := by
    rw [Nat.shiftLeft_eq]
    omega
  unfold timezone_decode
  simp only [hb, List.headD_cons, List.length_cons, Nat.and_one_is_mod,
    Nat.shiftRight_eq_div_pow]
  have h2 : 2 * s.length % 2 = 0 := by omega
  have h3 : 2 * s.length / 2 ^ 1 = s.length := by omega
  rw [if_neg (by push_cast; omega), h2, h3]
  simp only [ne_eq, not_true_eq_false, if_false]
  rw [if_neg (by push_cast; omega)]
  simp
  omega

/-- The 32-bit word stored for a LatLong timezone, in arithmetic form. -/
theorem timezone_encode_latlong_eq (dst_length latitude longitude : Int)
    (hroom : 4 ≤ dst_length) :
    timezone_encode_latlong dst_length latitude longitude =
      (4, write_uint32_le
        (((toU32 longitude % 32768) * 16384 + toU32 latitude % 16384) * 2 + 1)) := by
  unfold timezone_encode_latlong MASK_LONGITUDE MASK_LATITUDE SIZE_LONGITUDE SIZE_LATITUDE
  simp only [and_mask]
  have ha : toU32 latitude % 2 ^ 14 < 2 ^ 14 := Nat.mod_lt _ (by norm_num)
  have ho : toU32 longitude % 2 ^ 15 < 2 ^ 15 := Nat.mod_lt _ (by norm_num)
  have e1 : ((toU32 longitude % 2 ^ 15) <<< 14) % 4294967296 =
      (toU32 longitude % 2 ^ 15) <<< 14 := by
    rw [Nat.shiftLeft_eq]
    omega
  rw [e1, shl_or _ _ 14 ha]
  have e2 : (((toU32 longitude % 2 ^ 15) * 2 ^ 14 + toU32 latitude % 2 ^ 14) <<< 1) % 4294967296
      = ((toU32 longitude % 2 ^ 15) * 2 ^ 14 + toU32 latitude % 2 ^ 14) <<< 1 := by
    rw [Nat.shiftLeft_eq]
    omega
  rw [e2, shl_or _ _ 1 (by norm_num)]
  rw [if_neg (by omega)]
  norm_num

theorem timezone_decode_latlong (a o : Nat) (ha : a < 16384) (ho : o < 32768) :
    timezone_decode (write_uint32_le ((o * 16384 + a) * 2 + 1)) =
      (4, some (ct_timezone.latlong (a : Int) (o : Int))) := by
  have hr : read_uint32_le (write_uint32_le ((o * 16384 + a) * 2 + 1)) =
      (o * 16384 + a) * 2 + 1 := by
    have := read_le_copy_le 4 ((o * 16384 + a) * 2 + 1) []
    rw [List.append_nil] at this
    unfold read_uint32_le write_uint32_le
    rw [this]
    norm_num
    omega
  have hh : (write_uint32_le ((o * 16384 + a) * 2 + 1)).headD 0 =
      ((o * 16384 + a) * 2 + 1) % 256 := by
    have := copy_le_headD ((o * 16384 + a) * 2 + 1) 3 []
    rwa [List.append_nil] at this
  have hl : (write_uint32_le ((o * 16384 + a) * 2 + 1)).length = 4 := copy_le_length _ 4
  unfold timezone_decode MASK_LONGITUDE MASK_LATITUDE SIZE_LONGITUDE SIZE_LATITUDE
  simp only [and_mask, hr, hh, hl, Nat.and_one_is_mod, Nat.shiftRight_eq_div_pow]
  rw [if_neg (by norm_num), if_pos (by omega), if_neg (by norm_num)]
  have e1 : ((o * 16384 + a) * 2 + 1) / 2 ^ 1 % 2 ^ 14 = a := by omega
  have e2 : ((o * 16384 + a) * 2 + 1) / 2 ^ 1 / 2 ^ 14 % 2 ^ 15 = o := by omega
  rw [e1, e2]

theorem timezone_decode_old_eq (timezone : ct_timezone) (src : List Nat) :
    timezone_decode_old timezone src false =
      ((timezone_decode src).1,
        match (timezone_decode src).2 with
        | some z => z
        | none => timezone) := by
  unfold timezone_decode_old timezone_decode
  simp only [Bool.false_eq_true, if_false]
  split_ifs <;> rfl

theorem get_subsecond_magnitude_cases (n : Nat) :
    (get_subsecond_magnitude n = 0 ∧ n = 0) ∨
    (get_subsecond_magnitude n = 1 ∧ n % 1000000 = 0 ∧ n ≠ 0) ∨
    (get_subsecond_magnitude n = 2 ∧ n % 1000 = 0 ∧ n ≠ 0) ∨
    (get_subsecond_magnitude n = 3 ∧ n ≠ 0) := by
  unfold get_subsecond_magnitude
  split_ifs <;> omega

theorem ct_time_decode_x_base (acc m : Nat) (tzb : List Nat) (out : ct_time_decode_x_out)
    (hm : m ≤ 3) (hacc : acc < 2 ^ (20 + 10 * m)) (hmag : acc / 2 % 4 = m) :
    ct_time_decode_x (copy_le acc (get_base_byte_count BASE_SIZE_TIME m) ++ tzb) out =
      if acc % 2 ≠ 0 then
        ((get_base_byte_count BASE_SIZE_TIME m : Int),
          { hour := acc / 8 % 32, minute := acc / 256 % 64, second := acc / 16384 % 64,
            nanosecond := (acc / 1048576) * g_subsec_multipliers m % 4294967296,
            timezone := some ct_timezone.zero })
      else
        (if (timezone_decode tzb).1 < 0 then
          FAILURE_AT_POS (get_base_byte_count BASE_SIZE_TIME m : Int) + (timezone_decode tzb).1
         else (get_base_byte_count BASE_SIZE_TIME m : Int) + (timezone_decode tzb).1,
          { hour := acc / 8 % 32, minute := acc / 256 % 64, second := acc / 16384 % 64,
            nanosecond := (acc / 1048576) * g_subsec_multipliers m % 4294967296,
            timezone := match (timezone_decode tzb).2 with
              | some z => some z
              | none => out.timezone }) := by
  have hmagn : ∀ k, ((copy_le acc (k + 1) ++ tzb).headD 0 >>> 1) &&& MASK_MAGNITUDE = m := by
    intro k
    rw [copy_le_headD]
    unfold MASK_MAGNITUDE SIZE_MAGNITUDE
    rw [and_mask, Nat.shiftRight_eq_div_pow]
    omega
  have hutc : ∀ k, (copy_le acc (k + 1) ++ tzb).headD 0 &&& 1 = acc % 2 := by
    intro k
    rw [copy_le_headD, Nat.and_one_is_mod]
    omega
  have hh : acc >>> 1 >>> SIZE_MAGNITUDE &&& MASK_HOUR = acc / 8 % 32 := by
    unfold MASK_HOUR SIZE_MAGNITUDE SIZE_HOUR
    simp only [and_mask, Nat.shiftRight_eq_div_pow]
    omega
  have hmi : acc >>> 1 >>> SIZE_MAGNITUDE >>> SIZE_HOUR &&& MASK_MINUTE = acc / 256 % 64 := by
    unfold MASK_MINUTE SIZE_MAGNITUDE SIZE_HOUR SIZE_MINUTE
    simp only [and_mask, Nat.shiftRight_eq_div_pow]
    omega
  have hs : acc >>> 1 >>> SIZE_MAGNITUDE >>> SIZE_HOUR >>> SIZE_MINUTE &&& MASK_SECOND =
      acc / 16384 % 64 := by
    unfold MASK_SECOND SIZE_MAGNITUDE SIZE_HOUR SIZE_MINUTE SIZE_SECOND
    simp only [and_mask, Nat.shiftRight_eq_div_pow]
    omega
  have hk := get_base_byte_count_time m hm
  have hn : acc >>> 1 >>> SIZE_MAGNITUDE >>> SIZE_HOUR >>> SIZE_MINUTE >>> SIZE_SECOND &&&
      ((1 <<< (SIZE_SUBSECOND * m)) - 1) = acc / 1048576 := by
    unfold SIZE_MAGNITUDE SIZE_HOUR SIZE_MINUTE SIZE_SECOND SIZE_SUBSECOND
    simp only [and_mask, Nat.shiftRight_eq_div_pow]
    interval_cases m <;> norm_num at hacc ⊢ <;> omega
  have hmod : acc % 2 ^ (8 * get_base_byte_count BASE_SIZE_TIME m) = acc := by
    apply Nat.mod_eq_of_lt
    rw [hk]
    interval_cases m <;> norm_num at hacc ⊢ <;> omega
  have hpos : ∃ k, get_base_byte_count BASE_SIZE_TIME m = k + 1 := by
    rw [hk]
    interval_cases m <;> exact ⟨_, rfl⟩
  obtain ⟨k, hk1⟩ := hpos
  rw [hk1] at hmod ⊢
  unfold ct_time_decode_x
  simp only [hk1, List.length_append, copy_le_length, read_le_copy_le, copy_le_drop, hmod,
    hmagn k, hutc k, hh, hmi, hs, hn]
  rw [if_neg (by push_cast; omega), if_neg (by push_cast; omega)]
  split_ifs <;> rfl

theorem get_subsecond_magnitude_le (n : Nat) : get_subsecond_magnitude n ≤ 3 := by
  unfold get_subsecond_magnitude
  split_ifs <;> omega

/-- The stored subsecond value fits its 10 * magnitude bits and restores the nanoseconds. -/
theorem subsecond_fits (n : Nat) (hn : n ≤ 999999999) :
    n / g_subsec_multipliers (get_subsecond_magnitude n) <
      2 ^ (10 * get_subsecond_magnitude n) ∧
    n / g_subsec_multipliers (get_subsecond_magnitude n) *
      g_subsec_multipliers (get_subsecond_magnitude n) % 4294967296 = n := by
  rcases get_subsecond_magnitude_cases n with h | h | h | h
  · rw [h.1, h.2]
    decide
  · rw [h.1]
    have : g_subsec_multipliers 1 = 1000000 := by decide
    rw [this]
    norm_num
    omega
  · rw [h.1]
    have : g_subsec_multipliers 2 = 1000 := by decide
    rw [this]
    norm_num
    omega
  · rw [h.1]
    have : g_subsec_multipliers 3 = 1 := by decide
    rw [this]
    norm_num
    omega

theorem encode_time_base_eq (dst_length : Int) (hour minute second nanosecond : Nat)
    (is_utc_timezone : Bool) (hh : hour ≤ 31) (hmi : minute ≤ 63) (hs : second ≤ 63)
    (hn : nanosecond ≤ 999999999)
    (hroom : (get_base_byte_count BASE_SIZE_TIME (get_subsecond_magnitude nanosecond) : Int)
      ≤ dst_length) :
    encode_time_base dst_length hour minute second nanosecond is_utc_timezone =
      ((get_base_byte_count BASE_SIZE_TIME (get_subsecond_magnitude nanosecond) : Int),
        copy_le (time_accumulator hour minute second nanosecond is_utc_timezone)
          (get_base_byte_count BASE_SIZE_TIME (get_subsecond_magnitude nanosecond))) := by
  have hm := get_subsecond_magnitude_le nanosecond
  have hsub : nanosecond / g_subsec_multipliers (get_subsecond_magnitude nanosecond) <
      1073741824 := lt_of_le_of_lt (Nat.div_le_self _ _) (by omega)
  have hu : is_utc_timezone.toNat ≤ 1 := Bool.toNat_le is_utc_timezone
  unfold encode_time_base time_accumulator SIZE_SECOND SIZE_MINUTE SIZE_HOUR SIZE_MAGNITUDE
  simp only [Nat.shiftLeft_eq]
  rw [if_neg (by omega)]
  generalize nanosecond / g_subsec_multipliers (get_subsecond_magnitude nanosecond) = sub
    at hsub ⊢
  generalize get_subsecond_magnitude nanosecond = m at hm ⊢
  generalize is_utc_timezone.toNat = u at hu ⊢
  congr 2
  omega

theorem time_accumulator_fields (hour minute second nanosecond : Nat) (u : Bool)
    (hh : hour ≤ 31) (hmi : minute ≤ 63) (hs : second ≤ 63) (hn : nanosecond ≤ 999999999) :
    time_accumulator hour minute second nanosecond u <
      2 ^ (20 + 10 * get_subsecond_magnitude nanosecond) ∧
    time_accumulator hour minute second nanosecond u / 2 % 4 =
      get_subsecond_magnitude nanosecond ∧
    time_accumulator hour minute second nanosecond u % 2 = u.toNat ∧
    time_accumulator hour minute second nanosecond u / 8 % 32 = hour ∧
    time_accumulator hour minute second nanosecond u / 256 % 64 = minute ∧
    time_accumulator hour minute second nanosecond u / 16384 % 64 = second ∧
    time_accumulator hour minute second nanosecond u / 1048576 =
      nanosecond / g_subsec_multipliers (get_subsecond_magnitude nanosecond) := by
  have hm := get_subsecond_magnitude_le nanosecond
  have hsub := (subsecond_fits nanosecond hn).1
  have hu : u.toNat ≤ 1 := Bool.toNat_le u
  unfold time_accumulator
  generalize nanosecond / g_subsec_multipliers (get_subsecond_magnitude nanosecond) = sub
    at hsub ⊢
  generalize get_subsecond_magnitude nanosecond = m at hm hsub ⊢
  generalize u.toNat = b at hu ⊢
  refine ⟨?_, by omega, by omega, by omega, by omega, by omega, by omega⟩
  have h1 : (((((sub * 64 + second) * 64 + minute) * 32 + hour) * 4 + m) * 2 + b) <
      (sub + 1) * 1048576 := by omega
  have h2 : (sub + 1) * 1048576 ≤ 2 ^ (10 * m) * 1048576 :=
    Nat.mul_le_mul_right _ hsub
  have h3 : 2 ^ (20 + 10 * m) = 2 ^ (10 * m) * 1048576 := by
    rw [Nat.add_comm, pow_add]
    norm_num
  omega

theorem get_base_byte_count_time_pos (m : Nat) (h : m ≤ 3) :
    3 ≤ get_base_byte_count BASE_SIZE_TIME m := by
  rw [get_base_byte_count_time m h]
  interval_cases m <;> decide

theorem ct_time_encoded_size_eq (t : ct_time) (ht : legal_time t) :
    ct_time_encoded_size t =
      get_base_byte_count BASE_SIZE_TIME (get_subsecond_magnitude t.nanosecond) +
        (timezone_bytes t.timezone).length := by
  obtain ⟨_, _, _, _, htz⟩ := ht
  unfold ct_time_encoded_size
  cases hz : t.timezone with
  | zero => simp [ct_time_encoded_size_x, get_time_nanosecond_size, get_timezone_size,
      timezone_bytes]
  | string s =>
    rw [hz] at htz
    have hs := (strlen_of_label_ok s htz.2).1
    simp [ct_time_encoded_size_x, get_time_nanosecond_size, get_timezone_size,
      timezone_bytes, hs]
  | latlong la lo =>
    simp [ct_time_encoded_size_latlong, get_time_nanosecond_size, get_timezone_latlong_size,
      timezone_bytes, write_uint32_le, copy_le_length]

/-- With room for the encoded size, ct_time_encode returns the size and stores the base bytes
followed by the timezone bytes. -/
theorem ct_time_encode_eq (t : ct_time) (dst_length : Int) (ht : legal_time t)
    (hroom : (ct_time_encoded_size t : Int) ≤ dst_length) :
    ct_time_encode t dst_length =
      ((ct_time_encoded_size t : Int),
        copy_le (time_accumulator t.hour t.minute t.second t.nanosecond
            (timezone_is_zero t.timezone))
          (get_base_byte_count BASE_SIZE_TIME (get_subsecond_magnitude t.nanosecond)) ++
        timezone_bytes t.timezone) := by
  have hsize := ct_time_encoded_size_eq t ht
  obtain ⟨hh, hmi, hs, hn, htz⟩ := ht
  have hk := get_base_byte_count_time_pos _ (get_subsecond_magnitude_le t.nanosecond)
  rw [hsize] at hroom ⊢
  unfold ct_time_encode
  cases hz : t.timezone with
  | zero =>
    rw [hz] at hroom
    simp only [timezone_bytes, List.length_nil] at hroom
    simp only [ct_time_encode_x, timezone_bytes, timezone_is_zero, Option.isNone_none]
    rw [encode_time_base_eq _ _ _ _ _ _ (by omega) (by omega) (by omega) hn (by omega)]
    simp only [timezone_encode]
    rw [if_neg (by omega), if_neg (by omega)]
    simp
  | string s =>
    rw [hz] at hroom htz
    simp only [timezone_bytes, List.length_cons] at hroom
    simp only [ct_time_encode_x, timezone_bytes, timezone_is_zero, Option.isNone_some]
    rw [encode_time_base_eq _ _ _ _ _ _ (by omega) (by omega) (by omega) hn (by omega)]
    simp only []
    rw [timezone_encode_string s _ htz.2 (by push_cast at hroom ⊢; omega)]
    rw [if_neg (by omega), if_neg (by omega)]
    simp only [List.length_cons]
    push_cast
    rfl
  | latlong la lo =>
    rw [hz] at hroom
    simp only [timezone_bytes, write_uint32_le, copy_le_length] at hroom
    simp only [ct_time_encode_latlong, timezone_bytes, timezone_is_zero]
    rw [encode_time_base_eq _ _ _ _ _ _ (by omega) (by omega) (by omega) hn (by omega)]
    simp only []
    rw [timezone_encode_latlong_eq _ _ _ (by push_cast at hroom ⊢; omega)]
    rw [if_neg (by omega), if_neg (by omega)]
    simp only [write_uint32_le, copy_le_length]
    push_cast
    rfl

theorem timezone_decode_bytes (z : ct_timezone) (hz : legal_timezone z)
    (hll : latlong_in_field_range z) (hnz : timezone_is_zero z = false) :
    timezone_decode (timezone_bytes z) = (((timezone_bytes z).length : Int), some z) := by
  cases z with
  | zero => simp [timezone_is_zero] at hnz
  | string s =>
    simp only [timezone_bytes, List.length_cons]
    rw [timezone_decode_string s hz.1]
    push_cast
    rfl
  | latlong la lo =>
    obtain ⟨h1, h2, h3, h4⟩ := hll
    simp only [timezone_bytes]
    rw [timezone_decode_latlong _ _ (Nat.mod_lt _ (by norm_num)) (Nat.mod_lt _ (by norm_num))]
    have ha : ((toU32 la % 16384 : Nat) : Int) = la := by
      unfold toU32
      omega
    have ho : ((toU32 lo % 32768 : Nat) : Int) = lo := by
      unfold toU32
      omega
    rw [ha, ho]
    simp [write_uint32_le, copy_le_length]

/-- Decoding the base bytes of a legal time followed by the bytes of its timezone restores
the time. -/
theorem ct_time_decode_bytes (t t0 : ct_time) (ht : legal_time t)
    (hll : latlong_in_field_range t.timezone) :
    ct_time_decode
      (copy_le (time_accumulator t.hour t.minute t.second t.nanosecond
          (timezone_is_zero t.timezone))
        (get_base_byte_count BASE_SIZE_TIME (get_subsecond_magnitude t.nanosecond)) ++
        timezone_bytes t.timezone) t0 =
      (((get_base_byte_count BASE_SIZE_TIME (get_subsecond_magnitude t.nanosecond) +
          (timezone_bytes t.timezone).length : Nat) : Int), t) := by
  obtain ⟨hh, hmi, hs, hn, htz⟩ := ht
  obtain ⟨f1, f2, f3, f4, f5, f6, f7⟩ := time_accumulator_fields t.hour t.minute t.second
    t.nanosecond (timezone_is_zero t.timezone) (by omega) (by omega) (by omega) hn
  have hns := (subsecond_fits t.nanosecond hn).2
  unfold ct_time_decode
  rw [ct_time_decode_x_base _ _ _ _ (get_subsecond_magnitude_le _) f1 f2]
  simp only [f3, f4, f5, f6, f7, hns]
  cases hz : timezone_is_zero t.timezone with
  | true =>
    have hzero : t.timezone = ct_timezone.zero := by
      cases h : t.timezone <;> simp [h, timezone_is_zero] at hz ⊢
    simp only [Bool.toNat_true, ne_eq, one_ne_zero, not_false_eq_true, if_true]
    rw [hzero]
    simp only [timezone_bytes, List.length_nil, Nat.add_zero]
    have e1 : t.hour % 256 = t.hour := by omega
    have e2 : t.minute % 256 = t.minute := by omega
    have e3 : t.second % 256 = t.second := by omega
    rw [e1, e2, e3]
    cases t
    simp_all
  | false =>
    have hd := timezone_decode_bytes t.timezone htz hll hz
    simp only [Bool.toNat_false, ne_eq, not_true_eq_false, if_false, hd]
    rw [if_neg (by omega)]
    have e1 : t.hour % 256 = t.hour := by omega
    have e2 : t.minute % 256 = t.minute := by omega
    have e3 : t.second % 256 = t.second := by omega
    rw [e1, e2, e3]
    push_cast
    rfl

theorem rvlq_group_count_bound (v : Nat) (hv : v < 4294967296) :
    v < 2 ^ (7 * rvlq_group_count v) := by
  unfold rvlq_group_count
  split_ifs <;> norm_num <;> omega

/-- The inline part of the year stream fits the uncounted bits. -/
theorem year_upper_lt (e U : Nat) (he : e < 4294967296) :
    e >>> (get_year_group_count e U * BITS_PER_YEAR_GROUP) < 2 ^ U := by
  rw [get_year_group_count_eq, Nat.mod_eq_of_lt he]
  have hv : e >>> U < 4294967296 := by
    rw [Nat.shiftRight_eq_div_pow]
    exact lt_of_le_of_lt (Nat.div_le_self _ _) he
  have hb := rvlq_group_count_bound _ hv
  generalize rvlq_group_count (e >>> U) = g at hb ⊢
  unfold BITS_PER_YEAR_GROUP
  rw [Nat.shiftRight_eq_div_pow] at hb ⊢
  rw [Nat.div_lt_iff_lt_mul (by positivity)] at hb ⊢
  rw [Nat.mul_comm 7 g] at hb
  rw [Nat.mul_comm]
  exact hb

theorem encode_year_and_utc_flag_eq (year : Int) (u : Bool)
    (hlo : -1073741824 ≤ year - 2000) (hhi : year - 2000 < 1073741824) :
    encode_year_and_utc_flag year u.toNat = encode_year year * 2 + u.toNat ∧
    encode_year year < 2147483648 := by
  have hw : toI32 (toU32 (year - YEAR_BIAS)) = year - 2000 := by
    unfold YEAR_BIAS
    exact toI32_toU32 _ (by omega) (by omega)
  have he := zigzag_encode_eq (year - 2000) (by omega) (by omega)
  have hlt : encode_year year < 2147483648 := by
    unfold encode_year
    rw [hw]
    split_ifs at he <;> omega
  refine ⟨?_, hlt⟩
  unfold encode_year_and_utc_flag
  have hu : u.toNat < 2 ^ 1 := by
    have := Bool.toNat_le u
    omega
  have hs : (encode_year year <<< 1) % 4294967296 = encode_year year <<< 1 := by
    rw [Nat.shiftLeft_eq]
    omega
  rw [hs, shl_or _ _ 1 hu]
  norm_num

theorem get_base_byte_count_timestamp_pos (m : Nat) (h : m ≤ 3) :
    4 ≤ get_base_byte_count BASE_SIZE_TIMESTAMP m := by
  rw [get_base_byte_count_timestamp m h]
  interval_cases m <;> decide

/-- The chain of shifts and additions of `encode_timestamp_base` never leaves 64 bits. -/
theorem timestamp_accumulator_chain (upper month day hour minute second nanosecond : Nat)
    (hup : upper < 2 ^ g_timestamp_year_upper_bits (get_subsecond_magnitude nanosecond))
    (hmo : month ≤ 15) (hd : day ≤ 31) (hh : hour ≤ 31) (hmi : minute ≤ 63)
    (hs : second ≤ 63) (hn : nanosecond ≤ 999999999) :
    ((((((((((((((upper <<< (SIZE_SUBSECOND * get_subsecond_magnitude nanosecond) +
      nanosecond / g_subsec_multipliers (get_subsecond_magnitude nanosecond)) %
      18446744073709551616) <<< SIZE_MONTH + month) % 18446744073709551616) <<< SIZE_DAY + day) %
      18446744073709551616) <<< SIZE_HOUR + hour) % 18446744073709551616) <<< SIZE_MINUTE +
      minute) % 18446744073709551616) <<< SIZE_SECOND + second) % 18446744073709551616) <<<
      SIZE_MAGNITUDE + get_subsecond_magnitude nanosecond) % 18446744073709551616) =
    timestamp_accumulator upper month day hour minute second nanosecond ∧
    timestamp_accumulator upper month day hour minute second nanosecond <
      2 ^ (8 * get_base_byte_count BASE_SIZE_TIMESTAMP (get_subsecond_magnitude nanosecond))
    := by
  have hsub := (subsecond_fits nanosecond hn).1
  have hm := get_subsecond_magnitude_le nanosecond
  have hk := get_base_byte_count_timestamp _ hm
  unfold timestamp_accumulator SIZE_SUBSECOND SIZE_MONTH SIZE_DAY SIZE_HOUR SIZE_MINUTE
    SIZE_SECOND SIZE_MAGNITUDE
  simp only [Nat.shiftLeft_eq]
  rw [hk]
  generalize nanosecond / g_subsec_multipliers (get_subsecond_magnitude nanosecond) = sub
    at hsub ⊢
  generalize get_subsecond_magnitude nanosecond = m at hm hsub hup ⊢
  interval_cases m
  · have hu : upper < 16 := by simpa [g_timestamp_year_upper_bits] using hup
    norm_num at hsub ⊢
    omega
  · have hu : upper < 4 := by simpa [g_timestamp_year_upper_bits] using hup
    norm_num at hsub ⊢
    omega
  · have hu : upper < 1 := by simpa [g_timestamp_year_upper_bits] using hup
    norm_num at hsub ⊢
    omega
  · have hu : upper < 64 := by simpa [g_timestamp_year_upper_bits] using hup
    norm_num at hsub ⊢
    omega

theorem encode_year_and_utc_flag_lt (year : Int) (u : Bool) :
    encode_year_and_utc_flag year u.toNat < 4294967296 := by
  unfold encode_year_and_utc_flag
  have h1 : (encode_year year <<< 1) % 4294967296 < 2 ^ 32 := Nat.mod_lt _ (by norm_num)
  have h2 : u.toNat < 2 ^ 32 := by
    have := Bool.toNat_le u
    omega
  exact Nat.or_lt_two_pow h1 h2

/-- With room for the base bytes and the counted year groups, and a year stream that splits
without loss, `encode_timestamp_base` stores the base bytes followed by the reverse VLQ of the
low bits of the year stream. -/
theorem encode_timestamp_base_eq (dst_length year : Int)
    (month day hour minute second nanosecond : Nat) (u : Bool)
    (hmo : month ≤ 15) (hd : day ≤ 31) (hh : hour ≤ 31) (hmi : minute ≤ 63)
    (hs : second ≤ 63) (hn : nanosecond ≤ 999999999)
    (hsplit : year_split_exact (encode_year_and_utc_flag year u.toNat)
      (g_timestamp_year_upper_bits (get_subsecond_magnitude nanosecond)))
    (hroom : ((get_base_byte_count BASE_SIZE_TIMESTAMP (get_subsecond_magnitude nanosecond) +
      get_year_group_count (encode_year_and_utc_flag year u.toNat)
        (g_timestamp_year_upper_bits (get_subsecond_magnitude nanosecond)) : Nat) : Int)
      ≤ dst_length) :
    encode_timestamp_base dst_length year month day hour minute second nanosecond u =
      (((get_base_byte_count BASE_SIZE_TIMESTAMP (get_subsecond_magnitude nanosecond) +
          get_year_group_count (encode_year_and_utc_flag year u.toNat)
            (g_timestamp_year_upper_bits (get_subsecond_magnitude nanosecond)) : Nat) : Int),
        copy_le
          (timestamp_accumulator
            (encode_year_and_utc_flag year u.toNat >>>
              (get_year_group_count (encode_year_and_utc_flag year u.toNat)
                (g_timestamp_year_upper_bits (get_subsecond_magnitude nanosecond)) *
                BITS_PER_YEAR_GROUP))
            month day hour minute second nanosecond)
          (get_base_byte_count BASE_SIZE_TIMESTAMP (get_subsecond_magnitude nanosecond)) ++
        rvlq_bytes (encode_year_and_utc_flag year u.toNat %
          2 ^ (get_year_group_count (encode_year_and_utc_flag year u.toNat)
            (g_timestamp_year_upper_bits (get_subsecond_magnitude nanosecond)) *
            BITS_PER_YEAR_GROUP))) := by
  have he := encode_year_and_utc_flag_lt year u
  have hup := year_upper_lt _ (g_timestamp_year_upper_bits (get_subsecond_magnitude nanosecond))
    he
  have hch := (timestamp_accumulator_chain _ month day hour minute second nanosecond hup hmo hd
    hh hmi hs hn).1
  obtain ⟨_, hgroups⟩ := hsplit
  rw [and_mask] at hgroups
  have hg1 := (rvlq_group_count_pos (encode_year_and_utc_flag year u.toNat %
    2 ^ (get_year_group_count (encode_year_and_utc_flag year u.toNat)
      (g_timestamp_year_upper_bits (get_subsecond_magnitude nanosecond)) *
      BITS_PER_YEAR_GROUP))).1
  have hlow : encode_year_and_utc_flag year u.toNat %
      2 ^ (get_year_group_count (encode_year_and_utc_flag year u.toNat)
        (g_timestamp_year_upper_bits (get_subsecond_magnitude nanosecond)) *
        BITS_PER_YEAR_GROUP) % 4294967296 =
      encode_year_and_utc_flag year u.toNat %
      2 ^ (get_year_group_count (encode_year_and_utc_flag year u.toNat)
        (g_timestamp_year_upper_bits (get_subsecond_magnitude nanosecond)) *
        BITS_PER_YEAR_GROUP) :=
    Nat.mod_eq_of_lt (lt_of_le_of_lt (Nat.mod_le _ _) he)
  unfold encode_timestamp_base
  simp only [hch, and_mask, rvlq_encode_32, hlow, rvlq_bytes_length, hgroups]
  rw [hgroups] at hg1
  push_cast at hroom
  have hin : ¬ (((get_year_group_count (encode_year_and_utc_flag year u.toNat)
      (g_timestamp_year_upper_bits (get_subsecond_magnitude nanosecond)) : Nat) : Int) >
      dst_length -
        (get_base_byte_count BASE_SIZE_TIMESTAMP (get_subsecond_magnitude nanosecond) : Int)) := by
    omega
  rw [if_neg (by omega)]
  simp only [if_neg hin]
  rw [if_neg (by omega)]
  push_cast
  rfl

theorem rvlq_decode_32_bytes (upper low : Nat) (tzb : List Nat)
    (hfit : upper * 2 ^ (7 * rvlq_group_count low) + low < 4294967296) :
    rvlq_decode_32 upper (rvlq_bytes low ++ tzb) =
      (((rvlq_group_count low : Nat) : Int), upper * 2 ^ (7 * rvlq_group_count low) + low) := by
  have hg := rvlq_group_count_pos low
  have h1 : upper ≤ upper * 2 ^ (7 * rvlq_group_count low) :=
    Nat.le_mul_of_pos_right _ (by positivity)
  have hu32 : upper % 4294967296 = upper := Nat.mod_eq_of_lt (by omega)
  unfold rvlq_decode_32
  rw [hu32, rvlq_decode_loop_bytes upper low tzb hfit]
  simp only []
  rw [if_pos (by omega)]

/-- Decoding the base bytes of a timestamp, followed by the reverse VLQ of the low bits of
the year stream and by further bytes, restores the packed fields and the year stream and
hands the further bytes to the timezone decoder. -/
theorem ct_timestamp_decode_bytes (upper low month day hour minute second nanosecond : Nat)
    (tzb : List Nat) (ts0 : ct_timestamp)
    (hup : upper < 2 ^ g_timestamp_year_upper_bits (get_subsecond_magnitude nanosecond))
    (hmo : month ≤ 15) (hd : day ≤ 31) (hh : hour ≤ 31) (hmi : minute ≤ 63)
    (hs : second ≤ 63) (hn : nanosecond ≤ 999999999)
    (hfit : upper * 2 ^ (7 * rvlq_group_count low) + low < 4294967296) :
    ct_timestamp_decode
      (copy_le (timestamp_accumulator upper month day hour minute second nanosecond)
        (get_base_byte_count BASE_SIZE_TIMESTAMP (get_subsecond_magnitude nanosecond)) ++
        (rvlq_bytes low ++ tzb)) ts0 =
      (if (timezone_decode_old ts0.time.timezone tzb
            ((upper * 2 ^ (7 * rvlq_group_count low) + low) &&& 1 != 0)).1 < 0 then
          FAILURE_AT_POS
            ((get_base_byte_count BASE_SIZE_TIMESTAMP (get_subsecond_magnitude nanosecond) : Int)
              + (rvlq_group_count low : Int)) +
            (timezone_decode_old ts0.time.timezone tzb
              ((upper * 2 ^ (7 * rvlq_group_count low) + low) &&& 1 != 0)).1
        else
          (get_base_byte_count BASE_SIZE_TIMESTAMP (get_subsecond_magnitude nanosecond) : Int)
            + (rvlq_group_count low : Int) +
            (timezone_decode_old ts0.time.timezone tzb
              ((upper * 2 ^ (7 * rvlq_group_count low) + low) &&& 1 != 0)).1,
        { date := { year := decode_year ((upper * 2 ^ (7 * rvlq_group_count low) + low) >>> 1),
                    month := month, day := day },
          time := { hour := hour, minute := minute, second := second, nanosecond := nanosecond,
                    timezone := (timezone_decode_old ts0.time.timezone tzb
                      ((upper * 2 ^ (7 * rvlq_group_count low) + low) &&& 1 != 0)).2 } }) := by
  obtain ⟨_, hlt⟩ := timestamp_accumulator_chain upper month day hour minute second nanosecond
    hup hmo hd hh hmi hs hn
  obtain ⟨hsub, hns⟩ := subsecond_fits nanosecond hn
  have hm := get_subsecond_magnitude_le nanosecond
  have hg := rvlq_group_count_pos low
  have hk4 := get_base_byte_count_timestamp_pos _ hm
  have hmod := Nat.mod_eq_of_lt hlt
  generalize hacc : timestamp_accumulator upper month day hour minute second nanosecond = acc
    at hmod ⊢
  unfold timestamp_accumulator at hacc
  have hmagh : acc % 256 &&& MASK_MAGNITUDE = get_subsecond_magnitude nanosecond := by
    unfold MASK_MAGNITUDE SIZE_MAGNITUDE
    rw [and_mask]
    omega
  have f1 : acc >>> SIZE_MAGNITUDE &&& MASK_SECOND = second := by
    unfold MASK_SECOND SIZE_MAGNITUDE SIZE_SECOND
    simp only [and_mask, Nat.shiftRight_eq_div_pow]
    omega
  have f2 : acc >>> SIZE_MAGNITUDE >>> SIZE_SECOND &&& MASK_MINUTE = minute := by
    unfold MASK_MINUTE SIZE_MAGNITUDE SIZE_SECOND SIZE_MINUTE
    simp only [and_mask, Nat.shiftRight_eq_div_pow]
    omega
  have f3 : acc >>> SIZE_MAGNITUDE >>> SIZE_SECOND >>> SIZE_MINUTE &&& MASK_HOUR = hour := by
    unfold MASK_HOUR SIZE_MAGNITUDE SIZE_SECOND SIZE_MINUTE SIZE_HOUR
    simp only [and_mask, Nat.shiftRight_eq_div_pow]
    omega
  have f4 : acc >>> SIZE_MAGNITUDE >>> SIZE_SECOND >>> SIZE_MINUTE >>> SIZE_HOUR &&& MASK_DAY
      = day := by
    unfold MASK_DAY SIZE_MAGNITUDE SIZE_SECOND SIZE_MINUTE SIZE_HOUR SIZE_DAY
    simp only [and_mask, Nat.shiftRight_eq_div_pow]
    omega
  have f5 : acc >>> SIZE_MAGNITUDE >>> SIZE_SECOND >>> SIZE_MINUTE >>> SIZE_HOUR >>> SIZE_DAY
      &&& MASK_MONTH = month := by
    unfold MASK_MONTH SIZE_MAGNITUDE SIZE_SECOND SIZE_MINUTE SIZE_HOUR SIZE_DAY SIZE_MONTH
    simp only [and_mask, Nat.shiftRight_eq_div_pow]
    omega
  have f6 : acc >>> SIZE_MAGNITUDE >>> SIZE_SECOND >>> SIZE_MINUTE >>> SIZE_HOUR >>> SIZE_DAY
      >>> SIZE_MONTH &&& ((1 <<< (SIZE_SUBSECOND * get_subsecond_magnitude nanosecond)) - 1) =
      nanosecond / g_subsec_multipliers (get_subsecond_magnitude nanosecond) := by
    unfold SIZE_MAGNITUDE SIZE_SECOND SIZE_MINUTE SIZE_HOUR SIZE_DAY SIZE_MONTH SIZE_SUBSECOND
    simp only [and_mask, Nat.shiftRight_eq_div_pow]
    generalize nanosecond / g_subsec_multipliers (get_subsecond_magnitude nanosecond) = sub
      at hsub hacc ⊢
    generalize get_subsecond_magnitude nanosecond = m at hm hsub hacc hup ⊢
    interval_cases m <;> norm_num at hsub hacc ⊢ <;> omega
  have f7 : (acc >>> SIZE_MAGNITUDE >>> SIZE_SECOND >>> SIZE_MINUTE >>> SIZE_HOUR >>> SIZE_DAY
      >>> SIZE_MONTH >>> (SIZE_SUBSECOND * get_subsecond_magnitude nanosecond)) % 4294967296 =
      upper := by
    unfold SIZE_MAGNITUDE SIZE_SECOND SIZE_MINUTE SIZE_HOUR SIZE_DAY SIZE_MONTH SIZE_SUBSECOND
    simp only [Nat.shiftRight_eq_div_pow]
    generalize nanosecond / g_subsec_multipliers (get_subsecond_magnitude nanosecond) = sub
      at hsub hacc ⊢
    generalize get_subsecond_magnitude nanosecond = m at hm hsub hacc hup ⊢
    interval_cases m
    · have hu : upper < 16 := by simpa [g_timestamp_year_upper_bits] using hup
      norm_num at hsub hacc ⊢
      omega
    · have hu : upper < 4 := by simpa [g_timestamp_year_upper_bits] using hup
      norm_num at hsub hacc ⊢
      omega
    · have hu : upper < 1 := by simpa [g_timestamp_year_upper_bits] using hup
      norm_num at hsub hacc ⊢
      omega
    · have hu : upper < 64 := by simpa [g_timestamp_year_upper_bits] using hup
      norm_num at hsub hacc ⊢
      omega
  have hrv := rvlq_decode_32_bytes upper low tzb hfit
  obtain ⟨k, hk1⟩ : ∃ k, get_base_byte_count BASE_SIZE_TIMESTAMP
      (get_subsecond_magnitude nanosecond) = k + 1 := ⟨_, (Nat.sub_add_cancel (by omega)).symm⟩
  have hdrop : (copy_le acc (k + 1) ++ (rvlq_bytes low ++ tzb)).drop
      ((((k + 1 : Nat) : Int) + ((rvlq_group_count low : Nat) : Int)).toNat) = tzb := by
    have e1 : (((k + 1 : Nat) : Int) + ((rvlq_group_count low : Nat) : Int)).toNat =
        (k + 1) + rvlq_group_count low := by omega
    rw [e1, ← List.append_assoc]
    exact List.drop_left' (by simp [copy_le_length, rvlq_bytes_length])
  rw [hk1] at hmod ⊢
  unfold ct_timestamp_decode
  simp only [hk1, copy_le_headD, List.length_append, copy_le_length, rvlq_bytes_length,
    read_le_copy_le, copy_le_drop, hmod, hmagh, f1, f2, f3, f4, f5, f6, f7, hns, hrv, hdrop]
  rw [if_neg (by push_cast; omega), if_neg (by push_cast; omega), if_neg (by omega)]
  split_ifs <;> rfl

/-- The year group count of the timestamp does not depend on the UTC flag in the lowest bit
of the year stream. -/
theorem get_year_group_count_flag (e m : Nat) (u : Bool) (hm : m ≤ 3) :
    get_year_group_count (e * 2) (g_timestamp_year_upper_bits m) =
      get_year_group_count (e * 2 + u.toNat) (g_timestamp_year_upper_bits m) := by
  have hu := Bool.toNat_le u
  rw [get_year_group_count_eq, get_year_group_count_eq]
  unfold rvlq_group_count
  simp only [Nat.shiftRight_eq_div_pow]
  generalize u.toNat = b at hu ⊢
  interval_cases m <;> simp only [g_timestamp_year_upper_bits, List.getD_cons_zero,
    List.getD_cons_succ] <;> norm_num <;> split_ifs <;> omega

theorem ct_timestamp_encoded_size_eq (ts : ct_timestamp) (hts : legal_timestamp ts)
    (hlo : -1073741824 ≤ ts.date.year - 2000) (hhi : ts.date.year - 2000 < 1073741824) :
    ct_timestamp_encoded_size ts =
      get_base_byte_count BASE_SIZE_TIMESTAMP (get_subsecond_magnitude ts.time.nanosecond) +
        get_year_group_count
          (encode_year_and_utc_flag ts.date.year (timezone_is_zero ts.time.timezone).toNat)
          (g_timestamp_year_upper_bits (get_subsecond_magnitude ts.time.nanosecond)) +
        (timezone_bytes ts.time.timezone).length := by
  obtain ⟨_, _, _, _, _, htz⟩ := hts
  obtain ⟨he, hlt⟩ := encode_year_and_utc_flag_eq ts.date.year
    (timezone_is_zero ts.time.timezone) hlo hhi
  have hsh : (encode_year ts.date.year <<< 1) % 4294967296 = encode_year ts.date.year * 2 := by
    rw [Nat.shiftLeft_eq]
    omega
  have hfl := get_year_group_count_flag (encode_year ts.date.year)
    (get_subsecond_magnitude ts.time.nanosecond) (timezone_is_zero ts.time.timezone)
    (get_subsecond_magnitude_le _)
  rw [he, ← hfl]
  unfold ct_timestamp_encoded_size
  cases hz : ts.time.timezone with
  | zero => simp [ct_timestamp_encoded_size_x, get_timestamp_base_size, get_timezone_size,
      timezone_bytes, hsh]
  | string s =>
    rw [hz] at htz
    have hs := (strlen_of_label_ok s htz.2).1
    simp [ct_timestamp_encoded_size_x, get_timestamp_base_size, get_timezone_size,
      timezone_bytes, hs, hsh]
  | latlong la lo =>
    simp [ct_timestamp_encoded_size_latlong, get_timestamp_base_size,
      get_timezone_latlong_size, timezone_bytes, write_uint32_le, copy_le_length, hsh]

/-- With room for the encoded size and a year stream that splits without loss,
ct_timestamp_encode returns the size and stores the base bytes, the reverse VLQ of the low
bits of the year stream, and the timezone bytes. -/
theorem ct_timestamp_encode_eq (ts : ct_timestamp) (dst_length : Int)
    (hts : legal_timestamp ts)
    (hlo : -1073741824 ≤ ts.date.year - 2000) (hhi : ts.date.year - 2000 < 1073741824)
    (hsplit : year_split_exact
      (encode_year_and_utc_flag ts.date.year (timezone_is_zero ts.time.timezone).toNat)
      (g_timestamp_year_upper_bits (get_subsecond_magnitude ts.time.nanosecond)))
    (hroom : (ct_timestamp_encoded_size ts : Int) ≤ dst_length) :
    ct_timestamp_encode ts dst_length =
      ((ct_timestamp_encoded_size ts : Int),
        copy_le
          (timestamp_accumulator
            (encode_year_and_utc_flag ts.date.year (timezone_is_zero ts.time.timezone).toNat >>>
              (get_year_group_count
                (encode_year_and_utc_flag ts.date.year (timezone_is_zero ts.time.timezone).toNat)
                (g_timestamp_year_upper_bits (get_subsecond_magnitude ts.time.nanosecond)) *
                BITS_PER_YEAR_GROUP))
            ts.date.month ts.date.day ts.time.hour ts.time.minute ts.time.second
            ts.time.nanosecond)
          (get_base_byte_count BASE_SIZE_TIMESTAMP (get_subsecond_magnitude ts.time.nanosecond))
        ++ (rvlq_bytes
          (encode_year_and_utc_flag ts.date.year (timezone_is_zero ts.time.timezone).toNat %
            2 ^ (get_year_group_count
              (encode_year_and_utc_flag ts.date.year (timezone_is_zero ts.time.timezone).toNat)
              (g_timestamp_year_upper_bits (get_subsecond_magnitude ts.time.nanosecond)) *
              BITS_PER_YEAR_GROUP)) ++
          timezone_bytes ts.time.timezone)) := by
  have hsize := ct_timestamp_encoded_size_eq ts hts hlo hhi
  obtain ⟨⟨_, _, _, _, hmo, _, hd⟩, hh, hmi, hs, hn, htz⟩ := hts
  have hk := get_base_byte_count_timestamp_pos _ (get_subsecond_magnitude_le ts.time.nanosecond)
  rw [hsize] at hroom ⊢
  unfold ct_timestamp_encode
  cases hz : ts.time.timezone with
  | zero =>
    rw [hz] at hroom hsplit
    simp only [timezone_bytes, List.length_nil, timezone_is_zero] at hroom hsplit
    simp only [ct_timestamp_encode_x, timezone_bytes, timezone_is_zero, Option.isNone_none]
    rw [encode_timestamp_base_eq _ _ _ _ _ _ _ _ _ (by omega) (by omega) (by omega) (by omega)
      (by omega) hn hsplit (by push_cast at hroom ⊢; omega)]
    simp only [timezone_encode]
    rw [if_neg (by push_cast; omega), if_neg (by omega)]
    simp
  | string s =>
    rw [hz] at hroom htz hsplit
    simp only [timezone_bytes, List.length_cons, timezone_is_zero] at hroom hsplit
    simp only [ct_timestamp_encode_x, timezone_bytes, timezone_is_zero, Option.isNone_some]
    rw [encode_timestamp_base_eq _ _ _ _ _ _ _ _ _ (by omega) (by omega) (by omega) (by omega)
      (by omega) hn hsplit (by push_cast at hroom ⊢; omega)]
    simp only []
    rw [timezone_encode_string s _ htz.2 (by push_cast at hroom ⊢; omega)]
    rw [if_neg (by push_cast; omega), if_neg (by omega)]
    simp only [List.length_cons, List.append_assoc]
    push_cast
    rfl
  | latlong la lo =>
    rw [hz] at hroom hsplit
    simp only [timezone_bytes, write_uint32_le, copy_le_length, timezone_is_zero]
      at hroom hsplit
    simp only [ct_timestamp_encode_latlong, timezone_bytes, timezone_is_zero]
    rw [encode_timestamp_base_eq _ _ _ _ _ _ _ _ _ (by omega) (by omega) (by omega) (by omega)
      (by omega) hn hsplit (by push_cast at hroom ⊢; omega)]
    simp only []
    rw [timezone_encode_latlong_eq _ _ _ (by push_cast at hroom ⊢; omega)]
    rw [if_neg (by push_cast; omega), if_neg (by omega)]
    simp only [write_uint32_le, copy_le_length, List.append_assoc]
    push_cast
    rfl

theorem timezone_decode_old_bytes (z z0 : ct_timezone) (hz : legal_timezone z)
    (hll : latlong_in_field_range z) :
    timezone_decode_old z0 (timezone_bytes z) ((timezone_is_zero z).toNat != 0) =
      (((timezone_bytes z).length : Int), z) := by
  cases hzero : timezone_is_zero z with
  | true =>
    have : z = ct_timezone.zero := by
      cases z <;> simp [timezone_is_zero] at hzero ⊢
    subst this
    simp [timezone_decode_old, timezone_bytes]
  | false =>
    have hd := timezone_decode_bytes z hz hll hzero
    have hb : ((false : Bool).toNat != 0) = false := by decide
    rw [hb, timezone_decode_old_eq, hd]

/-- Decoding the bytes stored for a legal timestamp restores the timestamp. -/
theorem ct_timestamp_decode_stored (ts ts0 : ct_timestamp) (hts : legal_timestamp ts)
    (hll : latlong_in_field_range ts.time.timezone)
    (hlo : -1073741824 ≤ ts.date.year - 2000) (hhi : ts.date.year - 2000 < 1073741824)
    (hsplit : year_split_exact
      (encode_year_and_utc_flag ts.date.year (timezone_is_zero ts.time.timezone).toNat)
      (g_timestamp_year_upper_bits (get_subsecond_magnitude ts.time.nanosecond))) :
    ct_timestamp_decode
      (copy_le
          (timestamp_accumulator
            (encode_year_and_utc_flag ts.date.year (timezone_is_zero ts.time.timezone).toNat >>>
              (get_year_group_count
                (encode_year_and_utc_flag ts.date.year (timezone_is_zero ts.time.timezone).toNat)
                (g_timestamp_year_upper_bits (get_subsecond_magnitude ts.time.nanosecond)) *
                BITS_PER_YEAR_GROUP))
            ts.date.month ts.date.day ts.time.hour ts.time.minute ts.time.second
            ts.time.nanosecond)
          (get_base_byte_count BASE_SIZE_TIMESTAMP (get_subsecond_magnitude ts.time.nanosecond))
        ++ (rvlq_bytes
          (encode_year_and_utc_flag ts.date.year (timezone_is_zero ts.time.timezone).toNat %
            2 ^ (get_year_group_count
              (encode_year_and_utc_flag ts.date.year (timezone_is_zero ts.time.timezone).toNat)
              (g_timestamp_year_upper_bits (get_subsecond_magnitude ts.time.nanosecond)) *
              BITS_PER_YEAR_GROUP)) ++
          timezone_bytes ts.time.timezone)) ts0 =
      (((get_base_byte_count BASE_SIZE_TIMESTAMP (get_subsecond_magnitude ts.time.nanosecond) +
        get_year_group_count
          (encode_year_and_utc_flag ts.date.year (timezone_is_zero ts.time.timezone).toNat)
          (g_timestamp_year_upper_bits (get_subsecond_magnitude ts.time.nanosecond)) +
        (timezone_bytes ts.time.timezone).length : Nat) : Int), ts) := by
  obtain ⟨hy, hlt⟩ := encode_year_and_utc_flag_eq ts.date.year
    (timezone_is_zero ts.time.timezone) hlo hhi
  have he := encode_year_and_utc_flag_lt ts.date.year (timezone_is_zero ts.time.timezone)
  have hup := year_upper_lt _
    (g_timestamp_year_upper_bits (get_subsecond_magnitude ts.time.nanosecond)) he
  obtain ⟨⟨_, hylo, hyhi, _, hmo, _, hd⟩, hh, hmi, hs, hn, htz⟩ := hts
  obtain ⟨_, hgroups⟩ := hsplit
  rw [and_mask] at hgroups
  have hu := Bool.toNat_le (timezone_is_zero ts.time.timezone)
  have hdec := decode_year_encode_year ts.date.year hylo hyhi
  generalize hE : encode_year_and_utc_flag ts.date.year
    (timezone_is_zero ts.time.timezone).toNat = e at hy he hup hgroups ⊢
  generalize hG : get_year_group_count e
    (g_timestamp_year_upper_bits (get_subsecond_magnitude ts.time.nanosecond)) = g
    at hup hgroups ⊢
  have hjoin : e >>> (g * BITS_PER_YEAR_GROUP) *
      2 ^ (7 * rvlq_group_count (e % 2 ^ (g * BITS_PER_YEAR_GROUP))) +
      e % 2 ^ (g * BITS_PER_YEAR_GROUP) = e := by
    rw [hgroups, Nat.shiftRight_eq_div_pow]
    unfold BITS_PER_YEAR_GROUP
    rw [Nat.mul_comm 7 g]
    exact Nat.div_add_mod' e (2 ^ (g * 7))
  rw [ct_timestamp_decode_bytes _ _ _ _ _ _ _ _ _ ts0 hup (by omega) (by omega) (by omega)
    (by omega) (by omega) hn (by rw [hjoin]; exact he)]
  rw [hjoin, hgroups]
  have hflag : e &&& 1 = (timezone_is_zero ts.time.timezone).toNat := by
    rw [Nat.and_one_is_mod]
    omega
  have hyear : e >>> 1 = encode_year ts.date.year := by
    rw [Nat.shiftRight_eq_div_pow]
    omega
  rw [hflag, hyear, hdec, timezone_decode_old_bytes _ _ htz hll]
  rw [if_neg (by omega)]
  push_cast
  rfl

/-- Whatever reverse VLQ encoder `ct_date_encode` is given, the legal dates 2064-01-01 and
10192-01-01 are stored as the same bytes: for both the inline year bits are 1 and the value
handed to the encoder is 0, the group counts 1 and 2 being lost. -/
theorem ct_date_encode_with_collision (rvlq_encode : Nat → Int → Int × List Nat)
    (dst_length : Int) :
    ct_date_encode_with rvlq_encode ⟨10192, 1, 1⟩ dst_length =
      ct_date_encode_with rvlq_encode ⟨2064, 1, 1⟩ dst_length := by
  have h1 : encode_year 10192 = 16384 := by decide
  have h2 : encode_year 2064 = 128 := by decide
  have g1 : get_year_group_count 16384 SIZE_DATE_YEAR_UPPER_BITS = 2 := by
    rw [get_year_group_count_eq]
    decide
  have g2 : get_year_group_count 128 SIZE_DATE_YEAR_UPPER_BITS = 1 := by
    rw [get_year_group_count_eq]
    decide
  simp only [ct_date_encode_with, h1, h2, g1, g2]
  rfl

/-- Apart from the dates whose low year bits start with a zero group, the date codec is the
identity: when the reverse VLQ of the low bits of the zig-zag year has exactly the counted
number of groups and the destination has room for the encoded size, ct_date_decode restores
the date from the bytes of ct_date_encode and consumes the encoded size. -/
theorem ct_date_decode_encode_of_exact_split (d d0 : ct_date) (dst_length : Int)
    (hd : legal_date d)
    (hgroups : rvlq_group_count
        (encode_year d.year &&&
          ((1 <<< (get_year_group_count (encode_year d.year) SIZE_DATE_YEAR_UPPER_BITS *
            BITS_PER_YEAR_GROUP)) - 1))
      = get_year_group_count (encode_year d.year) SIZE_DATE_YEAR_UPPER_BITS)
    (hroom : (ct_date_encoded_size d : Int) ≤ dst_length) :
    (ct_date_encode d dst_length).1 = (ct_date_encoded_size d : Int)
      ∧ ct_date_decode (ct_date_encode d dst_length).2 d0 = ((ct_date_encoded_size d : Int), d)
      ∧ (ct_date_encode d dst_length).2.length = ct_date_encoded_size d := by
  obtain ⟨_, hylo, hyhi, _, hmo, _, hday⟩ := hd
  have hdec := decode_year_encode_year d.year hylo hyhi
  have he : encode_year d.year < 4294967296 := by
    obtain ⟨h1, h2, _⟩ := wrap_sub_bias d.year hylo hyhi
    exact zigzag_encode_lt _ h1 h2
  have hup := year_upper_lt _ SIZE_DATE_YEAR_UPPER_BITS he
  rw [and_mask] at hgroups
  have hsize : ct_date_encoded_size d =
      BYTE_COUNT_DATE + get_year_group_count (encode_year d.year) SIZE_DATE_YEAR_UPPER_BITS :=
    rfl
  rw [hsize] at hroom ⊢
  generalize hE : encode_year d.year = e at *
  generalize hG : get_year_group_count e SIZE_DATE_YEAR_UPPER_BITS = g at *
  have hg := rvlq_group_count_pos (e % 2 ^ (g * BITS_PER_YEAR_GROUP))
  rw [hgroups] at hg
  have hjoin : e >>> (g * BITS_PER_YEAR_GROUP) *
      2 ^ (7 * rvlq_group_count (e % 2 ^ (g * BITS_PER_YEAR_GROUP))) +
      e % 2 ^ (g * BITS_PER_YEAR_GROUP) = e := by
    rw [hgroups, Nat.shiftRight_eq_div_pow]
    unfold BITS_PER_YEAR_GROUP
    rw [Nat.mul_comm 7 g]
    exact Nat.div_add_mod' e (2 ^ (g * 7))
  have hlow : e % 2 ^ (g * BITS_PER_YEAR_GROUP) % 4294967296 =
      e % 2 ^ (g * BITS_PER_YEAR_GROUP) :=
    Nat.mod_eq_of_lt (lt_of_le_of_lt (Nat.mod_le _ _) he)
  generalize hU : e >>> (g * BITS_PER_YEAR_GROUP) = upper at *
  have hu : upper < 128 := by simpa [SIZE_DATE_YEAR_UPPER_BITS] using hup
  have hacc : ((((upper % 65536) <<< SIZE_MONTH ||| d.month) % 65536) <<< SIZE_DAY ||| d.day)
      % 65536 = (upper * 16 + d.month) * 32 + d.day := by
    unfold SIZE_MONTH SIZE_DAY
    have a1 : upper % 65536 = upper := Nat.mod_eq_of_lt (by omega)
    have a2 : upper <<< 4 ||| d.month = upper * 16 + d.month := by
      rw [shl_or _ _ 4 (by norm_num; omega)]
      norm_num
    have a3 : (upper * 16 + d.month) % 65536 = upper * 16 + d.month :=
      Nat.mod_eq_of_lt (by omega)
    have a4 : (upper * 16 + d.month) <<< 5 ||| d.day = (upper * 16 + d.month) * 32 + d.day := by
      rw [shl_or _ _ 5 (by norm_num; omega)]
      norm_num
    rw [a1, a2, a3, a4]
    exact Nat.mod_eq_of_lt (by omega)
  have henc : ct_date_encode d dst_length =
      (((BYTE_COUNT_DATE + g : Nat) : Int),
        copy_le ((upper * 16 + d.month) * 32 + d.day) 2 ++
          (rvlq_bytes (e % 2 ^ (g * BITS_PER_YEAR_GROUP)) ++ [])) := by
    unfold ct_date_encode ct_date_encode_with
    simp only [hE, hG, hU, hacc, and_mask, rvlq_encode_32, hlow, rvlq_bytes_length, hgroups,
      write_uint16_le, List.append_nil]
    have hin : ¬ (((g : Nat) : Int) > dst_length - (BYTE_COUNT_DATE : Int)) := by
      push_cast at hroom
      omega
    unfold BYTE_COUNT_DATE at hroom hin ⊢
    push_cast at hroom
    rw [if_neg (by omega)]
    simp only [if_neg hin]
    rw [if_neg (by omega)]
    push_cast
    rfl
  rw [henc]
  refine ⟨rfl, ?_, by simp [copy_le_length, rvlq_bytes_length, hgroups, BYTE_COUNT_DATE]⟩
  have hr : read_uint16_le (copy_le ((upper * 16 + d.month) * 32 + d.day) 2 ++
      (rvlq_bytes (e % 2 ^ (g * BITS_PER_YEAR_GROUP)) ++ [])) =
      (upper * 16 + d.month) * 32 + d.day := by
    unfold read_uint16_le
    rw [read_le_copy_le]
    norm_num
    omega
  have hrv := rvlq_decode_32_bytes upper (e % 2 ^ (g * BITS_PER_YEAR_GROUP)) []
    (by rw [hjoin]; exact he)
  rw [hjoin, hgroups] at hrv
  have f1 : ((upper * 16 + d.month) * 32 + d.day) &&& MASK_DAY = d.day := by
    unfold MASK_DAY SIZE_DAY
    rw [and_mask]
    omega
  have f2 : (((upper * 16 + d.month) * 32 + d.day) >>> SIZE_DAY) &&& MASK_MONTH = d.month := by
    unfold MASK_MONTH SIZE_DAY SIZE_MONTH
    rw [and_mask, Nat.shiftRight_eq_div_pow]
    omega
  have f3 : ((((upper * 16 + d.month) * 32 + d.day) >>> SIZE_DAY) >>> SIZE_MONTH) &&&
      MASK_DATE_YEAR_UPPER_BITS = upper := by
    unfold MASK_DATE_YEAR_UPPER_BITS SIZE_DAY SIZE_MONTH SIZE_DATE_YEAR_UPPER_BITS
    simp only [and_mask, Nat.shiftRight_eq_div_pow]
    omega
  unfold ct_date_decode ct_date_decode_x
  simp only [hr, f1, f2, f3, List.length_append, copy_le_length, rvlq_bytes_length, hgroups,
    copy_le_drop, BYTE_COUNT_DATE, hrv, hdec, List.length_nil]
  have c1 : ¬ (((2 : Nat) : Int) ≥ ((2 + (g + 0) : Nat) : Int)) := by
    push_cast
    omega
  have c2 : ¬ (((g : Nat) : Int) < 1) := by omega
  simp only [if_neg c1, if_neg c2]
  rw [if_pos (by omega)]
  have e1 : d.month % 256 = d.month := by omega
  have e2 : d.day % 256 = d.day := by omega
  rw [e1, e2]
  push_cast
  rfl

/-- The sign-bit trick of get_base_byte_count on a remainder below 8: the bit is 1 exactly
when the remainder is not zero. -/
theorem sign_bit_trick (r : Nat) (h : r < 8) :
    (sar32 (r ||| neg32 r) 7) &&& 1 = if r = 0 then 0 else 1 := by
  interval_cases r <;> decide

/-- The base byte count is the bit width divided by 8, rounded up. -/
theorem get_base_byte_count_eq_ceil (base_size magnitude : Nat) :
    get_base_byte_count base_size magnitude =
      (base_size + SIZE_SUBSECOND * magnitude + 7) / 8 := by
  unfold get_base_byte_count
  simp only []
  have hr : (base_size + SIZE_SUBSECOND * magnitude) &&& 7 =
      (base_size + SIZE_SUBSECOND * magnitude) % 8 :=
    Nat.and_pow_two_sub_one_eq_mod _ 3
  rw [hr, sign_bit_trick _ (Nat.mod_lt _ (by norm_num))]
  split_ifs <;> omega

/-- The two outcomes of the reverse VLQ encoder: with room for the groups it stores them all
and returns their count; otherwise it returns the negated room and stores what fits. -/
theorem rvlq_encode_32_cases (value : Nat) (dst_length : Int) :
    (((rvlq_group_count (value % 4294967296) : Nat) : Int) ≤ dst_length ∧
      rvlq_encode_32 value dst_length =
        (((rvlq_group_count (value % 4294967296) : Nat) : Int),
          rvlq_bytes (value % 4294967296))) ∨
    (dst_length < ((rvlq_group_count (value % 4294967296) : Nat) : Int) ∧
      rvlq_encode_32 value dst_length =
        (-(dst_length.toNat : Int), (rvlq_bytes (value % 4294967296)).take dst_length.toNat)) := by
  unfold rvlq_encode_32 FAILURE_AT_POS
  simp only [rvlq_bytes_length]
  by_cases h : ((rvlq_group_count (value % 4294967296) : Nat) : Int) > dst_length
  · right
    rw [if_pos h]
    exact ⟨h, rfl⟩
  · left
    rw [if_neg h]
    exact ⟨by omega, rfl⟩

theorem encode_timestamp_base_short (dst_length year : Int)
    (month day hour minute second nanosecond : Nat) (u : Bool)
    (h : dst_length <
      (get_base_byte_count BASE_SIZE_TIMESTAMP (get_subsecond_magnitude nanosecond) : Int)) :
    encode_timestamp_base dst_length year month day hour minute second nanosecond u =
      (-(get_base_byte_count BASE_SIZE_TIMESTAMP (get_subsecond_magnitude nanosecond) : Int),
        []) := by
  unfold encode_timestamp_base FAILURE_AT_POS
  simp only []
  rw [if_pos (by omega)]

/-- With room for the base bytes, `encode_timestamp_base` stores the base bytes of its
accumulator followed by what the reverse VLQ encoder stores for the low bits of the year
stream; its result is the base byte count plus the result of the reverse VLQ encoder, the
base byte count being negated when that result is not positive. -/
theorem encode_timestamp_base_room (dst_length year : Int)
    (month day hour minute second nanosecond : Nat) (u : Bool)
    (h : (get_base_byte_count BASE_SIZE_TIMESTAMP (get_subsecond_magnitude nanosecond) : Int)
      ≤ dst_length) :
    encode_timestamp_base dst_length year month day hour minute second nanosecond u =
      ((if (rvlq_encode_32 (timestamp_year_low year nanosecond u)
            (dst_length - (get_base_byte_count BASE_SIZE_TIMESTAMP
              (get_subsecond_magnitude nanosecond) : Int))).1 ≤ 0 then
          -(get_base_byte_count BASE_SIZE_TIMESTAMP (get_subsecond_magnitude nanosecond) : Int)
        else
          (get_base_byte_count BASE_SIZE_TIMESTAMP (get_subsecond_magnitude nanosecond) : Int))
        + (rvlq_encode_32 (timestamp_year_low year nanosecond u)
            (dst_length - (get_base_byte_count BASE_SIZE_TIMESTAMP
              (get_subsecond_magnitude nanosecond) : Int))).1,
        copy_le (timestamp_base_word year month day hour minute second nanosecond u)
          (get_base_byte_count BASE_SIZE_TIMESTAMP (get_subsecond_magnitude nanosecond)) ++
        (rvlq_encode_32 (timestamp_year_low year nanosecond u)
            (dst_length - (get_base_byte_count BASE_SIZE_TIMESTAMP
              (get_subsecond_magnitude nanosecond) : Int))).2) := by
  unfold encode_timestamp_base FAILURE_AT_POS timestamp_base_word timestamp_year_low
  simp only []
  rw [if_neg (by omega)]
  split_ifs <;> rfl

theorem timestamp_base_word_magnitude (year : Int)
    (month day hour minute second nanosecond : Nat) (u : Bool) :
    timestamp_base_word year month day hour minute second nanosecond u % 4 =
      get_subsecond_magnitude nanosecond := by
  have hm := get_subsecond_magnitude_le nanosecond
  unfold timestamp_base_word SIZE_MAGNITUDE
  simp only [Nat.shiftLeft_eq]
  omega

/-- The low bits handed to the reverse VLQ encoder are a 32-bit value whose lowest bit is
the UTC flag. -/
theorem timestamp_year_low_flag (year : Int) (nanosecond : Nat) (u : Bool) :
    timestamp_year_low year nanosecond u < 4294967296 ∧
    timestamp_year_low year nanosecond u % 2 = u.toNat := by
  have he := encode_year_and_utc_flag_lt year u
  have hu := Bool.toNat_le u
  have hbit : encode_year_and_utc_flag year u.toNat % 2 = u.toNat := by
    unfold encode_year_and_utc_flag
    have h1 := Nat.and_one_is_mod ((encode_year year <<< 1) % 4294967296 ||| u.toNat)
    rw [Nat.and_comm, Nat.and_or_distrib_left] at h1
    have h2 : 1 &&& (encode_year year <<< 1) % 4294967296 = 0 := by
      rw [Nat.and_comm, Nat.and_one_is_mod, Nat.shiftLeft_eq]
      omega
    have h3 : 1 &&& u.toNat = u.toNat := by
      rw [Nat.and_comm, Nat.and_one_is_mod]
      omega
    rw [h2, h3, Nat.zero_or] at h1
    exact h1.symm
  unfold timestamp_year_low
  simp only [and_mask]
  have hg : 1 ≤ get_year_group_count (encode_year_and_utc_flag year u.toNat)
      (g_timestamp_year_upper_bits (get_subsecond_magnitude nanosecond)) := by
    rw [get_year_group_count_eq]
    exact (rvlq_group_count_pos _).1
  generalize encode_year_and_utc_flag year u.toNat = e at *
  generalize get_year_group_count e _ = g at *
  refine ⟨lt_of_le_of_lt (Nat.mod_le _ _) he, ?_⟩
  obtain ⟨k, rfl⟩ : ∃ k, g = k + 1 := ⟨g - 1, by omega⟩
  unfold BITS_PER_YEAR_GROUP
  have hp : 2 ^ ((k + 1) * 7) = 2 * 2 ^ (k * 7 + 6) := by
    rw [show (k + 1) * 7 = (k * 7 + 6) + 1 by ring, pow_succ]
    ring
  rw [hp, Nat.mod_mul_right_mod]
  exact hbit

theorem ct_date_encode_short (d : ct_date) (dst_length : Int) (h : dst_length < 2) :
    ct_date_encode d dst_length = (-2, []) := by
  unfold ct_date_encode ct_date_encode_with FAILURE_AT_POS BYTE_COUNT_DATE
  simp only []
  rw [if_pos (by push_cast; omega)]
  rfl

/-- With room for the two base bytes, `ct_date_encode` stores them followed by what the
reverse VLQ encoder stores for the low bits of the zig-zag year; its result is 2 plus the
result of the reverse VLQ encoder, or -2 plus that result when it is not positive. -/
theorem ct_date_encode_room (d : ct_date) (dst_length : Int) (h : 2 ≤ dst_length) :
    ct_date_encode d dst_length =
      ((if (rvlq_encode_32 (date_year_low d) (dst_length - 2)).1 ≤ 0 then (-2 : Int) else 2)
        + (rvlq_encode_32 (date_year_low d) (dst_length - 2)).1,
        write_uint16_le (date_base_word d) ++
          (rvlq_encode_32 (date_year_low d) (dst_length - 2)).2) := by
  unfold ct_date_encode ct_date_encode_with FAILURE_AT_POS BYTE_COUNT_DATE date_base_word
    date_year_low
  simp only []
  rw [if_neg (by push_cast; omega)]
  push_cast
  split_ifs <;> rfl

/-- The low bits of a value below 2^(7 g) need at most g reverse VLQ groups. -/
theorem rvlq_group_count_mod_le (e g : Nat) (hg1 : 1 ≤ g) (hg5 : g ≤ 5) :
    rvlq_group_count (e % 2 ^ (g * 7)) ≤ g := by
  have h : e % 2 ^ (g * 7) < 2 ^ (g * 7) := Nat.mod_lt _ (by positivity)
  generalize e % 2 ^ (g * 7) = v at h
  unfold rvlq_group_count
  interval_cases g <;> norm_num at h <;> split_ifs <;> omega

/-- For a legal date the 16-bit accumulator is (upper year bits << 9) | (month << 5) | day,
the upper year bits being below 2^7, and the value handed to the reverse VLQ encoder is the
zig-zag year modulo 2^(7 g), which needs at most g groups. -/
theorem date_words_eq (d : ct_date) (hd : legal_date d) :
    date_base_word d =
      ((encode_year d.year >>>
          (get_year_group_count (encode_year d.year) SIZE_DATE_YEAR_UPPER_BITS *
            BITS_PER_YEAR_GROUP)) <<< 9) ||| (d.month <<< 5) ||| d.day ∧
    date_base_word d < 65536 ∧
    date_year_low d = encode_year d.year %
      2 ^ (get_year_group_count (encode_year d.year) SIZE_DATE_YEAR_UPPER_BITS *
        BITS_PER_YEAR_GROUP) ∧
    date_year_low d < 4294967296 ∧
    rvlq_group_count (date_year_low d) ≤
      get_year_group_count (encode_year d.year) SIZE_DATE_YEAR_UPPER_BITS := by
  obtain ⟨_, hylo, hyhi, _, hmo, _, hday⟩ := hd
  have he : encode_year d.year < 4294967296 := by
    obtain ⟨h1, h2, _⟩ := wrap_sub_bias d.year hylo hyhi
    exact zigzag_encode_lt _ h1 h2
  have hup := year_upper_lt _ SIZE_DATE_YEAR_UPPER_BITS he
  have hg := rvlq_group_count_pos ((encode_year d.year % 4294967296) >>>
    SIZE_DATE_YEAR_UPPER_BITS)
  rw [← get_year_group_count_eq] at hg
  unfold date_base_word date_year_low
  simp only [and_mask]
  generalize encode_year d.year = e at *
  generalize get_year_group_count e SIZE_DATE_YEAR_UPPER_BITS = g at *
  have hle := rvlq_group_count_mod_le e g hg.1 hg.2
  unfold BITS_PER_YEAR_GROUP at *
  generalize e >>> (g * 7) = upper at *
  have hu : upper < 128 := by simpa [SIZE_DATE_YEAR_UPPER_BITS] using hup
  unfold SIZE_MONTH SIZE_DAY
  have a1 : upper % 65536 = upper := Nat.mod_eq_of_lt (by omega)
  have a2 : upper <<< 4 ||| d.month = upper * 16 + d.month := by
    rw [shl_or _ _ 4 (by norm_num; omega)]
    norm_num
  have a3 : (upper * 16 + d.month) % 65536 = upper * 16 + d.month :=
    Nat.mod_eq_of_lt (by omega)
  have a4 : (upper * 16 + d.month) <<< 5 ||| d.day = (upper * 16 + d.month) * 32 + d.day := by
    rw [shl_or _ _ 5 (by norm_num; omega)]
    norm_num
  have b1 : d.month <<< 5 ||| d.day = d.month * 32 + d.day := by
    rw [shl_or _ _ 5 (by norm_num; omega)]
    norm_num
  have b2 : upper <<< 9 ||| (d.month * 32 + d.day) = upper * 512 + (d.month * 32 + d.day) := by
    rw [shl_or _ _ 9 (by norm_num; omega)]
    norm_num
  rw [a1, a2, a3, a4, Nat.or_assoc, b1, b2]
  refine ⟨?_, ?_, trivial, lt_of_le_of_lt (Nat.mod_le _ _) he, hle⟩
  · rw [Nat.mod_eq_of_lt (by omega)]
    ring
  · exact Nat.mod_lt _ (by norm_num)

theorem ct_timestamp_decode_nil (ts0 : ct_timestamp) :
    ct_timestamp_decode [] ts0 = (-1, ts0) := by
  unfold ct_timestamp_decode FAILURE_AT_POS
  simp

/-- A source that holds no byte beyond the base bytes announced by its first byte is a
buffer-short error of the timestamp decoder, reported at the base byte count. -/
theorem ct_timestamp_decode_short (src : List Nat) (ts0 : ct_timestamp)
    (h1 : 1 ≤ src.length)
    (h2 : src.length ≤ get_base_byte_count BASE_SIZE_TIMESTAMP (src.headD 0 &&& MASK_MAGNITUDE)) :
    ct_timestamp_decode src ts0 =
      (-(get_base_byte_count BASE_SIZE_TIMESTAMP (src.headD 0 &&& MASK_MAGNITUDE) : Int),
        ts0) := by
  unfold ct_timestamp_decode FAILURE_AT_POS
  simp only []
  rw [if_neg (by omega), if_pos (by omega)]

theorem encode_time_base_short (dst_length : Int) (hour minute second nanosecond : Nat)
    (u : Bool)
    (h : dst_length < (get_base_byte_count BASE_SIZE_TIME (get_subsecond_magnitude nanosecond)
      : Int)) :
    encode_time_base dst_length hour minute second nanosecond u =
      (-(get_base_byte_count BASE_SIZE_TIME (get_subsecond_magnitude nanosecond) : Int), []) := by
  unfold encode_time_base FAILURE_AT_POS
  simp only []
  rw [if_pos (by omega)]

theorem encode_time_base_room (dst_length : Int) (hour minute second nanosecond : Nat)
    (u : Bool)
    (h : (get_base_byte_count BASE_SIZE_TIME (get_subsecond_magnitude nanosecond) : Int)
      ≤ dst_length) :
    (encode_time_base dst_length hour minute second nanosecond u).1 =
      (get_base_byte_count BASE_SIZE_TIME (get_subsecond_magnitude nanosecond) : Int) ∧
    (encode_time_base dst_length hour minute second nanosecond u).2.length =
      get_base_byte_count BASE_SIZE_TIME (get_subsecond_magnitude nanosecond) := by
  unfold encode_time_base FAILURE_AT_POS
  simp only []
  rw [if_neg (by omega)]
  exact ⟨rfl, copy_le_length _ _⟩

/-- The outcomes of the two timezone encoders, by timezone variant: with room for the timezone
bytes they are stored and their count returned; otherwise the result is minus their count
and nothing is stored. -/
theorem timezone_encode_cases (z : ct_timezone) (room : Int) :
    ((timezone_encoded_size z : Int) ≤ room ∧
      (timezone_encode_of room z).1 = (timezone_encoded_size z : Int) ∧
      (timezone_encode_of room z).2.length = timezone_encoded_size z) ∨
    (room < (timezone_encoded_size z : Int) ∧
      timezone_encode_of room z = (-(timezone_encoded_size z : Int), [])) := by
  have hs : ∀ s : List Nat, strlen s ≤ s.length := by
    intro s
    unfold strlen
    exact (List.takeWhile_sublist _).length_le
  cases z with
  | zero =>
    simp only [timezone_encode_of, timezone_encode, timezone_encoded_size, get_timezone_size]
    by_cases h : (0 : Int) ≤ room
    · left
      exact ⟨by simpa using h, rfl, rfl⟩
    · right
      exact ⟨by simpa using h, rfl⟩
  | string s =>
    simp only [timezone_encode_of, timezone_encode, timezone_encoded_size, get_timezone_size,
      FAILURE_AT_POS]
    push_cast
    by_cases h : ((strlen s : Int) + 1) > room
    · right
      rw [if_pos h]
      exact ⟨by omega, rfl⟩
    · left
      rw [if_neg h]
      refine ⟨by omega, rfl, ?_⟩
      have := hs s
      simp [List.length_take]
      omega
  | latlong la lo =>
    simp only [timezone_encode_of, timezone_encode_latlong, timezone_encoded_size,
      get_timezone_latlong_size, FAILURE_AT_POS]
    push_cast
    by_cases h : (4 : Int) > room
    · right
      rw [if_pos h]
      exact ⟨by omega, rfl⟩
    · left
      rw [if_neg h]
      exact ⟨by omega, rfl, copy_le_length _ 4⟩

/-- The timezone step shared by the time and timestamp encoders, after `offset` bytes were
stored: either the timezone fits and the total is returned, or the result is minus the
total and only the earlier bytes are stored. -/
theorem encode_tail_cases (z : ct_timezone) (dst_length : Int) (stored : List Nat)
    (offset : Nat) (hlen : stored.length = offset) (hroom : (offset : Int) ≤ dst_length)
    (tz : Int × List Nat) (htz : tz = timezone_encode_of (dst_length - (offset : Int)) z) :
    (dst_length < ((offset + timezone_encoded_size z : Nat) : Int) ∧
      (if tz.1 < 0 then (FAILURE_AT_POS (offset : Int) + tz.1, stored ++ tz.2)
        else ((offset : Int) + tz.1, stored ++ tz.2)) =
        (-((offset + timezone_encoded_size z : Nat) : Int), stored)) ∨
    (((offset + timezone_encoded_size z : Nat) : Int) ≤ dst_length ∧
      (if tz.1 < 0 then (FAILURE_AT_POS (offset : Int) + tz.1, stored ++ tz.2)
        else ((offset : Int) + tz.1, stored ++ tz.2)).1 =
        ((offset + timezone_encoded_size z : Nat) : Int) ∧
      (if tz.1 < 0 then (FAILURE_AT_POS (offset : Int) + tz.1, stored ++ tz.2)
        else ((offset : Int) + tz.1, stored ++ tz.2)).2.length =
        offset + timezone_encoded_size z) := by
  rcases timezone_encode_cases z (dst_length - (offset : Int)) with ⟨h, h1, h2⟩ | ⟨h, he⟩
  · right
    rw [← htz] at h1 h2
    have hn : ¬ tz.1 < 0 := by omega
    rw [if_neg hn]
    refine ⟨by push_cast; omega, ?_, ?_⟩
    · simp only [h1]; push_cast; rfl
    · simp only [List.length_append, hlen, h2]
  · left
    rw [← htz] at he
    have hn : tz.1 < 0 := by rw [he]; simp only; omega
    rw [if_pos hn, he]
    refine ⟨by push_cast; omega, ?_⟩
    simp only [FAILURE_AT_POS, List.append_nil]
    congr 1
    push_cast
    omega

/-- Every outcome of `ct_date_encode`: no room for the two base bytes, no room for the year
groups, or success. -/
theorem ct_date_encode_outcomes (d : ct_date) (dst_length : Int) :
    (dst_length < 2 ∧ ct_date_encode d dst_length = (-2, [])) ∨
    (2 ≤ dst_length ∧
      dst_length < ((2 + rvlq_group_count (date_year_low d % 4294967296) : Nat) : Int) ∧
      (ct_date_encode d dst_length).1 = -dst_length ∧
      ((ct_date_encode d dst_length).2.length : Int) = dst_length) ∨
    (((2 + rvlq_group_count (date_year_low d % 4294967296) : Nat) : Int) ≤ dst_length ∧
      (ct_date_encode d dst_length).1 =
        ((2 + rvlq_group_count (date_year_low d % 4294967296) : Nat) : Int) ∧
      (ct_date_encode d dst_length).2.length =
        2 + rvlq_group_count (date_year_low d % 4294967296)) := by
  by_cases h2 : dst_length < 2
  · exact Or.inl ⟨h2, ct_date_encode_short d dst_length h2⟩
  · right
    have hroom : 2 ≤ dst_length := by omega
    rw [ct_date_encode_room d dst_length hroom]
    have hg := rvlq_group_count_pos (date_year_low d % 4294967296)
    have hl := rvlq_bytes_length (date_year_low d % 4294967296)
    rcases rvlq_encode_32_cases (date_year_low d) (dst_length - 2) with ⟨h, he⟩ | ⟨h, he⟩
    · right
      rw [he]
      refine ⟨by push_cast; omega, ?_, ?_⟩
      · simp only
        rw [if_neg (by omega)]
        push_cast
        rfl
      · simp only [List.length_append, write_uint16_le, copy_le_length, hl]
    · left
      rw [he]
      refine ⟨hroom, by push_cast; omega, ?_, ?_⟩
      · simp only
        rw [if_pos (by omega)]
        omega
      · simp only [List.length_append, write_uint16_le, copy_le_length, List.length_take, hl]
        push_cast
        omega

/-- The function `ct_time_encode` in one expression for every timezone variant. -/
theorem ct_time_encode_unfold (t : ct_time) (dst_length : Int) :
    ct_time_encode t dst_length =
      if (encode_time_base dst_length t.hour t.minute t.second t.nanosecond
          (timezone_is_zero t.timezone)).1 ≤ 0 then
        encode_time_base dst_length t.hour t.minute t.second t.nanosecond
          (timezone_is_zero t.timezone)
      else if (timezone_encode_of (dst_length -
          (encode_time_base dst_length t.hour t.minute t.second t.nanosecond
            (timezone_is_zero t.timezone)).1) t.timezone).1 < 0 then
        (FAILURE_AT_POS (encode_time_base dst_length t.hour t.minute t.second t.nanosecond
            (timezone_is_zero t.timezone)).1 +
          (timezone_encode_of (dst_length -
            (encode_time_base dst_length t.hour t.minute t.second t.nanosecond
              (timezone_is_zero t.timezone)).1) t.timezone).1,
          (encode_time_base dst_length t.hour t.minute t.second t.nanosecond
            (timezone_is_zero t.timezone)).2 ++
          (timezone_encode_of (dst_length -
            (encode_time_base dst_length t.hour t.minute t.second t.nanosecond
              (timezone_is_zero t.timezone)).1) t.timezone).2)
      else
        ((encode_time_base dst_length t.hour t.minute t.second t.nanosecond
            (timezone_is_zero t.timezone)).1 +
          (timezone_encode_of (dst_length -
            (encode_time_base dst_length t.hour t.minute t.second t.nanosecond
              (timezone_is_zero t.timezone)).1) t.timezone).1,
          (encode_time_base dst_length t.hour t.minute t.second t.nanosecond
            (timezone_is_zero t.timezone)).2 ++
          (timezone_encode_of (dst_length -
            (encode_time_base dst_length t.hour t.minute t.second t.nanosecond
              (timezone_is_zero t.timezone)).1) t.timezone).2) := by
  unfold ct_time_encode
  cases t.timezone <;> rfl

/-- Every outcome of `ct_time_encode`: no room for the base bytes, no room for the timezone,
or success. -/
theorem ct_time_encode_outcomes (t : ct_time) (dst_length : Int) :
    (dst_length <
        (get_base_byte_count BASE_SIZE_TIME (get_subsecond_magnitude t.nanosecond) : Int) ∧
      ct_time_encode t dst_length =
        (-(get_base_byte_count BASE_SIZE_TIME (get_subsecond_magnitude t.nanosecond) : Int),
          [])) ∨
    ((get_base_byte_count BASE_SIZE_TIME (get_subsecond_magnitude t.nanosecond) : Int)
        ≤ dst_length ∧
      dst_length < (ct_time_encoded_size t : Int) ∧
      (ct_time_encode t dst_length).1 = -(ct_time_encoded_size t : Int) ∧
      (ct_time_encode t dst_length).2.length =
        get_base_byte_count BASE_SIZE_TIME (get_subsecond_magnitude t.nanosecond)) ∨
    ((ct_time_encoded_size t : Int) ≤ dst_length ∧
      (ct_time_encode t dst_length).1 = (ct_time_encoded_size t : Int) ∧
      (ct_time_encode t dst_length).2.length = ct_time_encoded_size t) := by
  have hpos := get_base_byte_count_time_pos _ (get_subsecond_magnitude_le t.nanosecond)
  have hsize : ct_time_encoded_size t =
      get_base_byte_count BASE_SIZE_TIME (get_subsecond_magnitude t.nanosecond) +
        timezone_encoded_size t.timezone := by
    unfold ct_time_encoded_size timezone_encoded_size
    cases t.timezone <;> rfl
  rw [ct_time_encode_unfold]
  by_cases hb : dst_length <
      (get_base_byte_count BASE_SIZE_TIME (get_subsecond_magnitude t.nanosecond) : Int)
  · left
    refine ⟨hb, ?_⟩
    rw [encode_time_base_short _ _ _ _ _ _ hb]
    rw [if_pos (by simp only; omega)]
  · right
    have hroom : (get_base_byte_count BASE_SIZE_TIME (get_subsecond_magnitude t.nanosecond) : Int)
        ≤ dst_length := by omega
    obtain ⟨e1, e2⟩ := encode_time_base_room dst_length t.hour t.minute t.second t.nanosecond
      (timezone_is_zero t.timezone) hroom
    rw [if_neg (by rw [e1]; omega), e1, hsize]
    rcases encode_tail_cases t.timezone dst_length _ _ e2 hroom _ rfl with ⟨h, he⟩ | ⟨h, h1, h2⟩
    · left
      rw [he]
      exact ⟨hroom, h, rfl, e2⟩
    · right
      exact ⟨h, h1, h2⟩

/-- The function `ct_timestamp_encode` in one expression for every timezone variant. -/
theorem ct_timestamp_encode_unfold (ts : ct_timestamp) (dst_length : Int) :
    ct_timestamp_encode ts dst_length =
      if (encode_timestamp_base dst_length ts.date.year ts.date.month ts.date.day ts.time.hour
          ts.time.minute ts.time.second ts.time.nanosecond (timezone_is_zero ts.time.timezone)).1 ≤ 0 then
        (encode_timestamp_base dst_length ts.date.year ts.date.month ts.date.day ts.time.hour
          ts.time.minute ts.time.second ts.time.nanosecond (timezone_is_zero ts.time.timezone))
      else if (timezone_encode_of (dst_length - (encode_timestamp_base dst_length ts.date.year ts.date.month ts.date.day ts.time.hour
          ts.time.minute ts.time.second ts.time.nanosecond (timezone_is_zero ts.time.timezone)).1) ts.time.timezone).1 < 0 then
        (FAILURE_AT_POS (encode_timestamp_base dst_length ts.date.year ts.date.month ts.date.day ts.time.hour
          ts.time.minute ts.time.second ts.time.nanosecond (timezone_is_zero ts.time.timezone)).1 + (timezone_encode_of (dst_length - (encode_timestamp_base dst_length ts.date.year ts.date.month ts.date.day ts.time.hour
          ts.time.minute ts.time.second ts.time.nanosecond (timezone_is_zero ts.time.timezone)).1) ts.time.timezone).1,
          (encode_timestamp_base dst_length ts.date.year ts.date.month ts.date.day ts.time.hour
          ts.time.minute ts.time.second ts.time.nanosecond (timezone_is_zero ts.time.timezone)).2 ++ (timezone_encode_of (dst_length - (encode_timestamp_base dst_length ts.date.year ts.date.month ts.date.day ts.time.hour
          ts.time.minute ts.time.second ts.time.nanosecond (timezone_is_zero ts.time.timezone)).1) ts.time.timezone).2)
      else
        ((encode_timestamp_base dst_length ts.date.year ts.date.month ts.date.day ts.time.hour
          ts.time.minute ts.time.second ts.time.nanosecond (timezone_is_zero ts.time.timezone)).1 + (timezone_encode_of (dst_length - (encode_timestamp_base dst_length ts.date.year ts.date.month ts.date.day ts.time.hour
          ts.time.minute ts.time.second ts.time.nanosecond (timezone_is_zero ts.time.timezone)).1) ts.time.timezone).1,
          (encode_timestamp_base dst_length ts.date.year ts.date.month ts.date.day ts.time.hour
          ts.time.minute ts.time.second ts.time.nanosecond (timezone_is_zero ts.time.timezone)).2 ++ (timezone_encode_of (dst_length - (encode_timestamp_base dst_length ts.date.year ts.date.month ts.date.day ts.time.hour
          ts.time.minute ts.time.second ts.time.nanosecond (timezone_is_zero ts.time.timezone)).1) ts.time.timezone).2) := by
  unfold ct_timestamp_encode
  cases ts.time.timezone <;> rfl

/-- Every outcome of `ct_timestamp_encode`: no room for the base bytes, no room for the year
groups, no room for the timezone, or success. -/
theorem ct_timestamp_encode_outcomes (ts : ct_timestamp) (dst_length : Int) :
    (dst_length < ((get_base_byte_count BASE_SIZE_TIMESTAMP (get_subsecond_magnitude ts.time.nanosecond)) : Int) ∧
      ct_timestamp_encode ts dst_length = (-((get_base_byte_count BASE_SIZE_TIMESTAMP (get_subsecond_magnitude ts.time.nanosecond)) : Int), [])) ∨
    (((get_base_byte_count BASE_SIZE_TIMESTAMP (get_subsecond_magnitude ts.time.nanosecond)) : Int) ≤ dst_length ∧
      dst_length < (((get_base_byte_count BASE_SIZE_TIMESTAMP (get_subsecond_magnitude ts.time.nanosecond)) + (rvlq_group_count (timestamp_year_low ts.date.year ts.time.nanosecond
        (timezone_is_zero ts.time.timezone) % 4294967296)) : Nat) : Int) ∧
      (ct_timestamp_encode ts dst_length).1 = -dst_length ∧
      ((ct_timestamp_encode ts dst_length).2.length : Int) = dst_length) ∨
    ((((get_base_byte_count BASE_SIZE_TIMESTAMP (get_subsecond_magnitude ts.time.nanosecond)) + (rvlq_group_count (timestamp_year_low ts.date.year ts.time.nanosecond
        (timezone_is_zero ts.time.timezone) % 4294967296)) : Nat) : Int) ≤ dst_length ∧
      dst_length < (((get_base_byte_count BASE_SIZE_TIMESTAMP (get_subsecond_magnitude ts.time.nanosecond)) + (rvlq_group_count (timestamp_year_low ts.date.year ts.time.nanosecond
        (timezone_is_zero ts.time.timezone) % 4294967296)) + (timezone_encoded_size ts.time.timezone) : Nat) : Int) ∧
      (ct_timestamp_encode ts dst_length).1 = -(((get_base_byte_count BASE_SIZE_TIMESTAMP (get_subsecond_magnitude ts.time.nanosecond)) + (rvlq_group_count (timestamp_year_low ts.date.year ts.time.nanosecond
        (timezone_is_zero ts.time.timezone) % 4294967296)) + (timezone_encoded_size ts.time.timezone) : Nat) : Int) ∧
      (ct_timestamp_encode ts dst_length).2.length = (get_base_byte_count BASE_SIZE_TIMESTAMP (get_subsecond_magnitude ts.time.nanosecond)) + (rvlq_group_count (timestamp_year_low ts.date.year ts.time.nanosecond
        (timezone_is_zero ts.time.timezone) % 4294967296))) ∨
    ((((get_base_byte_count BASE_SIZE_TIMESTAMP (get_subsecond_magnitude ts.time.nanosecond)) + (rvlq_group_count (timestamp_year_low ts.date.year ts.time.nanosecond
        (timezone_is_zero ts.time.timezone) % 4294967296)) + (timezone_encoded_size ts.time.timezone) : Nat) : Int) ≤ dst_length ∧
      (ct_timestamp_encode ts dst_length).1 = (((get_base_byte_count BASE_SIZE_TIMESTAMP (get_subsecond_magnitude ts.time.nanosecond)) + (rvlq_group_count (timestamp_year_low ts.date.year ts.time.nanosecond
        (timezone_is_zero ts.time.timezone) % 4294967296)) + (timezone_encoded_size ts.time.timezone) : Nat) : Int) ∧
      (ct_timestamp_encode ts dst_length).2.length = (get_base_byte_count BASE_SIZE_TIMESTAMP (get_subsecond_magnitude ts.time.nanosecond)) + (rvlq_group_count (timestamp_year_low ts.date.year ts.time.nanosecond
        (timezone_is_zero ts.time.timezone) % 4294967296)) + (timezone_encoded_size ts.time.timezone)) := by
  have hpos := get_base_byte_count_timestamp_pos _ (get_subsecond_magnitude_le ts.time.nanosecond)
  have hg := rvlq_group_count_pos (timestamp_year_low ts.date.year ts.time.nanosecond
    (timezone_is_zero ts.time.timezone) % 4294967296)
  have hl := rvlq_bytes_length (timestamp_year_low ts.date.year ts.time.nanosecond
    (timezone_is_zero ts.time.timezone) % 4294967296)
  rw [ct_timestamp_encode_unfold]
  by_cases hb : dst_length < ((get_base_byte_count BASE_SIZE_TIMESTAMP (get_subsecond_magnitude ts.time.nanosecond)) : Int)
  · left
    refine ⟨hb, ?_⟩
    rw [encode_timestamp_base_short _ _ _ _ _ _ _ _ _ hb]
    rw [if_pos (by simp only; omega)]
  · right
    have hroom : ((get_base_byte_count BASE_SIZE_TIMESTAMP (get_subsecond_magnitude ts.time.nanosecond)) : Int) ≤ dst_length := by omega
    rw [encode_timestamp_base_room _ _ _ _ _ _ _ _ _ hroom]
    rcases rvlq_encode_32_cases (timestamp_year_low ts.date.year ts.time.nanosecond
      (timezone_is_zero ts.time.timezone)) (dst_length - ((get_base_byte_count BASE_SIZE_TIMESTAMP (get_subsecond_magnitude ts.time.nanosecond)) : Int)) with ⟨h, he⟩ | ⟨h, he⟩
    · right
      rw [he]
      simp only
      have hin : (if (((rvlq_group_count (timestamp_year_low ts.date.year ts.time.nanosecond
        (timezone_is_zero ts.time.timezone) % 4294967296)) : Nat) : Int) ≤ 0 then -((get_base_byte_count BASE_SIZE_TIMESTAMP (get_subsecond_magnitude ts.time.nanosecond)) : Int) else ((get_base_byte_count BASE_SIZE_TIMESTAMP (get_subsecond_magnitude ts.time.nanosecond)) : Int)) = ((get_base_byte_count BASE_SIZE_TIMESTAMP (get_subsecond_magnitude ts.time.nanosecond)) : Int) :=
        if_neg (by omega)
      simp only [hin]
      rw [if_neg (by omega)]
      have e2 : (copy_le (timestamp_base_word ts.date.year ts.date.month ts.date.day ts.time.hour
          ts.time.minute ts.time.second ts.time.nanosecond (timezone_is_zero ts.time.timezone))
          (get_base_byte_count BASE_SIZE_TIMESTAMP (get_subsecond_magnitude ts.time.nanosecond)) ++ rvlq_bytes (timestamp_year_low ts.date.year ts.time.nanosecond
            (timezone_is_zero ts.time.timezone) % 4294967296)).length = (get_base_byte_count BASE_SIZE_TIMESTAMP (get_subsecond_magnitude ts.time.nanosecond)) + (rvlq_group_count (timestamp_year_low ts.date.year ts.time.nanosecond
        (timezone_is_zero ts.time.timezone) % 4294967296)) := by
        simp only [List.length_append, copy_le_length, hl]
      have hcast : (((get_base_byte_count BASE_SIZE_TIMESTAMP (get_subsecond_magnitude ts.time.nanosecond)) : Int) + ((rvlq_group_count (timestamp_year_low ts.date.year ts.time.nanosecond
        (timezone_is_zero ts.time.timezone) % 4294967296)) : Int)) = (((get_base_byte_count BASE_SIZE_TIMESTAMP (get_subsecond_magnitude ts.time.nanosecond)) + (rvlq_group_count (timestamp_year_low ts.date.year ts.time.nanosecond
        (timezone_is_zero ts.time.timezone) % 4294967296)) : Nat) : Int) := by push_cast; rfl
      rw [hcast]
      rcases encode_tail_cases ts.time.timezone dst_length _ _ e2 (by push_cast; omega) _ rfl
        with ⟨h3, he3⟩ | ⟨h3, h1, h2⟩
      · left
        rw [he3]
        exact ⟨by push_cast; omega, h3, rfl, e2⟩
      · right
        exact ⟨h3, h1, h2⟩
    · left
      rw [he]
      simp only
      have hin : (if -((dst_length - ((get_base_byte_count BASE_SIZE_TIMESTAMP (get_subsecond_magnitude ts.time.nanosecond)) : Int)).toNat : Int) ≤ 0 then -((get_base_byte_count BASE_SIZE_TIMESTAMP (get_subsecond_magnitude ts.time.nanosecond)) : Int)
          else ((get_base_byte_count BASE_SIZE_TIMESTAMP (get_subsecond_magnitude ts.time.nanosecond)) : Int)) = -((get_base_byte_count BASE_SIZE_TIMESTAMP (get_subsecond_magnitude ts.time.nanosecond)) : Int) := if_pos (by omega)
      simp only [hin]
      rw [if_pos (by omega)]
      refine ⟨hroom, by push_cast; omega, by simp only; omega, ?_⟩
      simp only [List.length_append, copy_le_length, List.length_take, hl]
      push_cast
      omega

/-- Every byte of the reverse VLQ of a value but the last carries the continuation bit. -/
theorem rvlq_bytes_take_cont (v p : Nat) (hp : p < rvlq_group_count v) :
    ∀ b ∈ (rvlq_bytes v).take p, ∃ x, b = (x &&& 0x7f) ||| 0x80 := by
  obtain ⟨h1, h5⟩ := rvlq_group_count_pos v
  unfold rvlq_bytes
  generalize rvlq_group_count v = g at hp h1 h5 ⊢
  interval_cases g <;> interval_cases p <;>
    simp [List.range_succ, List.take] <;>
    first
      | exact ⟨_, rfl⟩
      | exact ⟨⟨_, rfl⟩, ⟨_, rfl⟩⟩
      | exact ⟨⟨_, rfl⟩, ⟨_, rfl⟩, ⟨_, rfl⟩⟩
      | exact ⟨⟨_, rfl⟩, ⟨_, rfl⟩, ⟨_, rfl⟩, ⟨_, rfl⟩⟩

/-- A buffer that ends before the last group of a reverse VLQ is a buffer-short error at
the end of the buffer, as long as the groups read fit the accumulator. -/
theorem rvlq_decode_loop_unterminated : ∀ (pre : List Nat) (acc count : Nat),
    (∀ b ∈ pre, ∃ x, b = (x &&& 0x7f) ||| 0x80) →
    (acc + 1) * 128 ^ pre.length ≤ 4294967296 →
    (rvlq_decode_loop acc count pre).1 = -((count + pre.length : Nat) : Int)
  | [], acc, count, _, _ => by simp [rvlq_decode_loop, FAILURE_AT_POS]
  | b :: rest, acc, count, hb, hacc => by
    obtain ⟨x, hx⟩ := hb b (List.mem_cons_self _ _)
    have hpow : 1 ≤ 128 ^ rest.length := Nat.one_le_pow _ _ (by norm_num)
    have hlen : (b :: rest).length = rest.length + 1 := rfl
    rw [hlen, pow_succ] at hacc
    have h128 : (acc + 1) * 128 ≤ 4294967296 := by
      calc (acc + 1) * 128 ≤ (acc + 1) * 128 * 128 ^ rest.length :=
            Nat.le_mul_of_pos_right _ (by omega)
        _ = (acc + 1) * (128 ^ rest.length * 128) := by ring
        _ ≤ 4294967296 := hacc
    have hx128 : x % 128 < 128 := Nat.mod_lt _ (by norm_num)
    rw [hx, rvlq_decode_loop_cont acc count x rest (by omega),
      rvlq_decode_loop_unterminated rest (acc * 128 + x % 128) (count + 1)
        (fun b hb2 => hb b (List.mem_cons_of_mem _ hb2)) ?_]
    · simp only [List.length_cons]
      push_cast
      ring
    · calc (acc * 128 + x % 128 + 1) * 128 ^ rest.length
          ≤ ((acc + 1) * 128) * 128 ^ rest.length := Nat.mul_le_mul_right _ (by omega)
        _ = (acc + 1) * (128 ^ rest.length * 128) := by ring
        _ ≤ 4294967296 := hacc
theorem rvlq_decode_32_truncated (seed v p : Nat) (hp : p < rvlq_group_count v)
    (hseed : (seed + 1) * 128 ^ p ≤ 4294967296) :
    (rvlq_decode_32 seed ((rvlq_bytes v).take p)).1 = -(p : Int) := by
  have hpow : 1 ≤ 128 ^ p := Nat.one_le_pow _ _ (by norm_num)
  have hs : seed + 1 ≤ 4294967296 :=
    le_trans (Nat.le_mul_of_pos_right _ (by omega)) hseed
  have hlen : ((rvlq_bytes v).take p).length = p := by
    rw [List.length_take, rvlq_bytes_length]
    omega
  have h := rvlq_decode_loop_unterminated ((rvlq_bytes v).take p) seed 0
    (rvlq_bytes_take_cont v p hp) (by rw [hlen]; exact hseed)
  rw [hlen] at h
  unfold rvlq_decode_32
  rw [Nat.mod_eq_of_lt (by omega)]
  simp only []
  split_ifs with hc
  · rw [h] at hc
    omega
  · simp only [h]
    push_cast
    omega

theorem headD_take (l : List Nat) (k : Nat) (hk : 1 ≤ k) : (l.take k).headD 0 = l.headD 0 := by
  cases l with
  | nil => simp
  | cons a l =>
    obtain ⟨j, rfl⟩ : ∃ j, k = j + 1 := ⟨k - 1, by omega⟩
    simp [List.take]

/-- A proper prefix of the timezone bytes is a buffer-short error of `timezone_decode`. -/
theorem timezone_decode_truncated (z : ct_timezone) (hz : legal_timezone z) (j : Nat)
    (hj : j < (timezone_bytes z).length) :
    (timezone_decode ((timezone_bytes z).take j)).1 < 0 ∧
    -41 ≤ (timezone_decode ((timezone_bytes z).take j)).1 := by
  have hlen : ((timezone_bytes z).take j).length = j := by
    rw [List.length_take]
    omega
  by_cases h0 : j = 0
  · subst h0
    simp [timezone_decode, FAILURE_AT_POS]
  have hhead := headD_take (timezone_bytes z) j (by omega)
  unfold timezone_decode
  simp only [hlen, hhead]
  rw [if_neg (by omega)]
  cases z with
  | zero => simp [timezone_bytes] at hj
  | string s =>
    obtain ⟨hs40, _⟩ := hz
    simp only [timezone_bytes, List.length_cons] at hj
    have hh : (timezone_bytes (ct_timezone.string s)).headD 0 = s.length * 2 := by
      simp only [timezone_bytes, List.headD_cons, Nat.shiftLeft_eq]
      omega
    have hb : s.length * 2 &&& 1 = 0 := by
      rw [Nat.and_one_is_mod]
      omega
    have hl : (s.length * 2) >>> 1 = s.length := by
      rw [Nat.shiftRight_eq_div_pow]
      omega
    simp only [hh, hb, hl, FAILURE_AT_POS]
    simp only [ne_eq, not_true_eq_false, if_false]
    rw [if_pos (by push_cast; omega)]
    simp only
    push_cast
    omega
  | latlong la lo =>
    simp only [timezone_bytes, write_uint32_le, copy_le_length] at hj
    have hh : ((timezone_bytes (ct_timezone.latlong la lo)).headD 0) &&& 1 = 1 := by
      simp only [timezone_bytes, write_uint32_le]
      have := copy_le_headD
        (((toU32 lo % 32768) * 16384 + toU32 la % 16384) * 2 + 1) 3 []
      simp only [List.append_nil] at this
      rw [this, Nat.and_one_is_mod]
      omega
    simp only [hh, FAILURE_AT_POS]
    rw [if_pos (by decide), if_pos (by omega)]
    simp only
    omega

/-- Without the UTC flag `timezone_decode_old` returns what `timezone_decode` returns. -/
theorem timezone_decode_old_result (z0 : ct_timezone) (src : List Nat) :
    (timezone_decode_old z0 src false).1 = (timezone_decode src).1 := by
  unfold timezone_decode_old timezone_decode
  simp only [Bool.false_eq_true, if_false]
  split_ifs <;> rfl

/-- A source shorter than the base byte count its first byte announces is a buffer-short
error of `ct_time_decode_x` at the base byte count. -/
theorem ct_time_decode_x_short (src : List Nat) (out : ct_time_decode_x_out)
    (h1 : 1 ≤ src.length)
    (h2 : src.length <
      get_base_byte_count BASE_SIZE_TIME ((src.headD 0 >>> 1) &&& MASK_MAGNITUDE)) :
    ct_time_decode_x src out =
      (-(get_base_byte_count BASE_SIZE_TIME ((src.headD 0 >>> 1) &&& MASK_MAGNITUDE) : Int),
        out) := by
  unfold ct_time_decode_x FAILURE_AT_POS
  simp only
  rw [if_neg (by omega), if_pos (by omega)]

theorem ct_time_decode_result (src : List Nat) (t0 : ct_time) :
    (ct_time_decode src t0).1 =
      (ct_time_decode_x src ⟨t0.hour, t0.minute, t0.second, t0.nanosecond, none⟩).1 := rfl

theorem ct_date_decode_result (src : List Nat) (d0 : ct_date) :
    (ct_date_decode src d0).1 = (ct_date_decode_x src 0 0 0).1 := by
  unfold ct_date_decode
  simp only
  split_ifs <;> rfl

theorem ct_date_decode_x_short (src : List Nat) (year : Int) (month day : Nat)
    (h : src.length ≤ 2) :
    ct_date_decode_x src year month day = (-2, year, month, day) := by
  unfold ct_date_decode_x FAILURE_AT_POS BYTE_COUNT_DATE
  simp only
  rw [if_pos (by push_cast; omega)]
  rfl

/-- With more than two bytes, `ct_date_decode_x` returns what the reverse VLQ decoder
returns for the bytes after the second, seeded with seven bits of the first two bytes. -/
theorem ct_date_decode_x_result (src : List Nat) (year : Int) (month day : Nat)
    (h : 2 < src.length) :
    ∃ seed, seed < 128 ∧
      (ct_date_decode_x src year month day).1 =
        if (rvlq_decode_32 seed (src.drop 2)).1 < 1 then
          -2 + (rvlq_decode_32 seed (src.drop 2)).1
        else 2 + (rvlq_decode_32 seed (src.drop 2)).1 := by
  refine ⟨((read_uint16_le src >>> SIZE_DAY) >>> SIZE_MONTH) &&& MASK_DATE_YEAR_UPPER_BITS,
    ?_, ?_⟩
  · unfold MASK_DATE_YEAR_UPPER_BITS SIZE_DATE_YEAR_UPPER_BITS
    rw [and_mask]
    exact Nat.mod_lt _ (by norm_num)
  · unfold ct_date_decode_x FAILURE_AT_POS BYTE_COUNT_DATE
    simp only
    rw [if_neg (by push_cast; omega)]
    split_ifs <;> rfl

/-- The first `k` bytes of an encoded date, `k` below the number of bytes stored, are a
buffer-short error of `ct_date_decode`. -/
theorem ct_date_decode_truncated (d d0 : ct_date) (dst_length : Int) (k : Nat)
    (hd : legal_date d) (hpos : 0 < (ct_date_encode d dst_length).1)
    (hk : k < (ct_date_encode d dst_length).2.length) :
    (ct_date_decode ((ct_date_encode d dst_length).2.take k) d0).1 < 0 ∧
    -6 ≤ (ct_date_decode ((ct_date_encode d dst_length).2.take k) d0).1 := by
  obtain ⟨_, _, _, hlow, hwg⟩ := date_words_eq d hd
  have hg4 : get_year_group_count (encode_year d.year) SIZE_DATE_YEAR_UPPER_BITS ≤ 4 := by
    rw [get_year_group_count_eq]
    unfold rvlq_group_count SIZE_DATE_YEAR_UPPER_BITS
    simp only [Nat.shiftRight_eq_div_pow]
    split_ifs <;> omega
  have hmod : date_year_low d % 4294967296 = date_year_low d := Nat.mod_eq_of_lt hlow
  have hw1 := (rvlq_group_count_pos (date_year_low d)).1
  by_cases h2 : dst_length < 2
  · rw [ct_date_encode_short d dst_length h2] at hpos
    simp at hpos
  have hroom : 2 ≤ dst_length := by omega
  rw [ct_date_encode_room d dst_length hroom] at hpos hk ⊢
  rcases rvlq_encode_32_cases (date_year_low d) (dst_length - 2) with ⟨_, he⟩ | ⟨_, he⟩
  swap
  · rw [he] at hpos
    simp only at hpos
    rw [if_pos (by omega)] at hpos
    omega
  rw [he, hmod] at hk ⊢
  simp only [List.length_append, write_uint16_le, copy_le_length, rvlq_bytes_length] at hk ⊢
  rw [ct_date_decode_result]
  by_cases hk2 : k ≤ 2
  · rw [ct_date_decode_x_short _ _ _ _ (by
      rw [List.length_take]
      omega)]
    simp
  · have hsrc : (copy_le (date_base_word d) 2 ++ rvlq_bytes (date_year_low d)).take k =
        copy_le (date_base_word d) 2 ++ (rvlq_bytes (date_year_low d)).take (k - 2) := by
      rw [List.take_append_eq_append_take, copy_le_length, List.take_of_length_le (by
        rw [copy_le_length]
        omega)]
    rw [hsrc]
    obtain ⟨seed, hseed, hres⟩ := ct_date_decode_x_result
      (copy_le (date_base_word d) 2 ++ (rvlq_bytes (date_year_low d)).take (k - 2)) 0 0 0 (by
        simp only [List.length_append, copy_le_length, List.length_take, rvlq_bytes_length]
        omega)
    rw [copy_le_drop] at hres
    have hb : (seed + 1) * 128 ^ (k - 2) ≤ 4294967296 := by
      have hp : k - 2 ≤ 3 := by omega
      generalize k - 2 = p at hp
      interval_cases p <;> norm_num <;> omega
    have hrv := rvlq_decode_32_truncated seed (date_year_low d) (k - 2) (by omega) hb
    rw [hres, hrv, if_pos (by omega)]
    omega

/-- The first `k` bytes of an encoded time, `k` below the number of bytes stored, are a
buffer-short error of `ct_time_decode`. -/
theorem ct_time_decode_truncated (t t0 : ct_time) (dst_length : Int) (k : Nat)
    (ht : legal_time t) (hpos : 0 < (ct_time_encode t dst_length).1)
    (hk : k < (ct_time_encode t dst_length).2.length) :
    (ct_time_decode ((ct_time_encode t dst_length).2.take k) t0).1 < 0 ∧
    -48 ≤ (ct_time_decode ((ct_time_encode t dst_length).2.take k) t0).1 := by
  have hm := get_subsecond_magnitude_le t.nanosecond
  have hB3 := get_base_byte_count_time_pos _ hm
  have hB7 : get_base_byte_count BASE_SIZE_TIME (get_subsecond_magnitude t.nanosecond) ≤ 7 := by
    rw [get_base_byte_count_time _ hm]
    generalize get_subsecond_magnitude t.nanosecond = m at hm
    interval_cases m <;> decide
  have hroom : (ct_time_encoded_size t : Int) ≤ dst_length := by
    rcases ct_time_encode_outcomes t dst_length with ⟨_, he⟩ | ⟨_, _, h1, _⟩ | ⟨h, _⟩
    · rw [he] at hpos
      simp only at hpos
      omega
    · rw [h1] at hpos
      omega
    · exact h
  obtain ⟨hh, hmi, hs, hn, hz⟩ := ht
  obtain ⟨hacc, hmag, hutc, _⟩ := time_accumulator_fields t.hour t.minute t.second t.nanosecond
    (timezone_is_zero t.timezone) (by omega) (by omega) (by omega) hn
  rw [ct_time_encode_eq t dst_length ⟨hh, hmi, hs, hn, hz⟩ hroom] at hk ⊢
  simp only [List.length_append, copy_le_length] at hk
  rw [ct_time_decode_result]
  generalize (⟨t0.hour, t0.minute, t0.second, t0.nanosecond, none⟩ : ct_time_decode_x_out) = out
  generalize hB : get_base_byte_count BASE_SIZE_TIME (get_subsecond_magnitude t.nanosecond) = B
    at hk hB3 hB7 ⊢
  generalize hA : time_accumulator t.hour t.minute t.second t.nanosecond
    (timezone_is_zero t.timezone) = acc at hacc hmag hutc ⊢
  by_cases hkB : k < B
  · by_cases hk0 : k = 0
    · subst hk0
      simp [ct_time_decode_x, FAILURE_AT_POS]
    · have hlen : ((copy_le acc B ++ timezone_bytes t.timezone).take k).length = k := by
        rw [List.length_take, List.length_append, copy_le_length]
        omega
      have hhead : ((copy_le acc B ++ timezone_bytes t.timezone).take k).headD 0 =
          acc % 256 := by
        rw [headD_take _ _ (by omega)]
        obtain ⟨n, rfl⟩ : ∃ n, B = n + 1 := ⟨B - 1, by omega⟩
        exact copy_le_headD acc n _
      have hmagb : ((acc % 256) >>> 1) &&& MASK_MAGNITUDE =
          get_subsecond_magnitude t.nanosecond := by
        unfold MASK_MAGNITUDE SIZE_MAGNITUDE
        rw [and_mask, Nat.shiftRight_eq_div_pow]
        omega
      rw [ct_time_decode_x_short _ _ (by rw [hlen]; omega)
        (by rw [hlen, hhead, hmagb, hB]; exact hkB)]
      simp only [hhead, hmagb, hB]
      omega
  · have hsrc : (copy_le acc B ++ timezone_bytes t.timezone).take k =
        copy_le acc B ++ (timezone_bytes t.timezone).take (k - B) := by
      rw [List.take_append_eq_append_take, copy_le_length, List.take_of_length_le (by
        rw [copy_le_length]
        omega)]
    rw [hsrc, ← hB, ct_time_decode_x_base acc _ _ out hm hacc hmag, hB]
    have hu : timezone_is_zero t.timezone = false := by
      cases hz2 : t.timezone with
      | zero =>
        rw [hz2] at hk
        simp [timezone_bytes] at hk
        omega
      | string s => rfl
      | latlong la lo => rfl
    rw [hu] at hutc
    rw [if_neg (by simp only [Bool.toNat_false] at hutc; omega)]
    obtain ⟨h1, h2⟩ := timezone_decode_truncated t.timezone hz (k - B) (by omega)
    simp only
    rw [if_pos h1]
    unfold FAILURE_AT_POS
    omega

/-- For fields within their bit widths, the base word of the timestamp encoder is the packed
value with the inline upper bits of the year stream, and the low bits handed to the reverse
VLQ encoder are the year stream modulo the counted groups. -/
theorem timestamp_words_eq (year : Int) (month day hour minute second nanosecond : Nat)
    (u : Bool) (hmo : month ≤ 15) (hd : day ≤ 31) (hh : hour ≤ 31) (hmi : minute ≤ 63)
    (hs : second ≤ 63) (hn : nanosecond ≤ 999999999) :
    timestamp_base_word year month day hour minute second nanosecond u =
      timestamp_accumulator
        (encode_year_and_utc_flag year u.toNat >>>
          (get_year_group_count (encode_year_and_utc_flag year u.toNat)
            (g_timestamp_year_upper_bits (get_subsecond_magnitude nanosecond)) *
            BITS_PER_YEAR_GROUP))
        month day hour minute second nanosecond ∧
    timestamp_year_low year nanosecond u =
      encode_year_and_utc_flag year u.toNat %
        2 ^ (get_year_group_count (encode_year_and_utc_flag year u.toNat)
          (g_timestamp_year_upper_bits (get_subsecond_magnitude nanosecond)) *
          BITS_PER_YEAR_GROUP) := by
  have he := encode_year_and_utc_flag_lt year u
  refine ⟨?_, ?_⟩
  · unfold timestamp_base_word
    exact (timestamp_accumulator_chain _ month day hour minute second nanosecond
      (year_upper_lt _ _ he) hmo hd hh hmi hs hn).1
  · unfold timestamp_year_low
    simp only [and_mask]

/-- The inline upper bits of a 32-bit year stream leave room for all but one of the counted
groups in a 32-bit accumulator. -/
theorem year_upper_room (e g p : Nat) (he : e < 4294967296) (hg1 : 1 ≤ g) (hg5 : g ≤ 5)
    (hp : p < g) : (e >>> (g * 7) + 1) * 128 ^ p ≤ 4294967296 := by
  rw [Nat.shiftRight_eq_div_pow]
  interval_cases g <;> interval_cases p <;> norm_num <;> omega

/-- Joining the inline upper bits with the low bits over no more groups than were counted
does not exceed the year stream. -/
theorem year_join_le (e g w : Nat) (hw : w ≤ g) :
    (e >>> (g * 7)) * 2 ^ (7 * w) + e % 2 ^ (g * 7) ≤ e := by
  rw [Nat.shiftRight_eq_div_pow]
  have h1 : 2 ^ (7 * w) ≤ 2 ^ (g * 7) := Nat.pow_le_pow_right (by norm_num) (by omega)
  have h2 : e / 2 ^ (g * 7) * 2 ^ (7 * w) ≤ e / 2 ^ (g * 7) * 2 ^ (g * 7) :=
    Nat.mul_le_mul_left _ h1
  have h3 := Nat.div_add_mod e (2 ^ (g * 7))
  rw [Nat.mul_comm] at h3
  omega

theorem timezone_encoded_size_legal (z : ct_timezone) (hz : legal_timezone z) :
    timezone_encoded_size z = (timezone_bytes z).length := by
  cases z with
  | zero => rfl
  | string s =>
    simp only [timezone_encoded_size, get_timezone_size, timezone_bytes, List.length_cons,
      (strlen_of_label_ok s hz.2).1]
  | latlong la lo =>
    simp only [timezone_encoded_size, get_timezone_latlong_size, timezone_bytes,
      write_uint32_le, copy_le_length]

/-- With room, the timezone encoders store the timezone bytes of a legal timezone. -/
theorem timezone_encode_of_bytes (z : ct_timezone) (room : Int) (hz : legal_timezone z)
    (hroom : (timezone_encoded_size z : Int) ≤ room) :
    (timezone_encode_of room z).2 = timezone_bytes z := by
  cases z with
  | zero => rfl
  | string s =>
    have hs := (strlen_of_label_ok s hz.2).1
    simp only [timezone_encoded_size, get_timezone_size, hs] at hroom
    simp only [timezone_encode_of, timezone_bytes]
    rw [timezone_encode_string s room hz.2 (by push_cast at hroom; omega)]
  | latlong la lo =>
    simp only [timezone_encoded_size, get_timezone_latlong_size] at hroom
    simp only [timezone_encode_of, timezone_bytes]
    rw [timezone_encode_latlong_eq room la lo (by omega)]

/-- The bytes stored by a successful `ct_timestamp_encode` of a legal timestamp: the base
bytes, the reverse VLQ of the low bits of the year stream, and the timezone bytes. -/
theorem ct_timestamp_encode_stored (ts : ct_timestamp) (dst_length : Int)
    (hts : legal_timestamp ts) (hpos : 0 < (ct_timestamp_encode ts dst_length).1) :
    (ct_timestamp_encode ts dst_length).2 =
      copy_le
        (timestamp_accumulator ((encode_year_and_utc_flag ts.date.year (timezone_is_zero ts.time.timezone).toNat) >>> (get_year_group_count (encode_year_and_utc_flag ts.date.year (timezone_is_zero ts.time.timezone).toNat)
          (g_timestamp_year_upper_bits (get_subsecond_magnitude ts.time.nanosecond)) *
          BITS_PER_YEAR_GROUP))
          ts.date.month ts.date.day ts.time.hour ts.time.minute ts.time.second
          ts.time.nanosecond)
        (get_base_byte_count BASE_SIZE_TIMESTAMP (get_subsecond_magnitude ts.time.nanosecond)) ++
      (rvlq_bytes ((encode_year_and_utc_flag ts.date.year (timezone_is_zero ts.time.timezone).toNat) % 2 ^ (get_year_group_count (encode_year_and_utc_flag ts.date.year (timezone_is_zero ts.time.timezone).toNat)
          (g_timestamp_year_upper_bits (get_subsecond_magnitude ts.time.nanosecond)) *
          BITS_PER_YEAR_GROUP)) ++ timezone_bytes ts.time.timezone) := by
  obtain ⟨⟨_, _, _, _, hmo, _, hd⟩, hh, hmi, hs, hn, hz⟩ := hts
  obtain ⟨hword, hlow⟩ := timestamp_words_eq ts.date.year ts.date.month ts.date.day ts.time.hour
    ts.time.minute ts.time.second ts.time.nanosecond (timezone_is_zero ts.time.timezone)
    (by omega) (by omega) (by omega) (by omega) (by omega) hn
  have hlt := (timestamp_year_low_flag ts.date.year ts.time.nanosecond
    (timezone_is_zero ts.time.timezone)).1
  have hpB := get_base_byte_count_timestamp_pos _ (get_subsecond_magnitude_le ts.time.nanosecond)
  have hg := rvlq_group_count_pos (timestamp_year_low ts.date.year ts.time.nanosecond
    (timezone_is_zero ts.time.timezone))
  have hl := rvlq_bytes_length (timestamp_year_low ts.date.year ts.time.nanosecond
    (timezone_is_zero ts.time.timezone))
  rw [ct_timestamp_encode_unfold] at hpos ⊢
  by_cases hb : dst_length < ((get_base_byte_count BASE_SIZE_TIMESTAMP (get_subsecond_magnitude ts.time.nanosecond)) : Int)
  · rw [encode_timestamp_base_short _ _ _ _ _ _ _ _ _ hb] at hpos
    rw [if_pos (by simp only; omega)] at hpos
    simp only at hpos
    omega
  have hroom : ((get_base_byte_count BASE_SIZE_TIMESTAMP (get_subsecond_magnitude ts.time.nanosecond)) : Int) ≤ dst_length := by omega
  rw [encode_timestamp_base_room _ _ _ _ _ _ _ _ _ hroom] at hpos ⊢
  rw [hword] at hpos ⊢
  rcases rvlq_encode_32_cases (timestamp_year_low ts.date.year ts.time.nanosecond
    (timezone_is_zero ts.time.timezone)) (dst_length - ((get_base_byte_count BASE_SIZE_TIMESTAMP (get_subsecond_magnitude ts.time.nanosecond)) : Int)) with ⟨h, he⟩ | ⟨h, he⟩
  swap
  · rw [he] at hpos
    simp only at hpos
    have hin : (if -((dst_length - ((get_base_byte_count BASE_SIZE_TIMESTAMP (get_subsecond_magnitude ts.time.nanosecond)) : Int)).toNat : Int) ≤ 0 then -((get_base_byte_count BASE_SIZE_TIMESTAMP (get_subsecond_magnitude ts.time.nanosecond)) : Int)
        else ((get_base_byte_count BASE_SIZE_TIMESTAMP (get_subsecond_magnitude ts.time.nanosecond)) : Int)) = -((get_base_byte_count BASE_SIZE_TIMESTAMP (get_subsecond_magnitude ts.time.nanosecond)) : Int) := if_pos (by omega)
    simp only [hin] at hpos
    rw [if_pos (by omega)] at hpos
    simp only at hpos
    omega
  rw [Nat.mod_eq_of_lt hlt] at h he
  rw [he] at hpos ⊢
  simp only at hpos ⊢
  have hin : (if ((rvlq_group_count (timestamp_year_low ts.date.year ts.time.nanosecond
      (timezone_is_zero ts.time.timezone)) : Nat) : Int) ≤ 0 then -((get_base_byte_count BASE_SIZE_TIMESTAMP (get_subsecond_magnitude ts.time.nanosecond)) : Int) else ((get_base_byte_count BASE_SIZE_TIMESTAMP (get_subsecond_magnitude ts.time.nanosecond)) : Int))
      = ((get_base_byte_count BASE_SIZE_TIMESTAMP (get_subsecond_magnitude ts.time.nanosecond)) : Int) := if_neg (by omega)
  simp only [hin] at hpos ⊢
  rw [if_neg (by omega)] at hpos ⊢
  rcases timezone_encode_cases ts.time.timezone (dst_length - (((get_base_byte_count BASE_SIZE_TIMESTAMP (get_subsecond_magnitude ts.time.nanosecond)) : Int) +
    ((rvlq_group_count (timestamp_year_low ts.date.year ts.time.nanosecond
      (timezone_is_zero ts.time.timezone)) : Nat) : Int))) with ⟨hr, h1, _⟩ | ⟨hr, he2⟩
  · have hby := timezone_encode_of_bytes ts.time.timezone _ hz hr
    rw [if_neg (by rw [h1]; omega)]
    simp only
    rw [hby, hlow, List.append_assoc]
  · by_cases hz0 : timezone_encoded_size ts.time.timezone = 0
    · have hnil : timezone_bytes ts.time.timezone = [] := by
        rw [← List.length_eq_zero, ← timezone_encoded_size_legal _ hz]
        exact hz0
      rw [he2]
      simp only [hz0, hnil, hlow]
      split_ifs <;> simp
    · rw [he2] at hpos
      simp only at hpos
      rw [if_pos (by omega)] at hpos
      simp only [FAILURE_AT_POS] at hpos
      omega

/-- Decoding the base bytes of a timestamp followed by bytes on which the reverse VLQ
decoder fails returns that failure behind the base byte count. -/
theorem ct_timestamp_decode_bytes_short (upper month day hour minute second nanosecond : Nat)
    (pre : List Nat) (ts0 : ct_timestamp)
    (hup : upper < 2 ^ g_timestamp_year_upper_bits (get_subsecond_magnitude nanosecond))
    (hmo : month ≤ 15) (hd : day ≤ 31) (hh : hour ≤ 31) (hmi : minute ≤ 63)
    (hs : second ≤ 63) (hn : nanosecond ≤ 999999999)
    (hpre : 1 ≤ pre.length) (hrv : (rvlq_decode_32 upper pre).1 < 1) :
    (ct_timestamp_decode
      (copy_le (timestamp_accumulator upper month day hour minute second nanosecond)
        (get_base_byte_count BASE_SIZE_TIMESTAMP (get_subsecond_magnitude nanosecond)) ++
        pre) ts0).1 =
      -(get_base_byte_count BASE_SIZE_TIMESTAMP (get_subsecond_magnitude nanosecond) : Int) +
        (rvlq_decode_32 upper pre).1 := by
  obtain ⟨_, hlt⟩ := timestamp_accumulator_chain upper month day hour minute second nanosecond
    hup hmo hd hh hmi hs hn
  obtain ⟨hsub, hns⟩ := subsecond_fits nanosecond hn
  have hm := get_subsecond_magnitude_le nanosecond
  have hk4 := get_base_byte_count_timestamp_pos _ hm
  have hmod := Nat.mod_eq_of_lt hlt
  generalize hacc : timestamp_accumulator upper month day hour minute second nanosecond = acc
    at hmod ⊢
  unfold timestamp_accumulator at hacc
  have hmagh : acc % 256 &&& MASK_MAGNITUDE = get_subsecond_magnitude nanosecond := by
    unfold MASK_MAGNITUDE SIZE_MAGNITUDE
    rw [and_mask]
    omega
  have f7 : (acc >>> SIZE_MAGNITUDE >>> SIZE_SECOND >>> SIZE_MINUTE >>> SIZE_HOUR >>> SIZE_DAY
      >>> SIZE_MONTH >>> (SIZE_SUBSECOND * get_subsecond_magnitude nanosecond)) % 4294967296 =
      upper := by
    unfold SIZE_MAGNITUDE SIZE_SECOND SIZE_MINUTE SIZE_HOUR SIZE_DAY SIZE_MONTH SIZE_SUBSECOND
    simp only [Nat.shiftRight_eq_div_pow]
    generalize nanosecond / g_subsec_multipliers (get_subsecond_magnitude nanosecond) = sub
      at hsub hacc ⊢
    generalize get_subsecond_magnitude nanosecond = m at hm hsub hacc hup ⊢
    interval_cases m
    · have hu : upper < 16 := by simpa [g_timestamp_year_upper_bits] using hup
      norm_num at hsub hacc ⊢
      omega
    · have hu : upper < 4 := by simpa [g_timestamp_year_upper_bits] using hup
      norm_num at hsub hacc ⊢
      omega
    · have hu : upper < 1 := by simpa [g_timestamp_year_upper_bits] using hup
      norm_num at hsub hacc ⊢
      omega
    · have hu : upper < 64 := by simpa [g_timestamp_year_upper_bits] using hup
      norm_num at hsub hacc ⊢
      omega
  obtain ⟨k, hk1⟩ : ∃ k, get_base_byte_count BASE_SIZE_TIMESTAMP
      (get_subsecond_magnitude nanosecond) = k + 1 := ⟨_, (Nat.sub_add_cancel (by omega)).symm⟩
  rw [hk1] at hmod ⊢
  unfold ct_timestamp_decode
  simp only [hk1, copy_le_headD, List.length_append, copy_le_length,
    read_le_copy_le, copy_le_drop, hmod, hmagh, f7]
  rw [if_neg (by push_cast; omega), if_neg (by push_cast; omega), if_pos hrv]
  rfl

/-- The first `k` bytes of an encoded timestamp, `k` below the number of bytes stored, are a
buffer-short error of `ct_timestamp_decode`. -/
theorem ct_timestamp_decode_truncated (ts ts0 : ct_timestamp) (dst_length : Int) (k : Nat)
    (hts : legal_timestamp ts) (hpos : 0 < (ct_timestamp_encode ts dst_length).1)
    (hk : k < (ct_timestamp_encode ts dst_length).2.length) :
    (ct_timestamp_decode ((ct_timestamp_encode ts dst_length).2.take k) ts0).1 < 0 ∧
    -54 ≤ (ct_timestamp_decode ((ct_timestamp_encode ts dst_length).2.take k) ts0).1 := by
  rw [ct_timestamp_encode_stored ts dst_length hts hpos] at hk ⊢
  obtain ⟨⟨_, _, _, _, hmo, _, hd⟩, hh, hmi, hs, hn, hz⟩ := hts
  have hm := get_subsecond_magnitude_le ts.time.nanosecond
  have hB4 := get_base_byte_count_timestamp_pos _ hm
  have hB8 : get_base_byte_count BASE_SIZE_TIMESTAMP
      (get_subsecond_magnitude ts.time.nanosecond) ≤ 8 := by
    rw [get_base_byte_count_timestamp _ hm]
    generalize get_subsecond_magnitude ts.time.nanosecond = m at hm
    interval_cases m <;> decide
  have he := encode_year_and_utc_flag_lt ts.date.year (timezone_is_zero ts.time.timezone)
  obtain ⟨_, hlow⟩ := timestamp_words_eq ts.date.year ts.date.month ts.date.day ts.time.hour
    ts.time.minute ts.time.second ts.time.nanosecond (timezone_is_zero ts.time.timezone)
    (by omega) (by omega) (by omega) (by omega) (by omega) hn
  have hflag := (timestamp_year_low_flag ts.date.year ts.time.nanosecond
    (timezone_is_zero ts.time.timezone)).2
  rw [hlow] at hflag
  have hup := year_upper_lt (encode_year_and_utc_flag ts.date.year
    (timezone_is_zero ts.time.timezone).toNat)
    (g_timestamp_year_upper_bits (get_subsecond_magnitude ts.time.nanosecond)) he
  have hg : 1 ≤ get_year_group_count (encode_year_and_utc_flag ts.date.year
      (timezone_is_zero ts.time.timezone).toNat)
      (g_timestamp_year_upper_bits (get_subsecond_magnitude ts.time.nanosecond)) ∧
      get_year_group_count (encode_year_and_utc_flag ts.date.year
      (timezone_is_zero ts.time.timezone).toNat)
      (g_timestamp_year_upper_bits (get_subsecond_magnitude ts.time.nanosecond)) ≤ 5 := by
    rw [get_year_group_count_eq]
    exact rvlq_group_count_pos _
  unfold BITS_PER_YEAR_GROUP at hup hflag hk ⊢
  generalize encode_year_and_utc_flag ts.date.year (timezone_is_zero ts.time.timezone).toNat = e
    at he hup hg hflag hk ⊢
  generalize get_year_group_count e
    (g_timestamp_year_upper_bits (get_subsecond_magnitude ts.time.nanosecond)) = g
    at hup hg hflag hk ⊢
  have hw := rvlq_group_count_mod_le e g hg.1 hg.2
  have hw1 := (rvlq_group_count_pos (e % 2 ^ (g * 7))).1
  have hroomp := fun p hp => year_upper_room e g p he hg.1 hg.2 hp
  have hjoin := year_join_le e g (rvlq_group_count (e % 2 ^ (g * 7))) hw
  generalize e >>> (g * 7) = upper at hup hroomp hjoin hk ⊢
  generalize hlowd : e % 2 ^ (g * 7) = low at hw hw1 hjoin hflag hk ⊢
  have hVlen := rvlq_bytes_length low
  simp only [List.length_append, copy_le_length, hVlen] at hk
  have hacc4 : timestamp_accumulator upper ts.date.month ts.date.day ts.time.hour
      ts.time.minute ts.time.second ts.time.nanosecond % 256 &&& MASK_MAGNITUDE =
      get_subsecond_magnitude ts.time.nanosecond := by
    unfold MASK_MAGNITUDE SIZE_MAGNITUDE timestamp_accumulator
    rw [and_mask]
    omega
  generalize hB : get_base_byte_count BASE_SIZE_TIMESTAMP
    (get_subsecond_magnitude ts.time.nanosecond) = B at hB4 hB8 hk ⊢
  by_cases hk0 : k = 0
  · subst hk0
    rw [List.take_zero, ct_timestamp_decode_nil]
    simp
  by_cases hkB : k ≤ B
  · have hlen : ((copy_le (timestamp_accumulator upper ts.date.month ts.date.day ts.time.hour
        ts.time.minute ts.time.second ts.time.nanosecond) B ++
        (rvlq_bytes low ++ timezone_bytes ts.time.timezone)).take k).length = k := by
      rw [List.length_take, List.length_append, copy_le_length]
      omega
    have hhead : ((copy_le (timestamp_accumulator upper ts.date.month ts.date.day ts.time.hour
        ts.time.minute ts.time.second ts.time.nanosecond) B ++
        (rvlq_bytes low ++ timezone_bytes ts.time.timezone)).take k).headD 0 =
        timestamp_accumulator upper ts.date.month ts.date.day ts.time.hour
          ts.time.minute ts.time.second ts.time.nanosecond % 256 := by
      rw [headD_take _ _ (by omega)]
      obtain ⟨n, rfl⟩ : ∃ n, B = n + 1 := ⟨B - 1, by omega⟩
      exact copy_le_headD _ n _
    rw [ct_timestamp_decode_short _ _ (by rw [hlen]; omega)
      (by rw [hlen, hhead, hacc4, hB]; exact hkB)]
    simp only [hhead, hacc4, hB]
    omega
  by_cases hkV : k < B + rvlq_group_count low
  · have hsrc : (copy_le (timestamp_accumulator upper ts.date.month ts.date.day ts.time.hour
        ts.time.minute ts.time.second ts.time.nanosecond) B ++
        (rvlq_bytes low ++ timezone_bytes ts.time.timezone)).take k =
        copy_le (timestamp_accumulator upper ts.date.month ts.date.day ts.time.hour
        ts.time.minute ts.time.second ts.time.nanosecond) B ++ (rvlq_bytes low).take (k - B) := by
      rw [List.take_append_eq_append_take, copy_le_length, List.take_of_length_le (by
        rw [copy_le_length]
        omega), List.take_append_of_le_length (by rw [hVlen]; omega)]
    have hrv := rvlq_decode_32_truncated upper low (k - B) (by omega) (hroomp (k - B) (by omega))
    have hdec := ct_timestamp_decode_bytes_short upper ts.date.month ts.date.day ts.time.hour
      ts.time.minute ts.time.second ts.time.nanosecond ((rvlq_bytes low).take (k - B)) ts0 hup
      (by omega) (by omega) (by omega) (by omega) (by omega) hn
      (by rw [List.length_take, hVlen]; omega) (by rw [hrv]; omega)
    rw [hB] at hdec
    rw [hsrc, hdec, hrv]
    omega
  · have hsrc : (copy_le (timestamp_accumulator upper ts.date.month ts.date.day ts.time.hour
        ts.time.minute ts.time.second ts.time.nanosecond) B ++
        (rvlq_bytes low ++ timezone_bytes ts.time.timezone)).take k =
        copy_le (timestamp_accumulator upper ts.date.month ts.date.day ts.time.hour
        ts.time.minute ts.time.second ts.time.nanosecond) B ++ (rvlq_bytes low ++
          (timezone_bytes ts.time.timezone).take (k - B - rvlq_group_count low)) := by
      rw [List.take_append_eq_append_take, copy_le_length, List.take_of_length_le (by
        rw [copy_le_length]
        omega), List.take_append_eq_append_take, hVlen, List.take_of_length_le (by
        rw [hVlen]
        omega)]
    have hu : timezone_is_zero ts.time.timezone = false := by
      cases hz2 : ts.time.timezone with
      | zero =>
        rw [hz2] at hk
        simp [timezone_bytes] at hk
        omega
      | string s => rfl
      | latlong la lo => rfl
    rw [hu] at hflag
    have hpar : (upper * 2 ^ (7 * rvlq_group_count low) + low) &&& 1 = 0 := by
      obtain ⟨w, hw2⟩ : ∃ w, 7 * rvlq_group_count low = w + 1 :=
        ⟨7 * rvlq_group_count low - 1, by omega⟩
      have h2 : upper * 2 ^ (7 * rvlq_group_count low) = 2 * (upper * 2 ^ w) := by
        rw [hw2, pow_succ]
        ring
      rw [Nat.and_one_is_mod, h2]
      simp only [Bool.toNat_false] at hflag
      omega
    obtain ⟨h1, h2⟩ := timezone_decode_truncated ts.time.timezone hz
      (k - B - rvlq_group_count low) (by omega)
    rw [← timezone_decode_old_result ts0.time.timezone] at h1 h2
    have hdec := ct_timestamp_decode_bytes upper low ts.date.month ts.date.day ts.time.hour
      ts.time.minute ts.time.second ts.time.nanosecond
      ((timezone_bytes ts.time.timezone).take (k - B - rvlq_group_count low)) ts0 hup (by omega)
      (by omega) (by omega) (by omega) (by omega) hn (by omega)
    rw [hB] at hdec
    rw [hsrc, hdec, hpar]
    simp only [bne_self_eq_false]
    rw [if_pos h1]
    unfold FAILURE_AT_POS
    have := (rvlq_group_count_pos low).2
    omega

/-- With room for the encoded size `ct_date_encode` succeeds. -/
theorem ct_date_encode_succeeds (d : ct_date) (dst_length : Int) (hd : legal_date d)
    (hroom : (ct_date_encoded_size d : Int) ≤ dst_length) :
    0 < (ct_date_encode d dst_length).1 := by
  obtain ⟨_, _, _, hlow, hwg⟩ := date_words_eq d hd
  have hsize : ct_date_encoded_size d =
      2 + get_year_group_count (encode_year d.year) SIZE_DATE_YEAR_UPPER_BITS := rfl
  rw [hsize] at hroom
  push_cast at hroom
  rcases ct_date_encode_outcomes d dst_length with ⟨h, _⟩ | ⟨_, h, _⟩ | ⟨_, h1, _⟩
  · omega
  · rw [Nat.mod_eq_of_lt hlow] at h
    push_cast at h
    omega
  · rw [h1]
    push_cast
    omega

/-- With room for the encoded size `ct_time_encode` succeeds. -/
theorem ct_time_encode_succeeds (t : ct_time) (dst_length : Int)
    (hroom : (ct_time_encoded_size t : Int) ≤ dst_length) :
    0 < (ct_time_encode t dst_length).1 := by
  have hpos := get_base_byte_count_time_pos _ (get_subsecond_magnitude_le t.nanosecond)
  have hsize : ct_time_encoded_size t =
      get_base_byte_count BASE_SIZE_TIME (get_subsecond_magnitude t.nanosecond) +
        timezone_encoded_size t.timezone := by
    unfold ct_time_encoded_size timezone_encoded_size
    cases t.timezone <;> rfl
  rcases ct_time_encode_outcomes t dst_length with ⟨h, _⟩ | ⟨_, h, _⟩ | ⟨_, h1, _⟩
  · omega
  · omega
  · rw [h1]
    omega

/-- With room for the encoded size `ct_timestamp_encode` succeeds. -/
theorem ct_timestamp_encode_succeeds (ts : ct_timestamp) (dst_length : Int)
    (hts : legal_timestamp ts) (hroom : (ct_timestamp_encoded_size ts : Int) ≤ dst_length) :
    0 < (ct_timestamp_encode ts dst_length).1 := by
  obtain ⟨⟨_, _, _, _, hmo, _, hd⟩, hh, hmi, hs, hn, hz⟩ := hts
  have hm := get_subsecond_magnitude_le ts.time.nanosecond
  have hB4 := get_base_byte_count_timestamp_pos _ hm
  obtain ⟨_, hlow⟩ := timestamp_words_eq ts.date.year ts.date.month ts.date.day ts.time.hour
    ts.time.minute ts.time.second ts.time.nanosecond (timezone_is_zero ts.time.timezone)
    (by omega) (by omega) (by omega) (by omega) (by omega) hn
  have hlt := (timestamp_year_low_flag ts.date.year ts.time.nanosecond
    (timezone_is_zero ts.time.timezone)).1
  have hg : 1 ≤ get_year_group_count (encode_year_and_utc_flag ts.date.year
      (timezone_is_zero ts.time.timezone).toNat)
      (g_timestamp_year_upper_bits (get_subsecond_magnitude ts.time.nanosecond)) ∧
      get_year_group_count (encode_year_and_utc_flag ts.date.year
      (timezone_is_zero ts.time.timezone).toNat)
      (g_timestamp_year_upper_bits (get_subsecond_magnitude ts.time.nanosecond)) ≤ 5 := by
    rw [get_year_group_count_eq]
    exact rvlq_group_count_pos _
  have hw := rvlq_group_count_mod_le (encode_year_and_utc_flag ts.date.year
    (timezone_is_zero ts.time.timezone).toNat) _ hg.1 hg.2
  unfold BITS_PER_YEAR_GROUP at hlow
  rw [← hlow] at hw
  have hx : (encode_year ts.date.year <<< 1) % 4294967296 =
      (encode_year ts.date.year % 2147483648) * 2 := by
    rw [Nat.shiftLeft_eq]
    omega
  have hflagged : encode_year_and_utc_flag ts.date.year
      (timezone_is_zero ts.time.timezone).toNat =
      (encode_year ts.date.year % 2147483648) * 2 + (timezone_is_zero ts.time.timezone).toNat := by
    unfold encode_year_and_utc_flag
    rw [hx]
    have := Nat.mul_add_lt_is_or (i := 1) (b := (timezone_is_zero ts.time.timezone).toNat)
      (by have := Bool.toNat_lt (timezone_is_zero ts.time.timezone); omega)
      (encode_year ts.date.year % 2147483648)
    rw [Nat.mul_comm]
    simpa using this.symm
  have hfl := get_year_group_count_flag (encode_year ts.date.year % 2147483648)
    (get_subsecond_magnitude ts.time.nanosecond) (timezone_is_zero ts.time.timezone) hm
  rw [← hflagged, ← hx] at hfl
  have hsize : ct_timestamp_encoded_size ts =
      get_base_byte_count BASE_SIZE_TIMESTAMP (get_subsecond_magnitude ts.time.nanosecond) +
        get_year_group_count ((encode_year ts.date.year <<< 1) % 4294967296)
          (g_timestamp_year_upper_bits (get_subsecond_magnitude ts.time.nanosecond)) +
        timezone_encoded_size ts.time.timezone := by
    unfold ct_timestamp_encoded_size timezone_encoded_size
    cases ts.time.timezone <;> rfl
  rw [hsize, hfl] at hroom
  push_cast at hroom
  rcases ct_timestamp_encode_outcomes ts dst_length with
    ⟨h, _⟩ | ⟨_, h, _⟩ | ⟨_, h, _⟩ | ⟨_, h1, _⟩
  · omega
  · rw [Nat.mod_eq_of_lt hlt] at h
    push_cast at h
    omega
  · rw [Nat.mod_eq_of_lt hlt] at h
    push_cast at h
    omega
  · rw [h1]
    push_cast
    omega

/-- The inverse zig-zag map sends every 32-bit pattern to a 32-bit signed value whose zig-zag
image is the pattern again. -/
theorem zigzag_encode_decode (v : Nat) (hv : v < 4294967296) :
    -2147483648 ≤ zigzag_decode v ∧ zigzag_decode v ≤ 2147483647 ∧
    zigzag_encode (zigzag_decode v) = v := by
  have hd := zigzag_decode_eq v hv
  have hlo : -2147483648 ≤ zigzag_decode v := by
    rw [hd]
    split_ifs <;> omega
  have hhi : zigzag_decode v ≤ 2147483647 := by
    rw [hd]
    split_ifs <;> omega
  refine ⟨hlo, hhi, ?_⟩
  have he := zigzag_encode_eq (zigzag_decode v) hlo hhi
  have hq : (zigzag_encode (zigzag_decode v) : Int) = (v : Int) := by
    rw [he, hd]
    split_ifs <;> omega
  exact_mod_cast hq

/-- The base byte counts of time and timestamp, the latter together with the year group
count of a fixed year stream, grow strictly with the magnitude. -/
theorem base_size_strict_mono (e m m2 : Nat) (hm : m < m2) (hm2 : m2 ≤ 3) :
    get_base_byte_count BASE_SIZE_TIME m < get_base_byte_count BASE_SIZE_TIME m2 ∧
    get_base_byte_count BASE_SIZE_TIMESTAMP m +
        get_year_group_count e (g_timestamp_year_upper_bits m) <
      get_base_byte_count BASE_SIZE_TIMESTAMP m2 +
        get_year_group_count e (g_timestamp_year_upper_bits m2) := by
  rw [get_base_byte_count_time m (by omega), get_base_byte_count_time m2 hm2,
    get_base_byte_count_timestamp m (by omega), get_base_byte_count_timestamp m2 hm2,
    get_year_group_count_eq, get_year_group_count_eq]
  have he := Nat.mod_lt e (show 0 < 4294967296 by norm_num)
  generalize e % 4294967296 = v at he
  unfold rvlq_group_count
  simp only [Nat.shiftRight_eq_div_pow]
  interval_cases m2 <;> interval_cases m <;>
    simp only [g_timestamp_year_upper_bits, List.getD_cons_zero, List.getD_cons_succ] <;>
    norm_num <;> split_ifs <;> omega

/-- The low bits of the 32-bit pattern of an integer are its remainder. -/
theorem toU32_mod_cast (x : Int) :
    ((toU32 x % 16384 : Nat) : Int) = x % 16384 ∧
    ((toU32 x % 32768 : Nat) : Int) = x % 32768 := by
  unfold toU32
  have h := Int.toNat_of_nonneg (Int.emod_nonneg x (by norm_num : (4294967296 : Int) ≠ 0))
  push_cast
  rw [h]
  constructor <;> omega

/-- With room, `ct_time_encode_latlong` stores the base bytes of the time without UTC flag
and the four bytes of the coordinate word. -/
theorem ct_time_encode_latlong_eq (dst_length : Int) (hour minute second nanosecond : Nat)
    (latitude longitude : Int) (hh : hour ≤ 31) (hmi : minute ≤ 63) (hs : second ≤ 63)
    (hn : nanosecond ≤ 999999999)
    (hroom : ((get_base_byte_count BASE_SIZE_TIME (get_subsecond_magnitude nanosecond) + 4 : Nat)
      : Int) ≤ dst_length) :
    ct_time_encode_latlong dst_length hour minute second nanosecond latitude longitude =
      (((get_base_byte_count BASE_SIZE_TIME (get_subsecond_magnitude nanosecond) + 4 : Nat) : Int),
        copy_le (time_accumulator hour minute second nanosecond false)
          (get_base_byte_count BASE_SIZE_TIME (get_subsecond_magnitude nanosecond)) ++
        write_uint32_le
          (((toU32 longitude % 32768) * 16384 + toU32 latitude % 16384) * 2 + 1)) := by
  have hk := get_base_byte_count_time_pos _ (get_subsecond_magnitude_le nanosecond)
  push_cast at hroom
  unfold ct_time_encode_latlong
  rw [encode_time_base_eq _ _ _ _ _ _ hh hmi hs hn (by omega)]
  simp only []
  rw [timezone_encode_latlong_eq _ _ _ (by omega)]
  rw [if_neg (by omega), if_neg (by omega)]
  push_cast
  rfl

/-- Decoding the base bytes of a time without UTC flag followed by a coordinate word
restores the time fields and the coordinates as stored in the word. -/
theorem ct_time_decode_x_latlong (hour minute second nanosecond a o : Nat)
    (out : ct_time_decode_x_out) (hh : hour ≤ 31) (hmi : minute ≤ 63) (hs : second ≤ 63)
    (hn : nanosecond ≤ 999999999) (ha : a < 16384) (ho : o < 32768) :
    ct_time_decode_x
      (copy_le (time_accumulator hour minute second nanosecond false)
        (get_base_byte_count BASE_SIZE_TIME (get_subsecond_magnitude nanosecond)) ++
        write_uint32_le ((o * 16384 + a) * 2 + 1)) out =
      (((get_base_byte_count BASE_SIZE_TIME (get_subsecond_magnitude nanosecond) + 4 : Nat) : Int),
        { hour := hour, minute := minute, second := second, nanosecond := nanosecond,
          timezone := some (ct_timezone.latlong (a : Int) (o : Int)) }) := by
  obtain ⟨f1, f2, f3, f4, f5, f6, f7⟩ := time_accumulator_fields hour minute second
    nanosecond false hh hmi hs hn
  have hns := (subsecond_fits nanosecond hn).2
  rw [ct_time_decode_x_base _ _ _ _ (get_subsecond_magnitude_le _) f1 f2]
  simp only [f3, f4, f5, f6, f7, hns, timezone_decode_latlong a o ha ho, Bool.toNat_false,
    ne_eq, not_true_eq_false, if_false]
  rw [if_neg (by omega)]
  push_cast
  rfl

/-! ## The claims -/

/-- C1 (fails on the code): the legal dates 2064-01-01 and 10192-01-01 are both encoded to the
three bytes 21 02 00, because the low 14 bits of the zig-zag year 16384 are zero and the
reverse VLQ of zero is a single group although two groups were counted; decoding the encoding
of 10192-01-01 consumes 3 bytes and yields the year 2064. -/
theorem ct_date_roundtrip_fails_at_10192 :
    legal_date ⟨10192, 1, 1⟩ ∧ legal_date ⟨2064, 1, 1⟩ ∧
    ct_date_encode ⟨10192, 1, 1⟩ 100 = (3, [0x21, 0x02, 0x00]) ∧
    ct_date_encode ⟨2064, 1, 1⟩ 100 = (3, [0x21, 0x02, 0x00]) ∧
    ct_date_decode (ct_date_encode ⟨10192, 1, 1⟩ 100).2 ⟨0, 0, 0⟩ = (3, ⟨2064, 1, 1⟩) := by
  simp only [ct_date_encode, ct_date_encode_with, get_year_group_count_eq]
  decide

/-- C2 (as stated, fails): the legal timestamp of year 1073743824 (2000 + 2^30), 1 January,
00:00:00, Zero timezone, is decoded with the year 2000, because the 32-bit year stream drops
the top bit of the zig-zag year when the UTC flag is shifted in; and the legal timestamp
2024-02-29 00:00:00 with the LatLong timezone of latitude -3387 is decoded with latitude
12997, because the decoder does not sign-extend the coordinate fields. -/
theorem ct_timestamp_roundtrip_fails :
    legal_timestamp ⟨⟨1073743824, 1, 1⟩, ⟨0, 0, 0, 0, ct_timezone.zero⟩⟩ ∧
    ct_timestamp_decode
        (ct_timestamp_encode ⟨⟨1073743824, 1, 1⟩, ⟨0, 0, 0, 0, ct_timezone.zero⟩⟩ 100).2
        ⟨⟨0, 0, 0⟩, ⟨0, 0, 0, 0, ct_timezone.zero⟩⟩ =
      (5, ⟨⟨2000, 1, 1⟩, ⟨0, 0, 0, 0, ct_timezone.zero⟩⟩) ∧
    legal_timestamp ⟨⟨2024, 2, 29⟩, ⟨0, 0, 0, 0, ct_timezone.latlong (-3387) 15121⟩⟩ ∧
    ct_timestamp_decode
        (ct_timestamp_encode
          ⟨⟨2024, 2, 29⟩, ⟨0, 0, 0, 0, ct_timezone.latlong (-3387) 15121⟩⟩ 100).2
        ⟨⟨0, 0, 0⟩, ⟨0, 0, 0, 0, ct_timezone.zero⟩⟩ =
      (9, ⟨⟨2024, 2, 29⟩, ⟨0, 0, 0, 0, ct_timezone.latlong 12997 15121⟩⟩) := by
  simp only [ct_timestamp_encode, ct_timestamp_encode_x, ct_timestamp_encode_latlong,
    encode_timestamp_base, get_year_group_count_eq]
  decide

/-- C2 (amended): for every legal timestamp (non-zero year, month 1-12, day 1-31, hour 0-23,
minute 0-59, second 0-60, nanosecond below 10^9, timezone Zero, String of at most 40 bytes,
or LatLong) with -2^30 <= year - 2000 < 2^30, with LatLong coordinates 0 <= latitude < 2^14
and 0 <= longitude < 2^15, and whose year stream splits without loss (the shifts by 7 bits
per counted year group stay below 32 and the reverse VLQ of the low bits has exactly the
counted number of groups), and a destination of at least the encoded size,
ct_timestamp_decode applied to the bytes written by ct_timestamp_encode returns the input
timestamp in every field and consumes exactly the positive number of bytes written. -/
theorem ct_timestamp_decode_encode (ts ts0 : ct_timestamp) (dst_length : Int)
    (hts : legal_timestamp ts)
    (hll : latlong_in_field_range ts.time.timezone)
    (hlo : -1073741824 ≤ ts.date.year - 2000) (hhi : ts.date.year - 2000 < 1073741824)
    (hsplit : year_split_exact
      (encode_year_and_utc_flag ts.date.year (timezone_is_zero ts.time.timezone).toNat)
      (g_timestamp_year_upper_bits (get_subsecond_magnitude ts.time.nanosecond)))
    (hroom : (ct_timestamp_encoded_size ts : Int) ≤ dst_length) :
    ct_timestamp_decode (ct_timestamp_encode ts dst_length).2 ts0 =
      ((ct_timestamp_encode ts dst_length).1, ts) ∧
    (ct_timestamp_encode ts dst_length).1 =
      ((ct_timestamp_encode ts dst_length).2.length : Int) ∧
    0 < (ct_timestamp_encode ts dst_length).1 := by
  have hk := get_base_byte_count_timestamp_pos _ (get_subsecond_magnitude_le ts.time.nanosecond)
  have hsize := ct_timestamp_encoded_size_eq ts hts hlo hhi
  have hgroups := hsplit.2
  rw [and_mask] at hgroups
  rw [ct_timestamp_encode_eq ts dst_length hts hlo hhi hsplit hroom]
  simp only [ct_timestamp_decode_stored ts ts0 hts hll hlo hhi hsplit, hsize,
    List.length_append, copy_le_length, rvlq_bytes_length, hgroups]
  refine ⟨trivial, by push_cast; omega, ?_⟩
  omega

theorem ct_timestamp_decode_encode_witness :
    legal_timestamp ⟨⟨1970, 12, 31⟩, ⟨23, 59, 60, 123456789, ct_timezone.latlong 5252 1341⟩⟩ ∧
    (ct_timestamp_decode (ct_timestamp_encode
        ⟨⟨1970, 12, 31⟩, ⟨23, 59, 60, 123456789, ct_timezone.latlong 5252 1341⟩⟩ 13).2
        ⟨⟨0, 0, 0⟩, ⟨0, 0, 0, 0, ct_timezone.zero⟩⟩ =
      ((ct_timestamp_encode
        ⟨⟨1970, 12, 31⟩, ⟨23, 59, 60, 123456789, ct_timezone.latlong 5252 1341⟩⟩ 13).1,
        ⟨⟨1970, 12, 31⟩, ⟨23, 59, 60, 123456789, ct_timezone.latlong 5252 1341⟩⟩) ∧
    (ct_timestamp_encode
        ⟨⟨1970, 12, 31⟩, ⟨23, 59, 60, 123456789, ct_timezone.latlong 5252 1341⟩⟩ 13).1 =
      ((ct_timestamp_encode
        ⟨⟨1970, 12, 31⟩, ⟨23, 59, 60, 123456789, ct_timezone.latlong 5252 1341⟩⟩ 13).2.length
        : Int) ∧
    0 < (ct_timestamp_encode
        ⟨⟨1970, 12, 31⟩, ⟨23, 59, 60, 123456789, ct_timezone.latlong 5252 1341⟩⟩ 13).1) :=
  ⟨by decide,
    ct_timestamp_decode_encode
      ⟨⟨1970, 12, 31⟩, ⟨23, 59, 60, 123456789, ct_timezone.latlong 5252 1341⟩⟩
      ⟨⟨0, 0, 0⟩, ⟨0, 0, 0, 0, ct_timezone.zero⟩⟩ 13 (by decide) (by decide) (by decide)
      (by decide)
      (by simp only [year_split_exact, get_year_group_count_eq]; decide)
      (by simp only [ct_timestamp_encoded_size, ct_timestamp_encoded_size_latlong,
            get_timestamp_base_size, get_year_group_count_eq]; decide)⟩

/-- C3 (as stated, fails): the legal time 00:00:00 with the LatLong timezone of latitude
-3387 and longitude 15121 is decoded with latitude 12997, the low 14 bits of -3387, because
the decoder does not sign-extend the coordinate fields. -/
theorem ct_time_roundtrip_fails_negative_latitude :
    legal_time ⟨0, 0, 0, 0, ct_timezone.latlong (-3387) 15121⟩ ∧
    ct_time_decode (ct_time_encode ⟨0, 0, 0, 0, ct_timezone.latlong (-3387) 15121⟩ 100).2
        ⟨0, 0, 0, 0, ct_timezone.zero⟩ =
      (7, ⟨0, 0, 0, 0, ct_timezone.latlong 12997 15121⟩) ∧
    (ct_time_decode (ct_time_encode ⟨0, 0, 0, 0, ct_timezone.latlong (-3387) 15121⟩ 100).2
        ⟨0, 0, 0, 0, ct_timezone.zero⟩).2 ≠
      ⟨0, 0, 0, 0, ct_timezone.latlong (-3387) 15121⟩ := by
  decide

/-- C3 (amended): for every legal time (hour 0-23, minute 0-59, second 0-60, nanosecond below
10^9, timezone Zero, String of at most 40 bytes, or LatLong with 0 <= latitude < 2^14 and
0 <= longitude < 2^15) and a destination of at least the encoded size, ct_time_decode applied
to the bytes written by ct_time_encode returns the input time in every field and consumes
exactly the positive number of bytes written. -/
theorem ct_time_decode_encode (t t0 : ct_time) (dst_length : Int) (ht : legal_time t)
    (hll : latlong_in_field_range t.timezone)
    (hroom : (ct_time_encoded_size t : Int) ≤ dst_length) :
    ct_time_decode (ct_time_encode t dst_length).2 t0 = ((ct_time_encode t dst_length).1, t) ∧
    (ct_time_encode t dst_length).1 = ((ct_time_encode t dst_length).2.length : Int) ∧
    0 < (ct_time_encode t dst_length).1 := by
  have hk := get_base_byte_count_time_pos _ (get_subsecond_magnitude_le t.nanosecond)
  rw [ct_time_encode_eq t dst_length ht hroom]
  simp only [ct_time_decode_bytes t t0 ht hll, ct_time_encoded_size_eq t ht,
    List.length_append, copy_le_length]
  refine ⟨trivial, trivial, ?_⟩
  omega

theorem ct_time_decode_encode_witness :
    legal_time ⟨23, 59, 60, 123456000, ct_timezone.string [85, 84, 67]⟩ ∧
    (ct_time_decode (ct_time_encode ⟨23, 59, 60, 123456000, ct_timezone.string [85, 84, 67]⟩
        64).2 ⟨0, 0, 0, 0, ct_timezone.zero⟩ =
      ((ct_time_encode ⟨23, 59, 60, 123456000, ct_timezone.string [85, 84, 67]⟩ 64).1,
        ⟨23, 59, 60, 123456000, ct_timezone.string [85, 84, 67]⟩) ∧
    (ct_time_encode ⟨23, 59, 60, 123456000, ct_timezone.string [85, 84, 67]⟩ 64).1 =
      ((ct_time_encode ⟨23, 59, 60, 123456000, ct_timezone.string [85, 84, 67]⟩ 64).2.length
        : Int) ∧
    0 < (ct_time_encode ⟨23, 59, 60, 123456000, ct_timezone.string [85, 84, 67]⟩ 64).1) :=
  ⟨by decide,
    ct_time_decode_encode ⟨23, 59, 60, 123456000, ct_timezone.string [85, 84, 67]⟩
      ⟨0, 0, 0, 0, ct_timezone.zero⟩ 64 (by decide) (by decide) (by decide)⟩

/-- C4 (fails on the code): for the legal date 10192-01-01 ct_date_encoded_size is 4, two
base bytes plus the year group count 2, while ct_date_encode with room for 100 bytes returns
3, because the reverse VLQ of the low 14 bits of the zig-zag year, which are zero, is one
byte. -/
theorem ct_date_encoded_size_differs_at_10192 :
    legal_date ⟨10192, 1, 1⟩ ∧
    ct_date_encoded_size ⟨10192, 1, 1⟩ = 4 ∧
    get_year_group_count (encode_year 10192) SIZE_DATE_YEAR_UPPER_BITS = 2 ∧
    (ct_date_encode ⟨10192, 1, 1⟩ 100).1 = 3 ∧
    (ct_date_encode ⟨10192, 1, 1⟩ 100).2.length = 3 := by
  simp only [ct_date_encode, ct_date_encode_with, ct_date_encoded_size, ct_date_encoded_size_x,
    get_year_group_count_eq]
  decide

/-- C5 (fails on the code): for the legal timestamp 6096-01-01 00:00:00 with the Zero
timezone ct_timestamp_encoded_size is 6 while ct_timestamp_encode with room for 100 bytes
returns 5 and stores 5 bytes. -/
theorem ct_timestamp_encoded_size_differs_at_6096 :
    legal_timestamp ⟨⟨6096, 1, 1⟩, ⟨0, 0, 0, 0, ct_timezone.zero⟩⟩ ∧
    ct_timestamp_encoded_size ⟨⟨6096, 1, 1⟩, ⟨0, 0, 0, 0, ct_timezone.zero⟩⟩ = 6 ∧
    ct_timestamp_encode ⟨⟨6096, 1, 1⟩, ⟨0, 0, 0, 0, ct_timezone.zero⟩⟩ 100 =
      (5, [0x00, 0x00, 0x08, 0x11, 0x01]) := by
  simp only [ct_timestamp_encode, ct_timestamp_encode_x, encode_timestamp_base,
    ct_timestamp_encoded_size, ct_timestamp_encoded_size_x, get_timestamp_base_size,
    get_year_group_count_eq]
  decide

/-- C6: for every legal time, whatever its timezone variant, and a destination of at least
the encoded size, ct_time_encoded_size equals the positive byte count returned by
ct_time_encode, which is also the number of bytes stored: the base byte count of the
selected magnitude plus 0 bytes for Zero, 1 + the label length for String, 4 for LatLong. -/
theorem ct_time_encoded_size_matches_encode (t : ct_time) (dst_length : Int)
    (ht : legal_time t) (hroom : (ct_time_encoded_size t : Int) ≤ dst_length) :
    (ct_time_encode t dst_length).1 = (ct_time_encoded_size t : Int) ∧
    0 < (ct_time_encode t dst_length).1 ∧
    (ct_time_encode t dst_length).2.length = ct_time_encoded_size t ∧
    ct_time_encoded_size t =
      get_base_byte_count BASE_SIZE_TIME (get_subsecond_magnitude t.nanosecond) +
        (match t.timezone with
          | ct_timezone.zero => 0
          | ct_timezone.string s => 1 + s.length
          | ct_timezone.latlong _ _ => 4) := by
  have hk := get_base_byte_count_time_pos _ (get_subsecond_magnitude_le t.nanosecond)
  have hsize := ct_time_encoded_size_eq t ht
  rw [ct_time_encode_eq t dst_length ht hroom]
  simp only [List.length_append, copy_le_length]
  refine ⟨trivial, by omega, by omega, ?_⟩
  rw [hsize]
  cases t.timezone with
  | zero => simp [timezone_bytes]
  | string s => simp [timezone_bytes, Nat.add_comm]
  | latlong la lo => simp [timezone_bytes, write_uint32_le, copy_le_length]

theorem ct_time_encoded_size_matches_encode_witness :
    legal_time ⟨13, 15, 30, 1, ct_timezone.latlong 5252 1341⟩ ∧
    ((ct_time_encode ⟨13, 15, 30, 1, ct_timezone.latlong 5252 1341⟩ 11).1 =
      (ct_time_encoded_size ⟨13, 15, 30, 1, ct_timezone.latlong 5252 1341⟩ : Int) ∧
    0 < (ct_time_encode ⟨13, 15, 30, 1, ct_timezone.latlong 5252 1341⟩ 11).1 ∧
    (ct_time_encode ⟨13, 15, 30, 1, ct_timezone.latlong 5252 1341⟩ 11).2.length =
      ct_time_encoded_size ⟨13, 15, 30, 1, ct_timezone.latlong 5252 1341⟩ ∧
    ct_time_encoded_size ⟨13, 15, 30, 1, ct_timezone.latlong 5252 1341⟩ =
      get_base_byte_count BASE_SIZE_TIME (get_subsecond_magnitude 1) + 4) :=
  ⟨by decide,
    ct_time_encoded_size_matches_encode ⟨13, 15, 30, 1, ct_timezone.latlong 5252 1341⟩ 11
      (by decide) (by decide)⟩

/-- C7: for every nanosecond value below 10^9 the magnitude chosen by
get_subsecond_magnitude is the smallest m in 0..3 with n mod 10^(9-3m) = 0, and it is 0
exactly when n = 0. -/
theorem get_subsecond_magnitude_minimal (n : Nat) (h : n < 10 ^ 9) :
    get_subsecond_magnitude n ≤ 3 ∧
    n % 10 ^ (9 - 3 * get_subsecond_magnitude n) = 0 ∧
    (∀ m, m ≤ 3 → n % 10 ^ (9 - 3 * m) = 0 → get_subsecond_magnitude n ≤ m) ∧
    (get_subsecond_magnitude n = 0 ↔ n = 0) := by
  unfold get_subsecond_magnitude
  by_cases h0 : n = 0
  · subst h0
    simp
  · rw [if_neg h0]
    by_cases h3 : n % 1000 ≠ 0
    · rw [if_pos h3]
      refine ⟨by omega, by simp [Nat.mod_one], ?_, by omega⟩
      intro m hm hdiv
      interval_cases m <;> norm_num at hdiv ⊢ <;> omega
    · rw [if_neg h3]
      by_cases h6 : n % 1000000 ≠ 0
      · rw [if_pos h6]
        refine ⟨by omega, by norm_num; omega, ?_, by omega⟩
        intro m hm hdiv
        interval_cases m <;> norm_num at hdiv ⊢ <;> omega
      · rw [if_neg h6]
        refine ⟨by omega, by norm_num; omega, ?_, by omega⟩
        intro m hm hdiv
        interval_cases m <;> omega

theorem get_subsecond_magnitude_minimal_witness :
    123456000 < 10 ^ 9 ∧
    get_subsecond_magnitude 123456000 ≤ 3 ∧
    123456000 % 10 ^ (9 - 3 * get_subsecond_magnitude 123456000) = 0 ∧
    (∀ m, m ≤ 3 → 123456000 % 10 ^ (9 - 3 * m) = 0 → get_subsecond_magnitude 123456000 ≤ m) ∧
    (get_subsecond_magnitude 123456000 = 0 ↔ 123456000 = 0) :=
  ⟨by norm_num, get_subsecond_magnitude_minimal 123456000 (by norm_num)⟩

/-- C8 (fails on the code): for the legal date 10192-01-01 the encoded size is 4, yet
ct_date_encode called with dst_length 3, which is below 4, returns the positive value 3. -/
theorem ct_date_encode_short_buffer_succeeds_at_10192 :
    legal_date ⟨10192, 1, 1⟩ ∧
    ct_date_encoded_size ⟨10192, 1, 1⟩ = 4 ∧
    ct_date_encode ⟨10192, 1, 1⟩ 3 = (3, [0x21, 0x02, 0x00]) := by
  simp only [ct_date_encode, ct_date_encode_with, ct_date_encoded_size, ct_date_encoded_size_x,
    get_year_group_count_eq]
  decide

set_option maxRecDepth 16000 in

/-- C9 (fails on the code): encoding the time 00:00:00 with a String timezone label of 41
bytes and room for 100 bytes returns the positive count 45, not the out-of-range sentinel;
with a label of 200 bytes and room for 300 bytes it returns 204 and the length byte stored
is 144, the low 8 bits of 400; the timestamp encoder returns 47 for the label of 41 bytes. -/
theorem ct_time_encode_x_long_label_not_rejected :
    (ct_time_encode_x 100 0 0 0 0 (some (List.replicate 41 65))).1 = 45 ∧
    (ct_time_encode_x 100 0 0 0 0 (some (List.replicate 41 65))).1 ≠ ERROR_OUT_OF_RANGE ∧
    (ct_time_encode_x 300 0 0 0 0 (some (List.replicate 200 65))).1 = 204 ∧
    (ct_time_encode_x 300 0 0 0 0 (some (List.replicate 200 65))).2.take 4 = [0, 0, 0, 144] ∧
    (ct_timestamp_encode_x 100 2000 1 1 0 0 0 0 (some (List.replicate 41 65))).1 = 47 := by
  simp only [ct_timestamp_encode_x, encode_timestamp_base, get_year_group_count_eq]
  decide

/-- C10 (fails on the code): encoding the time with hour 32 (a value of the 8-bit hour field
that does not fit 5 bits) returns the positive count 3, not the out-of-range sentinel, and
stores the same bytes as the time 00:01:00; encoding the date 2000-16-01 returns 3 and stores
the bytes of the year 2064 with month 0; encoding the timestamp with day 32 returns 5. -/
theorem ct_encode_wide_field_not_rejected :
    ct_time_encode ⟨32, 0, 0, 0, ct_timezone.zero⟩ 100 = (3, [0x01, 0x01, 0x00]) ∧
    ct_time_encode ⟨0, 1, 0, 0, ct_timezone.zero⟩ 100 = (3, [0x01, 0x01, 0x00]) ∧
    (ct_time_encode ⟨32, 0, 0, 0, ct_timezone.zero⟩ 100).1 ≠ ERROR_OUT_OF_RANGE ∧
    ct_date_encode ⟨2000, 16, 1⟩ 100 = (3, [0x01, 0x02, 0x00]) ∧
    ct_date_encode ⟨2064, 0, 1⟩ 100 = (3, [0x01, 0x02, 0x00]) ∧
    (ct_timestamp_encode ⟨⟨2000, 1, 32⟩, ⟨0, 0, 0, 0, ct_timezone.zero⟩⟩ 100).1 = 5 := by
  simp only [ct_date_encode, ct_date_encode_with, ct_timestamp_encode, ct_timestamp_encode_x, encode_timestamp_base,
    get_year_group_count_eq]
  decide

/-- C11, counterexample: with `dst_length = 0` the date 2000-01-01 gives the result -2 and
stores nothing, so the negated result is neither within the buffer nor the number of bytes
written; the time 13:15:30 with the label "AB" and `dst_length = 4` gives -6 after storing
the three base bytes; the timestamp 2000-01-01 00:00:00 at latitude 1, longitude 1 with
`dst_length = 6` gives -9 after storing five bytes. -/
theorem ct_encode_short_buffer_result_beyond_buffer :
    ct_date_encode ⟨2000, 1, 1⟩ 0 = (-2, []) ∧
    ¬ (-(ct_date_encode ⟨2000, 1, 1⟩ 0).1 ≤ 0) ∧
    ct_time_encode ⟨13, 15, 30, 0, ct_timezone.string [65, 66]⟩ 4 = (-6, [104, 143, 7]) ∧
    ¬ (-(ct_time_encode ⟨13, 15, 30, 0, ct_timezone.string [65, 66]⟩ 4).1 ≤ 4) ∧
    ct_timestamp_encode ⟨⟨2000, 1, 1⟩, ⟨0, 0, 0, 0, ct_timezone.latlong 1 1⟩⟩ 6 =
      (-9, [0, 0, 8, 1, 0]) ∧
    ¬ (-(ct_timestamp_encode ⟨⟨2000, 1, 1⟩, ⟨0, 0, 0, 0, ct_timezone.latlong 1 1⟩⟩ 6).1 ≤ 6) := by
  have h1 : ct_date_encode ⟨2000, 1, 1⟩ 0 = (-2, []) := by
    simp only [ct_date_encode, ct_date_encode_with, get_year_group_count_eq]
    decide
  have h2 : ct_time_encode ⟨13, 15, 30, 0, ct_timezone.string [65, 66]⟩ 4 =
      (-6, [104, 143, 7]) := by
    decide
  have h3 : ct_timestamp_encode ⟨⟨2000, 1, 1⟩, ⟨0, 0, 0, 0, ct_timezone.latlong 1 1⟩⟩ 6 =
      (-9, [0, 0, 8, 1, 0]) := by
    simp only [ct_timestamp_encode, ct_timestamp_encode_latlong, encode_timestamp_base,
      get_year_group_count_eq]
    decide
  refine ⟨h1, ?_, h2, ?_, h3, ?_⟩
  · rw [h1]; decide
  · rw [h2]; decide
  · rw [h3]; decide

/-- C11, amended: every call of an encode function ends in one of these outcomes. When the
base bytes do not fit, the result is minus the base byte count (2 for a date) and nothing is
stored. When the timezone does not fit, the result is minus the offset just past the
timezone (for a time, minus the encoded size) and only the bytes before the timezone are
stored. When the year groups do not fit (dates and timestamps), the result is minus
`dst_length` and `dst_length` bytes are stored. Otherwise the result is the positive number
of bytes stored. In the first two outcomes the negated result exceeds `dst_length`. -/
theorem ct_encode_outcomes (d : ct_date) (t : ct_time) (ts : ct_timestamp) (dst_length : Int) :
    ((dst_length < 2 ∧ ct_date_encode d dst_length = (-2, [])) ∨
      (2 ≤ dst_length ∧
        dst_length < ((2 + rvlq_group_count (date_year_low d % 4294967296) : Nat) : Int) ∧
        (ct_date_encode d dst_length).1 = -dst_length ∧
        ((ct_date_encode d dst_length).2.length : Int) = dst_length) ∨
      (((2 + rvlq_group_count (date_year_low d % 4294967296) : Nat) : Int) ≤ dst_length ∧
        0 < (ct_date_encode d dst_length).1 ∧
        (ct_date_encode d dst_length).1 = ((ct_date_encode d dst_length).2.length : Int))) ∧
    ((dst_length < ((get_base_byte_count BASE_SIZE_TIME (get_subsecond_magnitude t.nanosecond)) : Int) ∧
        ct_time_encode t dst_length = (-((get_base_byte_count BASE_SIZE_TIME (get_subsecond_magnitude t.nanosecond)) : Int), [])) ∨
      (((get_base_byte_count BASE_SIZE_TIME (get_subsecond_magnitude t.nanosecond)) : Int) ≤ dst_length ∧
        dst_length < (ct_time_encoded_size t : Int) ∧
        (ct_time_encode t dst_length).1 = -(ct_time_encoded_size t : Int) ∧
        (ct_time_encode t dst_length).2.length = (get_base_byte_count BASE_SIZE_TIME (get_subsecond_magnitude t.nanosecond))) ∨
      ((ct_time_encoded_size t : Int) ≤ dst_length ∧
        0 < (ct_time_encode t dst_length).1 ∧
        (ct_time_encode t dst_length).1 = ((ct_time_encode t dst_length).2.length : Int))) ∧
    ((dst_length < ((get_base_byte_count BASE_SIZE_TIMESTAMP (get_subsecond_magnitude ts.time.nanosecond)) : Int) ∧
        ct_timestamp_encode ts dst_length = (-((get_base_byte_count BASE_SIZE_TIMESTAMP (get_subsecond_magnitude ts.time.nanosecond)) : Int), [])) ∨
      (((get_base_byte_count BASE_SIZE_TIMESTAMP (get_subsecond_magnitude ts.time.nanosecond)) : Int) ≤ dst_length ∧
        dst_length < (((get_base_byte_count BASE_SIZE_TIMESTAMP (get_subsecond_magnitude ts.time.nanosecond)) + (rvlq_group_count (timestamp_year_low ts.date.year ts.time.nanosecond
        (timezone_is_zero ts.time.timezone) % 4294967296)) : Nat) : Int) ∧
        (ct_timestamp_encode ts dst_length).1 = -dst_length ∧
        ((ct_timestamp_encode ts dst_length).2.length : Int) = dst_length) ∨
      ((((get_base_byte_count BASE_SIZE_TIMESTAMP (get_subsecond_magnitude ts.time.nanosecond)) + (rvlq_group_count (timestamp_year_low ts.date.year ts.time.nanosecond
        (timezone_is_zero ts.time.timezone) % 4294967296)) : Nat) : Int) ≤ dst_length ∧
        dst_length < (((get_base_byte_count BASE_SIZE_TIMESTAMP (get_subsecond_magnitude ts.time.nanosecond)) + (rvlq_group_count (timestamp_year_low ts.date.year ts.time.nanosecond
        (timezone_is_zero ts.time.timezone) % 4294967296)) + (timezone_encoded_size ts.time.timezone) : Nat) : Int) ∧
        (ct_timestamp_encode ts dst_length).1 = -(((get_base_byte_count BASE_SIZE_TIMESTAMP (get_subsecond_magnitude ts.time.nanosecond)) + (rvlq_group_count (timestamp_year_low ts.date.year ts.time.nanosecond
        (timezone_is_zero ts.time.timezone) % 4294967296)) + (timezone_encoded_size ts.time.timezone) : Nat) : Int) ∧
        (ct_timestamp_encode ts dst_length).2.length = (get_base_byte_count BASE_SIZE_TIMESTAMP (get_subsecond_magnitude ts.time.nanosecond)) + (rvlq_group_count (timestamp_year_low ts.date.year ts.time.nanosecond
        (timezone_is_zero ts.time.timezone) % 4294967296))) ∨
      ((((get_base_byte_count BASE_SIZE_TIMESTAMP (get_subsecond_magnitude ts.time.nanosecond)) + (rvlq_group_count (timestamp_year_low ts.date.year ts.time.nanosecond
        (timezone_is_zero ts.time.timezone) % 4294967296)) + (timezone_encoded_size ts.time.timezone) : Nat) : Int) ≤ dst_length ∧
        0 < (ct_timestamp_encode ts dst_length).1 ∧
        (ct_timestamp_encode ts dst_length).1 =
          ((ct_timestamp_encode ts dst_length).2.length : Int))) := by
  have hp1 := get_base_byte_count_time_pos _ (get_subsecond_magnitude_le t.nanosecond)
  have hp2 := get_base_byte_count_timestamp_pos _ (get_subsecond_magnitude_le ts.time.nanosecond)
  refine ⟨?_, ?_, ?_⟩
  · rcases ct_date_encode_outcomes d dst_length with h | h | ⟨h, h1, h2⟩
    · exact Or.inl h
    · exact Or.inr (Or.inl h)
    · exact Or.inr (Or.inr ⟨h, by rw [h1]; push_cast; omega, by rw [h1, h2]⟩)
  · rcases ct_time_encode_outcomes t dst_length with h | h | ⟨h, h1, h2⟩
    · exact Or.inl h
    · exact Or.inr (Or.inl h)
    · refine Or.inr (Or.inr ⟨h, ?_, by rw [h1, h2]⟩)
      rw [h1]
      have : (get_base_byte_count BASE_SIZE_TIME (get_subsecond_magnitude t.nanosecond)) ≤ ct_time_encoded_size t := by
        unfold ct_time_encoded_size ct_time_encoded_size_x ct_time_encoded_size_latlong
          get_time_nanosecond_size
        cases t.timezone <;> simp only [] <;> omega
      omega
  · rcases ct_timestamp_encode_outcomes ts dst_length with h | h | h | ⟨h, h1, h2⟩
    · exact Or.inl h
    · exact Or.inr (Or.inl h)
    · exact Or.inr (Or.inr (Or.inl h))
    · exact Or.inr (Or.inr (Or.inr ⟨h, by rw [h1]; push_cast; omega, by rw [h1, h2]⟩))

/-- C11, the amended claim at concrete inputs: for the time 13:15:30 with the label "AB"
and `dst_length = 4` the three base bytes fit and the three timezone bytes do not, so the
result is -6 with three bytes stored. -/
theorem ct_encode_outcomes_witness :
    (ct_time_encode ⟨13, 15, 30, 0, ct_timezone.string [65, 66]⟩ 4).1 = -6 ∧
    (ct_time_encode ⟨13, 15, 30, 0, ct_timezone.string [65, 66]⟩ 4).2.length = 3 := by
  have hb : get_base_byte_count BASE_SIZE_TIME (get_subsecond_magnitude 0) = 3 := by decide
  have hs : ct_time_encoded_size ⟨13, 15, 30, 0, ct_timezone.string [65, 66]⟩ = 6 := by decide
  rcases (ct_encode_outcomes ⟨2000, 1, 1⟩ ⟨13, 15, 30, 0, ct_timezone.string [65, 66]⟩
    ⟨⟨2000, 1, 1⟩, ⟨0, 0, 0, 0, ct_timezone.zero⟩⟩ 4).2.1 with ⟨h, _⟩ | ⟨_, _, h1, h2⟩ | ⟨h, _⟩
  · simp only [hb] at h
    omega
  · rw [hs] at h1
    simp only [hb] at h2
    exact ⟨h1, h2⟩
  · rw [hs] at h
    omega

/-- C12: for a legal date, time or timestamp, encoding succeeds whenever the destination
holds the encoded size, and the decode function applied to the first `k` bytes of a
successful encoding, `k` below the number of bytes stored, returns a value that is at most
zero and is not `ERROR_OUT_OF_RANGE`; this covers a year VLQ cut before its last group. -/
theorem ct_decode_truncated_is_buffer_short (d d0 : ct_date) (t t0 : ct_time)
    (ts ts0 : ct_timestamp) (dst_length : Int) (k : Nat)
    (hd : legal_date d) (ht : legal_time t) (hts : legal_timestamp ts) :
    (((ct_date_encoded_size d : Int) ≤ dst_length → 0 < (ct_date_encode d dst_length).1) ∧
      (0 < (ct_date_encode d dst_length).1 → k < (ct_date_encode d dst_length).2.length →
        (ct_date_decode ((ct_date_encode d dst_length).2.take k) d0).1 ≤ 0 ∧
        (ct_date_decode ((ct_date_encode d dst_length).2.take k) d0).1 ≠
          ERROR_OUT_OF_RANGE)) ∧
    (((ct_time_encoded_size t : Int) ≤ dst_length → 0 < (ct_time_encode t dst_length).1) ∧
      (0 < (ct_time_encode t dst_length).1 → k < (ct_time_encode t dst_length).2.length →
        (ct_time_decode ((ct_time_encode t dst_length).2.take k) t0).1 ≤ 0 ∧
        (ct_time_decode ((ct_time_encode t dst_length).2.take k) t0).1 ≠
          ERROR_OUT_OF_RANGE)) ∧
    (((ct_timestamp_encoded_size ts : Int) ≤ dst_length →
        0 < (ct_timestamp_encode ts dst_length).1) ∧
      (0 < (ct_timestamp_encode ts dst_length).1 →
        k < (ct_timestamp_encode ts dst_length).2.length →
        (ct_timestamp_decode ((ct_timestamp_encode ts dst_length).2.take k) ts0).1 ≤ 0 ∧
        (ct_timestamp_decode ((ct_timestamp_encode ts dst_length).2.take k) ts0).1 ≠
          ERROR_OUT_OF_RANGE)) := by
  have herr : ERROR_OUT_OF_RANGE = -2147483647 := by decide
  refine ⟨⟨ct_date_encode_succeeds d dst_length hd, ?_⟩,
    ⟨ct_time_encode_succeeds t dst_length, ?_⟩,
    ⟨ct_timestamp_encode_succeeds ts dst_length hts, ?_⟩⟩
  · intro hpos hk
    obtain ⟨h1, h2⟩ := ct_date_decode_truncated d d0 dst_length k hd hpos hk
    rw [herr]
    omega
  · intro hpos hk
    obtain ⟨h1, h2⟩ := ct_time_decode_truncated t t0 dst_length k ht hpos hk
    rw [herr]
    omega
  · intro hpos hk
    obtain ⟨h1, h2⟩ := ct_timestamp_decode_truncated ts ts0 dst_length k hts hpos hk
    rw [herr]
    omega

/-- C12 at concrete inputs: the first three bytes of the four-byte encoding of the date
12000-01-01 (the year VLQ cut after its first group), of the six-byte encoding of the time
13:15:30 with the label "AB", and of the nine-byte encoding of the timestamp 2000-01-01
00:00:00 at latitude 1, longitude 1. -/
theorem ct_decode_truncated_is_buffer_short_witness :
    legal_date ⟨12000, 1, 1⟩ ∧
    legal_time ⟨13, 15, 30, 0, ct_timezone.string [65, 66]⟩ ∧
    legal_timestamp ⟨⟨2000, 1, 1⟩, ⟨0, 0, 0, 0, ct_timezone.latlong 1 1⟩⟩ ∧
    ct_date_encode ⟨12000, 1, 1⟩ 100 = (4, [33, 2, 156, 32]) ∧
    ((ct_date_decode ((ct_date_encode ⟨12000, 1, 1⟩ 100).2.take 3) ⟨1, 1, 1⟩).1 ≤ 0 ∧
      (ct_date_decode ((ct_date_encode ⟨12000, 1, 1⟩ 100).2.take 3) ⟨1, 1, 1⟩).1 ≠
        ERROR_OUT_OF_RANGE) ∧
    ct_time_encode ⟨13, 15, 30, 0, ct_timezone.string [65, 66]⟩ 100 =
      (6, [104, 143, 7, 4, 65, 66]) ∧
    ((ct_time_decode ((ct_time_encode ⟨13, 15, 30, 0, ct_timezone.string [65, 66]⟩ 100).2.take 3)
        ⟨0, 0, 0, 0, ct_timezone.zero⟩).1 ≤ 0 ∧
      (ct_time_decode ((ct_time_encode ⟨13, 15, 30, 0, ct_timezone.string [65, 66]⟩ 100).2.take 3)
        ⟨0, 0, 0, 0, ct_timezone.zero⟩).1 ≠ ERROR_OUT_OF_RANGE) ∧
    ct_timestamp_encode ⟨⟨2000, 1, 1⟩, ⟨0, 0, 0, 0, ct_timezone.latlong 1 1⟩⟩ 100 =
      (9, [0, 0, 8, 1, 0, 3, 128, 0, 0]) ∧
    ((ct_timestamp_decode
        ((ct_timestamp_encode ⟨⟨2000, 1, 1⟩, ⟨0, 0, 0, 0, ct_timezone.latlong 1 1⟩⟩ 100).2.take 3)
        ⟨⟨1, 1, 1⟩, ⟨0, 0, 0, 0, ct_timezone.zero⟩⟩).1 ≤ 0 ∧
      (ct_timestamp_decode
        ((ct_timestamp_encode ⟨⟨2000, 1, 1⟩, ⟨0, 0, 0, 0, ct_timezone.latlong 1 1⟩⟩ 100).2.take 3)
        ⟨⟨1, 1, 1⟩, ⟨0, 0, 0, 0, ct_timezone.zero⟩⟩).1 ≠ ERROR_OUT_OF_RANGE) := by
  have e1 : ct_date_encode ⟨12000, 1, 1⟩ 100 = (4, [33, 2, 156, 32]) := by
    simp only [ct_date_encode, ct_date_encode_with, get_year_group_count_eq]
    decide
  have e2 : ct_time_encode ⟨13, 15, 30, 0, ct_timezone.string [65, 66]⟩ 100 =
      (6, [104, 143, 7, 4, 65, 66]) := by
    decide
  have e3 : ct_timestamp_encode ⟨⟨2000, 1, 1⟩, ⟨0, 0, 0, 0, ct_timezone.latlong 1 1⟩⟩ 100 =
      (9, [0, 0, 8, 1, 0, 3, 128, 0, 0]) := by
    simp only [ct_timestamp_encode, ct_timestamp_encode_latlong, encode_timestamp_base,
      get_year_group_count_eq]
    decide
  have h := ct_decode_truncated_is_buffer_short ⟨12000, 1, 1⟩ ⟨1, 1, 1⟩
    ⟨13, 15, 30, 0, ct_timezone.string [65, 66]⟩ ⟨0, 0, 0, 0, ct_timezone.zero⟩
    ⟨⟨2000, 1, 1⟩, ⟨0, 0, 0, 0, ct_timezone.latlong 1 1⟩⟩
    ⟨⟨1, 1, 1⟩, ⟨0, 0, 0, 0, ct_timezone.zero⟩⟩ 100 3 (by decide) (by decide) (by decide)
  exact ⟨by decide, by decide, by decide, e1,
    h.1.2 (by rw [e1]; decide) (by rw [e1]; decide), e2,
    h.2.1.2 (by rw [e2]; decide) (by rw [e2]; decide), e3,
    h.2.2.2 (by rw [e3]; decide) (by rw [e3]; decide)⟩

/-- C13: for every legal date and a destination of at least the encoded size, the bytes
written by ct_date_encode are the two little-endian bytes of the 16-bit value
(upper_year_bits << 9) | (month << 5) | day, where upper_year_bits = e >> (7 g) for the
zig-zag year e = zigzag(year - 2000) and its year group count g, followed by the reverse VLQ
of the remaining low 7 g bits of e; the date 2000-01-01 is encoded as 21 00 00 and the date
1999-12-31 as 9F 01 01. -/
theorem ct_date_encode_bytes (d : ct_date) (dst_length : Int) (hd : legal_date d)
    (hroom : (ct_date_encoded_size d : Int) ≤ dst_length) :
    (ct_date_encode d dst_length).2 =
      [(((encode_year d.year >>>
          (get_year_group_count (encode_year d.year) SIZE_DATE_YEAR_UPPER_BITS *
            BITS_PER_YEAR_GROUP)) <<< 9) ||| (d.month <<< 5) ||| d.day) % 256,
       (((encode_year d.year >>>
          (get_year_group_count (encode_year d.year) SIZE_DATE_YEAR_UPPER_BITS *
            BITS_PER_YEAR_GROUP)) <<< 9) ||| (d.month <<< 5) ||| d.day) / 256] ++
      rvlq_bytes (encode_year d.year %
        2 ^ (get_year_group_count (encode_year d.year) SIZE_DATE_YEAR_UPPER_BITS *
          BITS_PER_YEAR_GROUP)) ∧
    ((encode_year d.year >>>
          (get_year_group_count (encode_year d.year) SIZE_DATE_YEAR_UPPER_BITS *
            BITS_PER_YEAR_GROUP)) <<< 9) ||| (d.month <<< 5) ||| d.day < 65536 ∧
    (ct_date_encode d dst_length).1 = ((ct_date_encode d dst_length).2.length : Int) ∧
    ct_date_encode ⟨2000, 1, 1⟩ 3 = (3, [0x21, 0x00, 0x00]) ∧
    ct_date_encode ⟨1999, 12, 31⟩ 3 = (3, [0x9F, 0x01, 0x01]) := by
  obtain ⟨hw, hwlt, hlow, hlowlt, hle⟩ := date_words_eq d hd
  have hsize : ct_date_encoded_size d =
      2 + get_year_group_count (encode_year d.year) SIZE_DATE_YEAR_UPPER_BITS := rfl
  rw [hsize] at hroom
  push_cast at hroom
  have hg1 := (rvlq_group_count_pos (date_year_low d)).1
  rw [ct_date_encode_room d dst_length (by omega)]
  rcases rvlq_encode_32_cases (date_year_low d) (dst_length - 2) with ⟨_, hr⟩ | ⟨hc, _⟩
  · rw [Nat.mod_eq_of_lt hlowlt] at hr
    rw [hr, ← hw, ← hlow]
    simp only []
    rw [if_neg (by omega)]
    refine ⟨?_, hwlt, ?_, ?_, ?_⟩
    · have h2 : write_uint16_le (date_base_word d) =
          [date_base_word d % 256, date_base_word d / 256] := by
        unfold write_uint16_le
        rw [copy_le_succ, copy_le_succ]
        have : date_base_word d / 256 % 256 = date_base_word d / 256 := by omega
        rw [this]
        rfl
      rw [h2]
    · simp [write_uint16_le, copy_le_length, rvlq_bytes_length]
    · simp only [ct_date_encode, ct_date_encode_with, get_year_group_count_eq]
      decide
    · simp only [ct_date_encode, ct_date_encode_with, get_year_group_count_eq]
      decide
  · rw [Nat.mod_eq_of_lt hlowlt] at hc
    omega

theorem ct_date_encode_bytes_witness :
    legal_date ⟨1969, 7, 20⟩ ∧ (ct_date_encoded_size ⟨1969, 7, 20⟩ : Int) ≤ 3 ∧
    ((ct_date_encode ⟨1969, 7, 20⟩ 3).2 =
      [(((encode_year 1969 >>>
          (get_year_group_count (encode_year 1969) SIZE_DATE_YEAR_UPPER_BITS *
            BITS_PER_YEAR_GROUP)) <<< 9) ||| (7 <<< 5) ||| 20) % 256,
       (((encode_year 1969 >>>
          (get_year_group_count (encode_year 1969) SIZE_DATE_YEAR_UPPER_BITS *
            BITS_PER_YEAR_GROUP)) <<< 9) ||| (7 <<< 5) ||| 20) / 256] ++
      rvlq_bytes (encode_year 1969 %
        2 ^ (get_year_group_count (encode_year 1969) SIZE_DATE_YEAR_UPPER_BITS *
          BITS_PER_YEAR_GROUP)) ∧
    ((encode_year 1969 >>>
          (get_year_group_count (encode_year 1969) SIZE_DATE_YEAR_UPPER_BITS *
            BITS_PER_YEAR_GROUP)) <<< 9) ||| (7 <<< 5) ||| 20 < 65536 ∧
    (ct_date_encode ⟨1969, 7, 20⟩ 3).1 = ((ct_date_encode ⟨1969, 7, 20⟩ 3).2.length : Int) ∧
    ct_date_encode ⟨2000, 1, 1⟩ 3 = (3, [0x21, 0x00, 0x00]) ∧
    ct_date_encode ⟨1999, 12, 31⟩ 3 = (3, [0x9F, 0x01, 0x01])) :=
  ⟨by decide,
    by simp only [ct_date_encoded_size, ct_date_encoded_size_x, get_year_group_count_eq]; decide,
    ct_date_encode_bytes ⟨1969, 7, 20⟩ 3 (by decide)
      (by simp only [ct_date_encoded_size, ct_date_encoded_size_x, get_year_group_count_eq]
          decide)⟩

/-- C14 (as stated, fails): the bytes stored for the time 13:15:30, nanosecond 0, Zero
timezone, are 69 8F 07, not the little-endian bytes 79 4F 03 of the value
(0<<20)|(13<<14)|(15<<8)|(30<<2)|(0<<1)|1: the encoder puts the hour at bit 3 and the second
at bit 14. -/
theorem ct_time_encode_131530_not_spec_value :
    ct_time_encode ⟨13, 15, 30, 0, ct_timezone.zero⟩ 3 = (3, [0x69, 0x8F, 0x07]) ∧
    copy_le ((0 <<< 20) ||| (13 <<< 14) ||| (15 <<< 8) ||| (30 <<< 2) ||| (0 <<< 1) ||| 1) 3 =
      [0x79, 0x4F, 0x03] ∧
    (ct_time_encode ⟨13, 15, 30, 0, ct_timezone.zero⟩ 3).2 ≠
      copy_le ((0 <<< 20) ||| (13 <<< 14) ||| (15 <<< 8) ||| (30 <<< 2) ||| (0 <<< 1) ||| 1) 3 := by
  decide

/-- C14 (amended): encoding the time 13:15:30 with nanosecond 0 and the Zero timezone into a
destination of at least 3 bytes selects magnitude 0, packs the fields to the value
(0<<20)|(30<<14)|(15<<8)|(13<<3)|(0<<1)|1 (subsecond, second, minute, hour, magnitude, UTC
flag from the high end) written little-endian, and produces exactly the 3 bytes 69 8F 07 with
no trailing timezone bytes. -/
theorem ct_time_encode_131530 (dst_length : Int) (hroom : 3 ≤ dst_length) :
    get_subsecond_magnitude 0 = 0 ∧
    ct_time_encode ⟨13, 15, 30, 0, ct_timezone.zero⟩ dst_length =
      ((3 : Int), copy_le
        ((0 <<< 20) ||| (30 <<< 14) ||| (15 <<< 8) ||| (13 <<< 3) ||| (0 <<< 1) ||| 1) 3) ∧
    copy_le
        ((0 <<< 20) ||| (30 <<< 14) ||| (15 <<< 8) ||| (13 <<< 3) ||| (0 <<< 1) ||| 1) 3 =
      [0x69, 0x8F, 0x07] ∧
    timezone_encode (dst_length - 3) none = (0, []) := by
  have h := ct_time_encode_eq ⟨13, 15, 30, 0, ct_timezone.zero⟩ dst_length (by decide)
    (by
      have : ct_time_encoded_size ⟨13, 15, 30, 0, ct_timezone.zero⟩ = 3 := by decide
      rw [this]
      exact hroom)
  refine ⟨by decide, ?_, by decide, rfl⟩
  rw [h]
  decide

theorem ct_time_encode_131530_witness :
    (3 : Int) ≤ 3 ∧
    (get_subsecond_magnitude 0 = 0 ∧
    ct_time_encode ⟨13, 15, 30, 0, ct_timezone.zero⟩ 3 =
      ((3 : Int), copy_le
        ((0 <<< 20) ||| (30 <<< 14) ||| (15 <<< 8) ||| (13 <<< 3) ||| (0 <<< 1) ||| 1) 3) ∧
    copy_le
        ((0 <<< 20) ||| (30 <<< 14) ||| (15 <<< 8) ||| (13 <<< 3) ||| (0 <<< 1) ||| 1) 3 =
      [0x69, 0x8F, 0x07] ∧
    timezone_encode (3 - 3) none = (0, [])) :=
  ⟨by decide, ct_time_encode_131530 3 (by decide)⟩

/-- C15 (as stated, fails): the timestamp 2000-01-01 00:00:00, nanosecond 0, Zero timezone,
is stored as the 5 bytes 00 00 08 01 01: the inline upper year bits (bits 28 to 31 of the
base word) hold 0, not 1, and the reverse VLQ byte is 01, not 00, because the low 7 bits of
the year stream 1 go to the VLQ. -/
theorem ct_timestamp_encode_20000101_not_spec_bytes :
    ct_timestamp_encode ⟨⟨2000, 1, 1⟩, ⟨0, 0, 0, 0, ct_timezone.zero⟩⟩ 5 =
      (5, [0x00, 0x00, 0x08, 0x01, 0x01]) ∧
    read_le (ct_timestamp_encode ⟨⟨2000, 1, 1⟩, ⟨0, 0, 0, 0, ct_timezone.zero⟩⟩ 5).2 4 >>> 28
      ≠ 1 ∧
    (ct_timestamp_encode ⟨⟨2000, 1, 1⟩, ⟨0, 0, 0, 0, ct_timezone.zero⟩⟩ 5).2.drop 4 ≠ [0x00] := by
  simp only [ct_timestamp_encode, ct_timestamp_encode_x, encode_timestamp_base,
    get_year_group_count_eq]
  decide

/-- C15 (amended): encoding the timestamp 2000-01-01 00:00:00 with nanosecond 0 and the Zero
timezone into a destination of at least 5 bytes produces exactly the 5 bytes 00 00 08 01 01:
4 base bytes whose inline upper year bits (the 4 bits above the month field) hold the value
0, followed by the single reverse VLQ byte 01, the low 7 bits of the year stream
(zigzag(0) << 1) | 1 = 1. -/
theorem ct_timestamp_encode_20000101 (dst_length : Int) (hroom : 5 ≤ dst_length) :
    ct_timestamp_encode ⟨⟨2000, 1, 1⟩, ⟨0, 0, 0, 0, ct_timezone.zero⟩⟩ dst_length =
      (5, [0x00, 0x00, 0x08, 0x01] ++ [0x01]) ∧
    get_base_byte_count BASE_SIZE_TIMESTAMP (get_subsecond_magnitude 0) = 4 ∧
    read_le [0x00, 0x00, 0x08, 0x01] 4 >>> 28 = 0 ∧
    encode_year_and_utc_flag 2000 1 = 1 ∧
    rvlq_bytes (encode_year_and_utc_flag 2000 1 % 2 ^ 7) = [0x01] := by
  have hsize : ct_timestamp_encoded_size ⟨⟨2000, 1, 1⟩, ⟨0, 0, 0, 0, ct_timezone.zero⟩⟩ = 5 := by
    simp only [ct_timestamp_encoded_size, ct_timestamp_encoded_size_x, get_timestamp_base_size,
      get_year_group_count_eq]
    decide
  have h := ct_timestamp_encode_eq ⟨⟨2000, 1, 1⟩, ⟨0, 0, 0, 0, ct_timezone.zero⟩⟩ dst_length
    (by decide) (by decide) (by decide)
    (by simp only [year_split_exact, get_year_group_count_eq]; decide)
    (by rw [hsize]; exact hroom)
  refine ⟨?_, by decide, by decide, by decide, by decide⟩
  rw [h, hsize]
  simp only [get_year_group_count_eq]
  decide

theorem ct_timestamp_encode_20000101_witness :
    (5 : Int) ≤ 5 ∧
    (ct_timestamp_encode ⟨⟨2000, 1, 1⟩, ⟨0, 0, 0, 0, ct_timezone.zero⟩⟩ 5 =
      (5, [0x00, 0x00, 0x08, 0x01] ++ [0x01]) ∧
    get_base_byte_count BASE_SIZE_TIMESTAMP (get_subsecond_magnitude 0) = 4 ∧
    read_le [0x00, 0x00, 0x08, 0x01] 4 >>> 28 = 0 ∧
    encode_year_and_utc_flag 2000 1 = 1 ∧
    rvlq_bytes (encode_year_and_utc_flag 2000 1 % 2 ^ 7) = [0x01]) :=
  ⟨by decide, ct_timestamp_encode_20000101 5 (by decide)⟩

/-- C16: for every pair of integers latitude and longitude, timezone_encode_latlong with at
least 4 bytes of room returns 4 and writes exactly 4 bytes, the little-endian form of the
32-bit word w = ((longitude mod 2^15) << 14 | (latitude mod 2^14)) << 1 | 1: bit 0 of w is
the tag 1, bits 1-14 are the latitude, bits 15-29 the longitude, and bits 30-31 are zero. -/
theorem timezone_encode_latlong_word (dst_length latitude longitude : Int)
    (hroom : 4 ≤ dst_length) :
    timezone_encode_latlong dst_length latitude longitude =
      ((4 : Int), write_uint32_le
        (((((longitude % 32768).toNat <<< 14) ||| (latitude % 16384).toNat) <<< 1) ||| 1)) ∧
    write_uint32_le
        (((((longitude % 32768).toNat <<< 14) ||| (latitude % 16384).toNat) <<< 1) ||| 1) =
      [(((((longitude % 32768).toNat <<< 14) ||| (latitude % 16384).toNat) <<< 1) ||| 1) % 256,
       (((((longitude % 32768).toNat <<< 14) ||| (latitude % 16384).toNat) <<< 1) ||| 1)
          / 256 % 256,
       (((((longitude % 32768).toNat <<< 14) ||| (latitude % 16384).toNat) <<< 1) ||| 1)
          / 65536 % 256,
       (((((longitude % 32768).toNat <<< 14) ||| (latitude % 16384).toNat) <<< 1) ||| 1)
          / 16777216 % 256] ∧
    (((((longitude % 32768).toNat <<< 14) ||| (latitude % 16384).toNat) <<< 1) ||| 1) % 2 = 1 ∧
    ((((((longitude % 32768).toNat <<< 14) ||| (latitude % 16384).toNat) <<< 1) ||| 1) >>> 1)
      % 2 ^ 14 = (latitude % 2 ^ 14).toNat ∧
    ((((((longitude % 32768).toNat <<< 14) ||| (latitude % 16384).toNat) <<< 1) ||| 1) >>> 15)
      % 2 ^ 15 = (longitude % 2 ^ 15).toNat ∧
    (((((longitude % 32768).toNat <<< 14) ||| (latitude % 16384).toNat) <<< 1) ||| 1) >>> 30
      = 0 := by
  have hla : toU32 latitude % 16384 = (latitude % 16384).toNat := by
    unfold toU32
    omega
  have hlo : toU32 longitude % 32768 = (longitude % 32768).toNat := by
    unfold toU32
    omega
  have ha : (latitude % 16384).toNat < 2 ^ 14 := by omega
  have ho : (longitude % 32768).toNat < 32768 := by omega
  have hw : ((((longitude % 32768).toNat <<< 14) ||| (latitude % 16384).toNat) <<< 1) ||| 1 =
      ((longitude % 32768).toNat * 16384 + (latitude % 16384).toNat) * 2 + 1 := by
    rw [shl_or _ _ 14 ha, shl_or _ _ 1 (by norm_num)]
    norm_num
  have e14 : (2 : Int) ^ 14 = 16384 := by norm_num
  have e15 : (2 : Int) ^ 15 = 32768 := by norm_num
  rw [hw, timezone_encode_latlong_eq _ _ _ hroom, hla, hlo, e14, e15]
  generalize (latitude % 16384).toNat = a at *
  generalize (longitude % 32768).toNat = o at *
  refine ⟨rfl, ?_, by omega, ?_, ?_, ?_⟩
  · unfold write_uint32_le
    rw [copy_le_succ, copy_le_succ, copy_le_succ, copy_le_succ]
    simp only [copy_le, List.range_zero, List.map_nil, Nat.div_div_eq_div_mul]
  · rw [Nat.shiftRight_eq_div_pow]
    norm_num
    omega
  · rw [Nat.shiftRight_eq_div_pow]
    norm_num
    omega
  · rw [Nat.shiftRight_eq_div_pow]
    norm_num
    omega

theorem timezone_encode_latlong_word_witness :
    (4 : Int) ≤ 4 ∧
    (timezone_encode_latlong 4 (-3387) 15121 =
      ((4 : Int), write_uint32_le
        (((((15121 % 32768 : Int).toNat <<< 14) ||| ((-3387) % 16384 : Int).toNat) <<< 1)
          ||| 1)) ∧
    write_uint32_le
        (((((15121 % 32768 : Int).toNat <<< 14) ||| ((-3387) % 16384 : Int).toNat) <<< 1)
          ||| 1) =
      [(((((15121 % 32768 : Int).toNat <<< 14) ||| ((-3387) % 16384 : Int).toNat) <<< 1)
          ||| 1) % 256,
       (((((15121 % 32768 : Int).toNat <<< 14) ||| ((-3387) % 16384 : Int).toNat) <<< 1)
          ||| 1) / 256 % 256,
       (((((15121 % 32768 : Int).toNat <<< 14) ||| ((-3387) % 16384 : Int).toNat) <<< 1)
          ||| 1) / 65536 % 256,
       (((((15121 % 32768 : Int).toNat <<< 14) ||| ((-3387) % 16384 : Int).toNat) <<< 1)
          ||| 1) / 16777216 % 256] ∧
    (((((15121 % 32768 : Int).toNat <<< 14) ||| ((-3387) % 16384 : Int).toNat) <<< 1)
      ||| 1) % 2 = 1 ∧
    ((((((15121 % 32768 : Int).toNat <<< 14) ||| ((-3387) % 16384 : Int).toNat) <<< 1)
      ||| 1) >>> 1) % 2 ^ 14 = ((-3387) % 2 ^ 14 : Int).toNat ∧
    ((((((15121 % 32768 : Int).toNat <<< 14) ||| ((-3387) % 16384 : Int).toNat) <<< 1)
      ||| 1) >>> 15) % 2 ^ 15 = (15121 % 2 ^ 15 : Int).toNat ∧
    (((((15121 % 32768 : Int).toNat <<< 14) ||| ((-3387) % 16384 : Int).toNat) <<< 1)
      ||| 1) >>> 30 = 0) :=
  ⟨by decide, timezone_encode_latlong_word 4 (-3387) 15121 (by decide)⟩

/-- C17 (as stated, fails): the fixed fields of a timestamp are 2 + 6 + 6 + 5 + 5 + 4 = 28
bits wide, not 29, and at magnitude 2 the timestamp encoder uses 6 base bytes, while
ceil((29 + 20) / 8) is 7. -/
theorem timestamp_base_width_is_not_29 :
    BASE_SIZE_TIMESTAMP = 28 ∧ BASE_SIZE_TIMESTAMP + SIZE_SUBSECOND * 2 ≠ 29 + 10 * 2 ∧
    get_base_byte_count BASE_SIZE_TIMESTAMP 2 = 6 ∧
    get_base_byte_count BASE_SIZE_TIMESTAMP 2 ≠ (29 + 10 * 2 + 7) / 8 := by
  decide

/-- C17 (amended): for every magnitude m in 0..3 the total packed width of the fixed fields
of a timestamp is 28 + 10 m bits (magnitude 2 + second 6 + minute 6 + hour 5 + day 5 +
month 4 = 28, plus 10 bits of subsecond per magnitude step) and the number of base bytes is
ceil((28 + 10 m) / 8), that is 4, 5, 6, 8: the timestamp encoder fails with minus that count
when the destination is shorter and otherwise stores that many base bytes first, and the
decoder reports minus that count for a source that holds no byte beyond them. -/
theorem timestamp_base_width_and_bytes (m : Nat) (hm : m ≤ 3) :
    SIZE_MAGNITUDE + SIZE_SECOND + SIZE_MINUTE + SIZE_HOUR + SIZE_DAY + SIZE_MONTH = 28 ∧
    BASE_SIZE_TIMESTAMP + SIZE_SUBSECOND * m = 28 + 10 * m ∧
    get_base_byte_count BASE_SIZE_TIMESTAMP m = (28 + 10 * m + 7) / 8 ∧
    get_base_byte_count BASE_SIZE_TIMESTAMP m = [4, 5, 6, 8].getD m 0 ∧
    (∀ (dst_length year : Int) (month day hour minute second nanosecond : Nat) (u : Bool),
      get_subsecond_magnitude nanosecond = m →
      (dst_length < (get_base_byte_count BASE_SIZE_TIMESTAMP m : Int) →
        encode_timestamp_base dst_length year month day hour minute second nanosecond u =
          (-(get_base_byte_count BASE_SIZE_TIMESTAMP m : Int), [])) ∧
      ((get_base_byte_count BASE_SIZE_TIMESTAMP m : Int) ≤ dst_length →
        List.take (get_base_byte_count BASE_SIZE_TIMESTAMP m)
            (encode_timestamp_base dst_length year month day hour minute second nanosecond u).2 =
          copy_le (timestamp_base_word year month day hour minute second nanosecond u)
            (get_base_byte_count BASE_SIZE_TIMESTAMP m))) ∧
    (∀ (src : List Nat) (ts0 : ct_timestamp), 1 ≤ src.length →
      src.headD 0 &&& MASK_MAGNITUDE = m →
      src.length ≤ get_base_byte_count BASE_SIZE_TIMESTAMP m →
      ct_timestamp_decode src ts0 = (-(get_base_byte_count BASE_SIZE_TIMESTAMP m : Int), ts0))
    := by
  have hceil := get_base_byte_count_eq_ceil BASE_SIZE_TIMESTAMP m
  have hb : BASE_SIZE_TIMESTAMP = 28 := by decide
  have hs : SIZE_SUBSECOND = 10 := by decide
  rw [hb, hs] at hceil
  refine ⟨by decide, by rw [hb, hs], hceil, get_base_byte_count_timestamp m hm, ?_, ?_⟩
  · intro dst_length year month day hour minute second nanosecond u hmag
    subst hmag
    refine ⟨fun h => encode_timestamp_base_short _ _ _ _ _ _ _ _ _ h, fun h => ?_⟩
    rw [encode_timestamp_base_room _ _ _ _ _ _ _ _ _ h]
    simp only []
    rw [List.take_left' (copy_le_length _ _)]
  · intro src ts0 h1 hmag h2
    subst hmag
    exact ct_timestamp_decode_short src ts0 h1 h2

theorem timestamp_base_width_and_bytes_witness :
    (2 : Nat) ≤ 3 ∧
    (SIZE_MAGNITUDE + SIZE_SECOND + SIZE_MINUTE + SIZE_HOUR + SIZE_DAY + SIZE_MONTH = 28 ∧
    BASE_SIZE_TIMESTAMP + SIZE_SUBSECOND * 2 = 28 + 10 * 2 ∧
    get_base_byte_count BASE_SIZE_TIMESTAMP 2 = (28 + 10 * 2 + 7) / 8 ∧
    get_base_byte_count BASE_SIZE_TIMESTAMP 2 = [4, 5, 6, 8].getD 2 0 ∧
    (∀ (dst_length year : Int) (month day hour minute second nanosecond : Nat) (u : Bool),
      get_subsecond_magnitude nanosecond = 2 →
      (dst_length < (get_base_byte_count BASE_SIZE_TIMESTAMP 2 : Int) →
        encode_timestamp_base dst_length year month day hour minute second nanosecond u =
          (-(get_base_byte_count BASE_SIZE_TIMESTAMP 2 : Int), [])) ∧
      ((get_base_byte_count BASE_SIZE_TIMESTAMP 2 : Int) ≤ dst_length →
        List.take (get_base_byte_count BASE_SIZE_TIMESTAMP 2)
            (encode_timestamp_base dst_length year month day hour minute second nanosecond u).2 =
          copy_le (timestamp_base_word year month day hour minute second nanosecond u)
            (get_base_byte_count BASE_SIZE_TIMESTAMP 2))) ∧
    (∀ (src : List Nat) (ts0 : ct_timestamp), 1 ≤ src.length →
      src.headD 0 &&& MASK_MAGNITUDE = 2 →
      src.length ≤ get_base_byte_count BASE_SIZE_TIMESTAMP 2 →
      ct_timestamp_decode src ts0 = (-(get_base_byte_count BASE_SIZE_TIMESTAMP 2 : Int), ts0))) :=
  ⟨by decide, timestamp_base_width_and_bytes 2 (by decide)⟩

/-- C18: for the base sizes 20 and 28 (and in fact every base size) and every magnitude,
get_base_byte_count(base, m) is ceil((base + 10 m) / 8): the sign-bit trick
((r | -r) >> 7) & 1 on the remainder r = size mod 8 is 1 exactly when r is not 0; hence the
time base sizes are 3, 4, 5, 7 bytes for m = 0, 1, 2, 3. -/
theorem get_base_byte_count_is_ceil (base m : Nat) :
    get_base_byte_count base m = (base + 10 * m + 7) / 8 ∧
    ((base + 10 * m) % 8 = 0 → get_base_byte_count base m * 8 = base + 10 * m) ∧
    ((base + 10 * m) % 8 ≠ 0 → get_base_byte_count base m = (base + 10 * m) / 8 + 1) ∧
    (∀ r : Nat, r < 8 → ((sar32 (r ||| neg32 r) 7) &&& 1 = 1 ↔ r ≠ 0) ∧
      ((sar32 (r ||| neg32 r) 7) &&& 1 = 0 ↔ r = 0)) ∧
    (List.range 4).map (get_base_byte_count BASE_SIZE_TIME) = [3, 4, 5, 7] ∧
    BASE_SIZE_TIME = 20 ∧ BASE_SIZE_TIMESTAMP = 28 := by
  have h := get_base_byte_count_eq_ceil base m
  unfold SIZE_SUBSECOND at h
  rw [h]
  refine ⟨rfl, by intro _; omega, by intro _; omega, ?_, by decide, by decide, by decide⟩
  intro r hr
  rw [sign_bit_trick r hr]
  split_ifs <;> simp_all

/-- C19: for every 32-bit encoded year e and every inline width U (in particular 0, 2, 4, 6
and 7), get_year_group_count(e, U), whose loop is a total function, returns
max(1, ceil(b / 7)) where b is the bit length of e >> U; it returns 1 when e >> U = 0. -/
theorem get_year_group_count_is_ceil_bits (e U : Nat) (he : e < 4294967296) :
    get_year_group_count e U = max 1 ((Nat.size (e >>> U) + 6) / 7) ∧
    (e >>> U = 0 → get_year_group_count e U = 1) ∧
    1 ≤ get_year_group_count e U ∧ get_year_group_count e U ≤ 5 := by
  rw [get_year_group_count_eq, Nat.mod_eq_of_lt he]
  have hv : e >>> U < 4294967296 := by
    rw [Nat.shiftRight_eq_div_pow]
    exact lt_of_le_of_lt (Nat.div_le_self _ _) he
  generalize e >>> U = v at hv
  have s7 : Nat.size v ≤ 7 ↔ v < 2 ^ 7 := Nat.size_le
  have s14 : Nat.size v ≤ 14 ↔ v < 2 ^ 14 := Nat.size_le
  have s21 : Nat.size v ≤ 21 ↔ v < 2 ^ 21 := Nat.size_le
  have s28 : Nat.size v ≤ 28 ↔ v < 2 ^ 28 := Nat.size_le
  have s32 : Nat.size v ≤ 32 ↔ v < 2 ^ 32 := Nat.size_le
  norm_num at s7 s14 s21 s28 s32
  have hpos := rvlq_group_count_pos v
  refine ⟨?_, ?_, hpos.1, hpos.2⟩
  · unfold rvlq_group_count
    split_ifs <;> omega
  · intro h0
    subst h0
    decide

theorem get_year_group_count_is_ceil_bits_witness :
    (16384 : Nat) < 4294967296 ∧
    (get_year_group_count 16384 7 = max 1 ((Nat.size (16384 >>> 7) + 6) / 7) ∧
    (16384 >>> 7 = 0 → get_year_group_count 16384 7 = 1) ∧
    1 ≤ get_year_group_count 16384 7 ∧ get_year_group_count 16384 7 ≤ 5) :=
  ⟨by decide, get_year_group_count_is_ceil_bits 16384 7 (by decide)⟩

/-- C20: the inline part of the year never overflows its slot. For every 32-bit value e and
magnitude m in 0..3: with g = get_year_group_count(e, 7) the value e >> (7 g) is below 2^7,
so with a 4-bit month and a 5-bit day the date accumulator stays below 2^16; and with
g = get_year_group_count(e, U_m), U = [4, 2, 0, 6], the value e >> (7 g) is below 2^(U_m), so
the packed timestamp fields (with fields within their widths) stay below 2^(8 * base byte
count), the base byte counts being 4, 5, 6, 8, hence within the 64-bit accumulator. -/
theorem year_inline_bits_fit (e m month day hour minute second subsecond : Nat)
    (he : e < 4294967296) (hm : m ≤ 3) (hmo : month < 16) (hd : day < 32) (hh : hour < 32)
    (hmi : minute < 64) (hs : second < 64) (hsub : subsecond < 2 ^ (SIZE_SUBSECOND * m)) :
    e >>> (get_year_group_count e SIZE_DATE_YEAR_UPPER_BITS * BITS_PER_YEAR_GROUP) < 2 ^ 7 ∧
    (((e >>> (get_year_group_count e SIZE_DATE_YEAR_UPPER_BITS * BITS_PER_YEAR_GROUP))
        <<< SIZE_MONTH) ||| month) <<< SIZE_DAY ||| day < 2 ^ 16 ∧
    e >>> (get_year_group_count e (g_timestamp_year_upper_bits m) * BITS_PER_YEAR_GROUP) <
      2 ^ g_timestamp_year_upper_bits m ∧
    ((((((((e >>> (get_year_group_count e (g_timestamp_year_upper_bits m) *
        BITS_PER_YEAR_GROUP)) <<< (SIZE_SUBSECOND * m) + subsecond) <<< SIZE_MONTH + month)
        <<< SIZE_DAY + day) <<< SIZE_HOUR + hour) <<< SIZE_MINUTE + minute) <<< SIZE_SECOND
        + second) <<< SIZE_MAGNITUDE + m) < 2 ^ (8 * get_base_byte_count BASE_SIZE_TIMESTAMP m) ∧
    get_base_byte_count BASE_SIZE_TIMESTAMP m = [4, 5, 6, 8].getD m 0 ∧
    8 * get_base_byte_count BASE_SIZE_TIMESTAMP m ≤ 64 := by
  have hd7 := year_upper_lt e SIZE_DATE_YEAR_UPPER_BITS he
  have hup := year_upper_lt e (g_timestamp_year_upper_bits m) he
  have hk := get_base_byte_count_timestamp m hm
  generalize e >>> (get_year_group_count e SIZE_DATE_YEAR_UPPER_BITS * BITS_PER_YEAR_GROUP)
    = ud at *
  generalize e >>> (get_year_group_count e (g_timestamp_year_upper_bits m) *
    BITS_PER_YEAR_GROUP) = ut at *
  have hud : ud < 128 := by simpa [SIZE_DATE_YEAR_UPPER_BITS] using hd7
  unfold SIZE_SUBSECOND SIZE_MONTH SIZE_DAY SIZE_HOUR SIZE_MINUTE SIZE_SECOND SIZE_MAGNITUDE
    at *
  refine ⟨by omega, ?_, hup, ?_, hk, ?_⟩
  · rw [shl_or _ _ 4 (by norm_num; omega), shl_or _ _ 5 (by norm_num; omega)]
    norm_num
    omega
  · rw [hk]
    simp only [Nat.shiftLeft_eq]
    interval_cases m
    · have hu : ut < 16 := by simpa [g_timestamp_year_upper_bits] using hup
      norm_num at hsub ⊢
      omega
    · have hu : ut < 4 := by simpa [g_timestamp_year_upper_bits] using hup
      norm_num at hsub ⊢
      omega
    · have hu : ut < 1 := by simpa [g_timestamp_year_upper_bits] using hup
      norm_num at hsub ⊢
      omega
    · have hu : ut < 64 := by simpa [g_timestamp_year_upper_bits] using hup
      norm_num at hsub ⊢
      omega
  · rw [hk]
    interval_cases m <;> decide

theorem year_inline_bits_fit_witness :
    (4294967295 : Nat) < 4294967296 ∧ 3 ≤ 3 ∧ 12 < 16 ∧ 31 < 32 ∧ 23 < 32 ∧ 59 < 64 ∧
    60 < 64 ∧ 999999999 < 2 ^ (SIZE_SUBSECOND * 3) ∧
    (4294967295 >>> (get_year_group_count 4294967295 SIZE_DATE_YEAR_UPPER_BITS *
        BITS_PER_YEAR_GROUP) < 2 ^ 7 ∧
    (((4294967295 >>> (get_year_group_count 4294967295 SIZE_DATE_YEAR_UPPER_BITS *
        BITS_PER_YEAR_GROUP)) <<< SIZE_MONTH) ||| 12) <<< SIZE_DAY ||| 31 < 2 ^ 16 ∧
    4294967295 >>> (get_year_group_count 4294967295 (g_timestamp_year_upper_bits 3) *
        BITS_PER_YEAR_GROUP) < 2 ^ g_timestamp_year_upper_bits 3 ∧
    ((((((((4294967295 >>> (get_year_group_count 4294967295 (g_timestamp_year_upper_bits 3) *
        BITS_PER_YEAR_GROUP)) <<< (SIZE_SUBSECOND * 3) + 999999999) <<< SIZE_MONTH + 12)
        <<< SIZE_DAY + 31) <<< SIZE_HOUR + 23) <<< SIZE_MINUTE + 59) <<< SIZE_SECOND
        + 60) <<< SIZE_MAGNITUDE + 3) < 2 ^ (8 * get_base_byte_count BASE_SIZE_TIMESTAMP 3) ∧
    get_base_byte_count BASE_SIZE_TIMESTAMP 3 = [4, 5, 6, 8].getD 3 0 ∧
    8 * get_base_byte_count BASE_SIZE_TIMESTAMP 3 ≤ 64) :=
  ⟨by decide, by decide, by decide, by decide, by decide, by decide, by decide, by decide,
    year_inline_bits_fit 4294967295 3 12 31 23 59 60 999999999 (by decide) (by decide)
      (by decide) (by decide) (by decide) (by decide) (by decide) (by decide)⟩

/-- C21: zigzag_encode is a bijection from the 32-bit signed integers onto the 32-bit
unsigned integers with inverse zigzag_decode. For every int32 x,
zigzag_decode(zigzag_encode(x)) = x and zigzag_encode(x) is 2x for x >= 0 and -2x - 1 (an
odd value) for x < 0; two int32 values with the same image are equal; every 32-bit pattern v
is the image of the int32 value zigzag_decode(v); and decode_year(encode_year(y)) = y for
every int year y whose difference y - 2000 is an int32. -/
theorem zigzag_encode_bijection (x x2 y : Int) (v : Nat)
    (hlo : -2147483648 ≤ x) (hhi : x ≤ 2147483647)
    (hlo2 : -2147483648 ≤ x2) (hhi2 : x2 ≤ 2147483647)
    (hv : v < 4294967296)
    (hylo : -2147483648 ≤ y - 2000) (hyhi : y ≤ 2147483647) :
    zigzag_decode (zigzag_encode x) = x ∧
    (zigzag_encode x : Int) = (if 0 ≤ x then 2 * x else -2 * x - 1) ∧
    zigzag_encode x < 4294967296 ∧
    (x < 0 → zigzag_encode x % 2 = 1) ∧
    (0 ≤ x → zigzag_encode x % 2 = 0) ∧
    (zigzag_encode x = zigzag_encode x2 → x = x2) ∧
    (-2147483648 ≤ zigzag_decode v ∧ zigzag_decode v ≤ 2147483647 ∧
      zigzag_encode (zigzag_decode v) = v) ∧
    decode_year (encode_year y) = y := by
  have he := zigzag_encode_eq x hlo hhi
  refine ⟨zigzag_decode_encode x hlo hhi, he, zigzag_encode_lt x hlo hhi, ?_, ?_, ?_,
    zigzag_encode_decode v hv, decode_year_encode_year y (by omega) hyhi⟩
  · intro hneg
    rw [if_neg (by omega)] at he
    omega
  · intro hpos
    rw [if_pos hpos] at he
    omega
  · intro heq
    have h1 := zigzag_decode_encode x hlo hhi
    have h2 := zigzag_decode_encode x2 hlo2 hhi2
    rw [heq, h2] at h1
    exact h1.symm

/-- C21 at concrete inputs: x = -3 (image 5), x2 = 2, the pattern 7 (image of -4) and the
year 1969. -/
theorem zigzag_encode_bijection_witness :
    zigzag_decode (zigzag_encode (-3)) = -3 ∧
    (zigzag_encode (-3) : Int) = (if (0 : Int) ≤ -3 then 2 * (-3) else -2 * (-3) - 1) ∧
    zigzag_encode (-3) < 4294967296 ∧
    ((-3 : Int) < 0 → zigzag_encode (-3) % 2 = 1) ∧
    ((0 : Int) ≤ -3 → zigzag_encode (-3) % 2 = 0) ∧
    (zigzag_encode (-3) = zigzag_encode 2 → (-3 : Int) = 2) ∧
    (-2147483648 ≤ zigzag_decode 7 ∧ zigzag_decode 7 ≤ 2147483647 ∧
      zigzag_encode (zigzag_decode 7) = 7) ∧
    decode_year (encode_year 1969) = 1969 :=
  zigzag_encode_bijection (-3) 2 1969 7 (by decide) (by decide) (by decide) (by decide)
    (by decide) (by decide) (by decide)

/-- C22: the encoded byte length is strictly increasing in the magnitude. For magnitudes
m < m2 <= 3, get_base_byte_count(20, m) < get_base_byte_count(20, m2), and for every year
stream e, get_base_byte_count(28, m) + get_year_group_count(e, U_m) <
get_base_byte_count(28, m2) + get_year_group_count(e, U_m2) with U = [4, 2, 0, 6]. Hence for a
nanosecond count n below 10^9 and any magnitude k that represents n exactly
(n mod 10^(9 - 3k) = 0), the selected magnitude get_subsecond_magnitude(n) is at most k and
gives a length that is at most the length at k. -/
theorem encoded_length_strictly_increasing_in_magnitude (e m m2 n k : Nat)
    (hm : m < m2) (hm2 : m2 ≤ 3) (hn : n ≤ 999999999) (hk : k ≤ 3)
    (hrep : n % 10 ^ (9 - 3 * k) = 0) :
    get_base_byte_count BASE_SIZE_TIME m < get_base_byte_count BASE_SIZE_TIME m2 ∧
    get_base_byte_count BASE_SIZE_TIMESTAMP m +
        get_year_group_count e (g_timestamp_year_upper_bits m) <
      get_base_byte_count BASE_SIZE_TIMESTAMP m2 +
        get_year_group_count e (g_timestamp_year_upper_bits m2) ∧
    get_subsecond_magnitude n ≤ k ∧
    get_base_byte_count BASE_SIZE_TIME (get_subsecond_magnitude n) ≤
      get_base_byte_count BASE_SIZE_TIME k ∧
    get_base_byte_count BASE_SIZE_TIMESTAMP (get_subsecond_magnitude n) +
        get_year_group_count e (g_timestamp_year_upper_bits (get_subsecond_magnitude n)) ≤
      get_base_byte_count BASE_SIZE_TIMESTAMP k +
        get_year_group_count e (g_timestamp_year_upper_bits k) := by
  obtain ⟨h1, h2⟩ := base_size_strict_mono e m m2 hm hm2
  have hsel : get_subsecond_magnitude n ≤ k := by
    unfold get_subsecond_magnitude
    interval_cases k <;> norm_num at hrep <;> split_ifs <;> omega
  refine ⟨h1, h2, hsel, ?_, ?_⟩
  · rcases Nat.eq_or_lt_of_le hsel with heq | hlt
    · rw [heq]
    · exact le_of_lt (base_size_strict_mono e _ k hlt hk).1
  · rcases Nat.eq_or_lt_of_le hsel with heq | hlt
    · rw [heq]
    · exact le_of_lt (base_size_strict_mono e _ k hlt hk).2

/-- C22 at concrete inputs: the year stream 4001 (hex), magnitudes 2 and 3, and the
nanosecond count 5000000, which magnitude 2 represents exactly and whose selected
magnitude is 2. -/
theorem encoded_length_strictly_increasing_in_magnitude_witness :
    get_base_byte_count BASE_SIZE_TIME 2 < get_base_byte_count BASE_SIZE_TIME 3 ∧
    get_base_byte_count BASE_SIZE_TIMESTAMP 2 +
        get_year_group_count 0x4001 (g_timestamp_year_upper_bits 2) <
      get_base_byte_count BASE_SIZE_TIMESTAMP 3 +
        get_year_group_count 0x4001 (g_timestamp_year_upper_bits 3) ∧
    get_subsecond_magnitude 5000000 ≤ 2 ∧
    get_base_byte_count BASE_SIZE_TIME (get_subsecond_magnitude 5000000) ≤
      get_base_byte_count BASE_SIZE_TIME 2 ∧
    get_base_byte_count BASE_SIZE_TIMESTAMP (get_subsecond_magnitude 5000000) +
        get_year_group_count 0x4001
          (g_timestamp_year_upper_bits (get_subsecond_magnitude 5000000)) ≤
      get_base_byte_count BASE_SIZE_TIMESTAMP 2 +
        get_year_group_count 0x4001 (g_timestamp_year_upper_bits 2) :=
  encoded_length_strictly_increasing_in_magnitude 0x4001 2 3 5000000 2 (by decide) (by decide)
    (by decide) (by decide) (by decide)

/-- C23: the timestamp size calculator counts the year groups of the zig-zag year shifted
left by one without the UTC flag, the encoder those of the value with the flag, and the
counts agree: for every e (in particular every 32-bit zig-zag year), every flag f in 0..1
and every magnitude m in 0..3, get_year_group_count(e << 1, U_m) =
get_year_group_count((e << 1) | f, U_m) with U = [4, 2, 0, 6], the shift being on 32 bits. Hence get_timestamp_base_size is the base byte
count plus the group count of the year stream of encode_year_and_utc_flag. -/
theorem year_group_count_ignores_utc_flag (e f m : Nat) (year : Int) (nanosecond : Nat)
    (hf : f ≤ 1) (hm : m ≤ 3) :
    get_year_group_count ((e <<< 1) % 4294967296) (g_timestamp_year_upper_bits m) =
      get_year_group_count (((e <<< 1) % 4294967296) ||| f) (g_timestamp_year_upper_bits m) ∧
    get_timestamp_base_size year nanosecond =
      get_base_byte_count BASE_SIZE_TIMESTAMP (get_subsecond_magnitude nanosecond) +
        get_year_group_count (encode_year_and_utc_flag year f)
          (g_timestamp_year_upper_bits (get_subsecond_magnitude nanosecond)) := by
  have key : ∀ (x k : Nat), k ≤ 3 →
      get_year_group_count ((x <<< 1) % 4294967296) (g_timestamp_year_upper_bits k) =
      get_year_group_count (((x <<< 1) % 4294967296) ||| f) (g_timestamp_year_upper_bits k) := by
    intro x k hk
    have hx : (x <<< 1) % 4294967296 = (x % 2147483648) * 2 := by
      rw [Nat.shiftLeft_eq]
      omega
    obtain ⟨u, hu⟩ : ∃ u : Bool, u.toNat = f := by
      rcases Nat.le_one_iff_eq_zero_or_eq_one.mp hf with h | h
      · exact ⟨false, by rw [h]; rfl⟩
      · exact ⟨true, by rw [h]; rfl⟩
    have hor : (x % 2147483648) * 2 ||| f = (x % 2147483648) * 2 + f := by
      have := Nat.mul_add_lt_is_or (i := 1) (b := f) (by omega) (x % 2147483648)
      rw [Nat.mul_comm]
      simpa using this.symm
    rw [hx, hor, ← hu]
    exact get_year_group_count_flag (x % 2147483648) k u hk
  refine ⟨key e m hm, ?_⟩
  unfold get_timestamp_base_size encode_year_and_utc_flag
  simp only
  rw [key (encode_year year) _ (get_subsecond_magnitude_le nanosecond)]

/-- C23 at concrete inputs: e = 32 (zig-zag of the year 2016), flag 1, magnitude 2 (no inline
bits, so the flag is itself counted), year 2016 and 5000 nanoseconds. -/
theorem year_group_count_ignores_utc_flag_witness :
    get_year_group_count ((32 <<< 1) % 4294967296) (g_timestamp_year_upper_bits 2) =
      get_year_group_count (((32 <<< 1) % 4294967296) ||| 1) (g_timestamp_year_upper_bits 2) ∧
    get_timestamp_base_size 2016 5000 =
      get_base_byte_count BASE_SIZE_TIMESTAMP (get_subsecond_magnitude 5000) +
        get_year_group_count (encode_year_and_utc_flag 2016 1)
          (g_timestamp_year_upper_bits (get_subsecond_magnitude 5000)) :=
  year_group_count_ignores_utc_flag 32 1 2 2016 5000 (by decide) (by decide)

/-- C24: for every hour in 0..23, minute in 0..59, second in 0..60 and nanosecond count
below 10^9, every pair of integers latitude and longitude and a destination that holds the
base bytes and four more, ct_time_decode_x applied to the bytes written by
ct_time_encode_latlong returns the byte count written and the time fields, with the timezone
LatLong whose latitude is latitude mod 2^14 and whose longitude is longitude mod 2^15, both
non-negative (no sign extension); so the coordinates are recovered exactly if and only if
0 <= latitude < 2^14 and 0 <= longitude < 2^15. -/
theorem ct_time_latlong_decoded_modulo (hour minute second nanosecond : Nat)
    (latitude longitude dst_length : Int) (out : ct_time_decode_x_out)
    (hh : hour ≤ 23) (hmi : minute ≤ 59) (hs : second ≤ 60) (hn : nanosecond ≤ 999999999)
    (hroom : ((get_base_byte_count BASE_SIZE_TIME (get_subsecond_magnitude nanosecond) + 4 : Nat)
      : Int) ≤ dst_length) :
    (ct_time_encode_latlong dst_length hour minute second nanosecond latitude longitude).1 =
      ((get_base_byte_count BASE_SIZE_TIME (get_subsecond_magnitude nanosecond) + 4 : Nat)
        : Int) ∧
    ct_time_decode_x
        (ct_time_encode_latlong dst_length hour minute second nanosecond latitude longitude).2
        out =
      ((ct_time_encode_latlong dst_length hour minute second nanosecond latitude longitude).1,
        { hour := hour, minute := minute, second := second, nanosecond := nanosecond,
          timezone := some (ct_timezone.latlong (latitude % 16384) (longitude % 32768)) }) ∧
    (0 ≤ latitude % 16384 ∧ latitude % 16384 < 16384 ∧
      0 ≤ longitude % 32768 ∧ longitude % 32768 < 32768) ∧
    ((latitude % 16384 = latitude ∧ longitude % 32768 = longitude) ↔
      (0 ≤ latitude ∧ latitude < 16384 ∧ 0 ≤ longitude ∧ longitude < 32768)) := by
  have henc := ct_time_encode_latlong_eq dst_length hour minute second nanosecond latitude
    longitude (by omega) (by omega) (by omega) hn hroom
  have ha : toU32 latitude % 16384 < 16384 := Nat.mod_lt _ (by norm_num)
  have ho : toU32 longitude % 32768 < 32768 := Nat.mod_lt _ (by norm_num)
  have hdec := ct_time_decode_x_latlong hour minute second nanosecond (toU32 latitude % 16384)
    (toU32 longitude % 32768) out (by omega) (by omega) (by omega) hn ha ho
  obtain ⟨c1, _⟩ := toU32_mod_cast latitude
  obtain ⟨_, c2⟩ := toU32_mod_cast longitude
  rw [c1, c2] at hdec
  rw [henc]
  refine ⟨rfl, hdec, by omega, ?_⟩
  constructor
  · intro h
    omega
  · intro h
    omega

/-- C24 at a concrete input: 12:30:00 at latitude -3387 and longitude 15121 with a 7-byte
destination; the latitude comes back as 12997. -/
theorem ct_time_latlong_decoded_modulo_witness :
    ct_time_decode_x (ct_time_encode_latlong 7 12 30 0 0 (-3387) 15121).2 ⟨0, 0, 0, 0, none⟩ =
      ((ct_time_encode_latlong 7 12 30 0 0 (-3387) 15121).1,
        { hour := 12, minute := 30, second := 0, nanosecond := 0,
          timezone := some (ct_timezone.latlong ((-3387) % 16384) (15121 % 32768)) }) ∧
    ((-3387 : Int) % 16384 = 12997) ∧
    ¬ ((-3387 : Int) % 16384 = -3387 ∧ (15121 : Int) % 32768 = 15121) := by
  have h := ct_time_latlong_decoded_modulo 12 30 0 0 (-3387) 15121 7 ⟨0, 0, 0, 0, none⟩
    (by decide) (by decide) (by decide) (by decide) (by decide)
  refine ⟨h.2.1, by decide, ?_⟩
  intro hc
  have := h.2.2.2.mp hc
  omega

/-- C25: the timestamp year stream loses no information exactly on a 31-bit year window.
For every int year whose difference x = year - 2000 is an int32 and every flag f in 0..1,
the value encode_year_and_utc_flag(year, f) is a 32-bit value with low bit f, and
decode_year(encode_year_and_utc_flag(year, f) >> 1) = year if and only if
-2^30 <= x < 2^30. -/
theorem year_stream_exact_on_31_bit_window (year : Int) (f : Nat)
    (hylo : -2147483648 ≤ year - 2000) (hyhi : year ≤ 2147483647) (hf : f ≤ 1) :
    encode_year_and_utc_flag year f < 4294967296 ∧
    encode_year_and_utc_flag year f % 2 = f ∧
    encode_year_and_utc_flag year f &&& 1 = f ∧
    (decode_year (encode_year_and_utc_flag year f >>> 1) = year ↔
      (-1073741824 ≤ year - 2000 ∧ year - 2000 < 1073741824)) := by
  have hwrap := toI32_toU32 (year - 2000) hylo (by omega)
  have he := zigzag_encode_eq (year - 2000) hylo (by omega)
  have hel := zigzag_encode_lt (year - 2000) hylo (by omega)
  have hstream : encode_year_and_utc_flag year f =
      (zigzag_encode (year - 2000) % 2147483648) * 2 + f := by
    unfold encode_year_and_utc_flag encode_year YEAR_BIAS
    rw [hwrap]
    have hx : (zigzag_encode (year - 2000) <<< 1) % 4294967296 =
        (zigzag_encode (year - 2000) % 2147483648) * 2 := by
      rw [Nat.shiftLeft_eq]
      omega
    rw [hx]
    have := Nat.mul_add_lt_is_or (i := 1) (b := f) (by omega)
      (zigzag_encode (year - 2000) % 2147483648)
    rw [Nat.mul_comm]
    simpa using this.symm
  generalize zigzag_encode (year - 2000) = e at he hel hstream
  have hshift : encode_year_and_utc_flag year f >>> 1 = e % 2147483648 := by
    rw [hstream, Nat.shiftRight_eq_div_pow]
    omega
  have hzd := zigzag_decode_eq (e % 2147483648) (by omega)
  have hdec : decode_year (e % 2147483648) = zigzag_decode (e % 2147483648) + 2000 := by
    unfold decode_year YEAR_BIAS
    exact toI32_toU32 _ (by rw [hzd]; split_ifs <;> omega) (by rw [hzd]; split_ifs <;> omega)
  refine ⟨by omega, by omega, by rw [Nat.and_one_is_mod]; omega, ?_⟩
  rw [hshift, hdec, hzd]
  constructor
  · intro h
    split_ifs at he h <;> omega
  · intro h
    split_ifs at he ⊢ <;> omega

/-- C25 at concrete inputs: the year 1073743824 = 2000 + 2^30 with flag 1 lies just outside
the window, and its year stream decodes to another year. -/
theorem year_stream_exact_on_31_bit_window_witness :
    encode_year_and_utc_flag 1073743824 1 % 2 = 1 ∧
    decode_year (encode_year_and_utc_flag 1073743824 1 >>> 1) ≠ 1073743824 := by
  have h := year_stream_exact_on_31_bit_window 1073743824 1 (by decide) (by decide) (by decide)
  refine ⟨h.2.1, ?_⟩
  intro hc
  have := h.2.2.2.mp hc
  omega

end CompactTime
